import Mathlib

/-!
# Handle registry and version resolver of the Steam client emulator

A shallow embedding of `dll/steam_client.cpp` and of the parts of `dll/dll.cpp`
that own the process-wide state.  Stateful C++ methods become functions that
take the aggregate (`Steam_Client`) and return their result together with the
new aggregate.  Calls into collaborators that keep no state of the aggregate
(logging, the overlay, the controller's shutdown, the transport's listen table)
are left out.  A version token is a string; `NULL` results are `none`.
-/

namespace Gbe

/-! ## Handles and the pipe table -/

/-- The SDK's `HSteamPipe` (a 32-bit signed integer). -/
abbrev HSteamPipe := Int

/-- The SDK's `HSteamUser` (a 32-bit signed integer). -/
abbrev HSteamUser := Int

/-- The role bound to a pipe: `enum Steam_Pipe`. -/
inductive Steam_Pipe where
  | NO_USER
  | CLIENT
  | SERVER
  deriving DecidableEq, Repr

/-- The two user-handle constants `CLIENT_HSTEAMUSER` and `SERVER_HSTEAMUSER`.
Their header is not among the sources, so the functions that return or compare
them take the pair as a parameter. -/
structure UserHandles where
  CLIENT_HSTEAMUSER : HSteamUser
  SERVER_HSTEAMUSER : HSteamUser
  deriving DecidableEq, Repr

/-- The table `std::map<HSteamPipe, enum Steam_Pipe>`, as the list of its
entries. -/
abbrev StdMap := List (HSteamPipe × Steam_Pipe)

namespace StdMap

/-- The value stored under a key (`find`, `operator[]` on a present key). -/
def find : StdMap → HSteamPipe → Option Steam_Pipe
  | [], _ => none
  | (k, v) :: rest, h => if k = h then some v else find rest h

/-- The number of entries under a key: 0 or 1. -/
def count (m : StdMap) (h : HSteamPipe) : Nat :=
  if (find m h).isSome then 1 else 0

/-- The assignment `m[h] = v`: overwrites the entry of `h`, or inserts one in
key order. -/
def assign : StdMap → HSteamPipe → Steam_Pipe → StdMap
  | [], h, v => [(h, v)]
  | (k, w) :: rest, h, v =>
    if h < k then (h, v) :: (k, w) :: rest
    else if h = k then (h, v) :: rest
    else (k, w) :: assign rest h v

/-- The map after `erase(h)`. -/
def erase (m : StdMap) (h : HSteamPipe) : StdMap :=
  m.filter (fun e => decide (e.1 ≠ h))

/-- The number of entries: `size()`. -/
def size (m : StdMap) : Nat := m.length

end StdMap

/-- The conversion of the unsigned counter to the signed 32-bit `HSteamPipe`
in `HSteamPipe pipe = steam_pipe_counter++`: the low 32 bits, read as a two's
complement number. -/
def toHSteamPipe (n : Nat) : HSteamPipe :=
  if n % 2 ^ 32 < 2 ^ 31 then ((n % 2 ^ 32 : Nat) : Int)
  else ((n % 2 ^ 32 : Nat) : Int) - 2 ^ 32

/-! ## Callback objects and registries -/

/-- Modelled from the spec: the functions a call-result table can be told, with
`setCbAll`, to hand every completed result to.  The two that `dll.cpp` installs
are its own `cb_add_queue_server` and `cb_add_queue_client`. -/
inductive QueueHook where
  | cb_add_queue_server
  | cb_add_queue_client
  deriving DecidableEq, Repr

/-- Modelled from the spec: `class CCallbackBase` is declared in the SDK headers,
which are not among the sources.  A callback object is its address, the kind id
its method `GetICallback()` reports, and whether `CCallbackMgr::isServer` holds
of it (a game-server callback). -/
structure CCallbackBase where
  address : Nat
  GetICallback : Int
  isServer : Bool
  deriving DecidableEq, Repr

/-- Modelled from the spec: the class of `callbacks_server` and
`callbacks_client` (`dll/callsystem.h`) is not among the sources.  A registry
of callback registrations holds pairs (callback-kind id, target reference). -/
structure SteamCallBacks where
  callbacks : List (Int × Nat) := []
  deriving DecidableEq, Repr

/-- Modelled from the spec: `addCallBack` stores the registration. -/
def SteamCallBacks.addCallBack (r : SteamCallBacks) (iCallback : Int)
    (pCallback : CCallbackBase) : SteamCallBacks :=
  { r with callbacks := r.callbacks ++ [(iCallback, pCallback.address)] }

/-- Modelled from the spec: `rmCallBack` removes the registration of the target
under the kind id. -/
def SteamCallBacks.rmCallBack (r : SteamCallBacks) (iCallback : Int)
    (pCallback : CCallbackBase) : SteamCallBacks :=
  { r with callbacks := r.callbacks.filter (fun e => e ≠ (iCallback, pCallback.address)) }

/-- Modelled from the spec: the class of `callback_results_server` and
`callback_results_client` (`dll/callsystem.h`) is not among the sources.  A
call-result table holds registrations (async call id, target reference) and
the function installed with `setCbAll`, none at construction. -/
structure SteamCallResults where
  callbacks : List (Nat × Nat) := []
  cb_all : Option QueueHook := none
  deriving DecidableEq, Repr

/-- Modelled from the spec: `addCallBack` stores the registration. -/
def SteamCallResults.addCallBack (r : SteamCallResults) (hAPICall : Nat)
    (pCallback : CCallbackBase) : SteamCallResults :=
  { r with callbacks := r.callbacks ++ [(hAPICall, pCallback.address)] }

/-- Modelled from the spec: `rmCallBack` removes the registration of the target
under the call id. -/
def SteamCallResults.rmCallBack (r : SteamCallResults) (hAPICall : Nat)
    (pCallback : CCallbackBase) : SteamCallResults :=
  { r with callbacks := r.callbacks.filter (fun e => e ≠ (hAPICall, pCallback.address)) }

/-- Modelled from the spec: `setCbAll` installs the function every completed
result is handed to. -/
def SteamCallResults.setCbAll (r : SteamCallResults) (cb_all : QueueHook) : SteamCallResults :=
  { r with cb_all := some cb_all }

/-! ## The aggregate -/

/-- Modelled from the spec: the class declaration (`dll/steam_client.h`) is not
among the sources.  These are the fields of `class Steam_Client` that the
registry, the resolver and the callback registration read or write;
`steam_pipe_counter` is an unsigned counter that starts at 1 (the first pipe is
handle 1), kept here modulo 2^32 because only its low 32 bits reach a handle;
the booleans start false, `background_keepalive` stands for
`background_keepalive.joinable()`, and the four registries start empty. -/
structure Steam_Client where
  user_logged_in : Bool := false
  server_init : Bool := false
  background_keepalive : Bool := false
  last_cb_run : Nat := 0
  cb_run_active : Bool := false
  steam_pipe_counter : Nat := 1
  steamclient_server_inited : Bool := false
  gameserver_has_ipv6_functions : Bool := false
  steam_pipes : StdMap := []
  callbacks_server : SteamCallBacks := {}
  callbacks_client : SteamCallBacks := {}
  callback_results_server : SteamCallResults := {}
  callback_results_client : SteamCallResults := {}
  deriving DecidableEq, Repr

namespace Steam_Client

/-- The constructor `Steam_Client::Steam_Client()`: it sets
`gameserver_has_ipv6_functions = false` and `last_cb_run = 0`; the other
fields keep their in-class initialisers. -/
def new : Steam_Client :=
  { gameserver_has_ipv6_functions := false, last_cb_run := 0 }

/-- The method `Steam_Client::userLogIn`. -/
def userLogIn (s : Steam_Client) : Steam_Client :=
  { s with user_logged_in := true }

/-- The method `Steam_Client::serverInit`. -/
def serverInit (s : Steam_Client) : Steam_Client :=
  { s with server_init := true }

/-- The method `Steam_Client::IsServerInit`. -/
def IsServerInit (s : Steam_Client) : Bool := s.server_init

/-- The method `Steam_Client::IsUserLogIn`. -/
def IsUserLogIn (s : Steam_Client) : Bool := s.user_logged_in

/-- The method `Steam_Client::serverShutdown`. -/
def serverShutdown (s : Steam_Client) : Steam_Client :=
  { s with server_init := false }

/-- The method `Steam_Client::clientShutdown`. -/
def clientShutdown (s : Steam_Client) : Steam_Client :=
  { s with user_logged_in := false }

/-- The method `Steam_Client::CreateSteamPipe`: the handle is the counter's value, the
counter is post-incremented (modulo 2^32) and the handle is entered with role
`NO_USER`. -/
def CreateSteamPipe (s : Steam_Client) : HSteamPipe × Steam_Client :=
  let pipe := toHSteamPipe s.steam_pipe_counter
  (pipe, { s with
    steam_pipe_counter := (s.steam_pipe_counter + 1) % 2 ^ 32
    steam_pipes := s.steam_pipes.assign pipe Steam_Pipe.NO_USER })

/-- The method `Steam_Client::BReleaseSteamPipe`.  `erase(key)` returns the number of
entries it removed, which is `count(key)` before the call. -/
def BReleaseSteamPipe (s : Steam_Client) (hSteamPipe : HSteamPipe) : Bool × Steam_Client :=
  if s.steam_pipes.count hSteamPipe ≠ 0 then
    (decide (s.steam_pipes.count hSteamPipe > 0),
      { s with steam_pipes := s.steam_pipes.erase hSteamPipe })
  else
    (false, s)

/-- The method `Steam_Client::ConnectToGlobalUser`.  The keepalive thread is spawned when
`background_keepalive` is not joinable, which makes it joinable. -/
def ConnectToGlobalUser (K : UserHandles) (s : Steam_Client) (hSteamPipe : HSteamPipe) :
    HSteamUser × Steam_Client :=
  if s.steam_pipes.count hSteamPipe = 0 then
    (0, s)
  else
    let s1 := s.userLogIn
    let s2 := if !s1.background_keepalive then { s1 with background_keepalive := true } else s1
    (K.CLIENT_HSTEAMUSER,
      { s2 with steam_pipes := s2.steam_pipes.assign hSteamPipe Steam_Pipe.CLIENT })

/-- The method `Steam_Client::CreateLocalUser`.  `phSteamPipe` says whether the
out-parameter is non-null; the second component is what is written to it. -/
def CreateLocalUser (K : UserHandles) (s : Steam_Client) (phSteamPipe : Bool) :
    HSteamUser × Option HSteamPipe × Steam_Client :=
  let s1 := s.serverInit
  let (pipe, s2) := s1.CreateSteamPipe
  (K.SERVER_HSTEAMUSER, (if phSteamPipe then some pipe else none),
    { s2 with
      steam_pipes := s2.steam_pipes.assign pipe Steam_Pipe.SERVER
      steamclient_server_inited := true })

/-- The method `Steam_Client::ReleaseUser`. -/
def ReleaseUser (K : UserHandles) (s : Steam_Client) (hSteamPipe : HSteamPipe)
    (hUser : HSteamUser) : Steam_Client :=
  if hUser = K.SERVER_HSTEAMUSER ∧ s.steam_pipes.count hSteamPipe ≠ 0 then
    { s with steamclient_server_inited := false }
  else s

end Steam_Client

/-! ## Interface pointers -/

/-- The subsystem objects the aggregate owns, named as the members of
`Steam_Client` that point to them. -/
inductive Subsystem where
  | steam_user
  | steam_friends
  | steam_utils
  | steam_gameserver_utils
  | steam_matchmaking
  | steam_matchmaking_servers
  | steam_user_stats
  | steam_gameserverstats
  | steam_apps
  | steam_gameserver_apps
  | steam_networking
  | steam_gameserver_networking
  | steam_remote_storage
  | steam_screenshots
  | steam_http
  | steam_gameserver_http
  | steam_unified_messages
  | steam_controller
  | steam_ugc
  | steam_gameserver_ugc
  | steam_applist
  | steam_music
  | steam_musicremote
  | steam_HTMLsurface
  | steam_inventory
  | steam_gameserver_inventory
  | steam_video
  | steam_parental
  | steam_masterserver_updater
  | steam_game_search
  | steam_parties
  | steam_remoteplay
  | steam_app_ticket
  | steam_gameserver
  | steam_networking_sockets
  | steam_gameserver_networking_sockets
  | steam_networking_sockets_serialized
  | steam_gameserver_networking_sockets_serialized
  | steam_networking_messages
  | steam_gameserver_networking_messages
  | steam_networking_utils
  | steam_game_coordinator
  | steam_gameserver_game_coordinator
  | steam_tv
  deriving DecidableEq, Repr

/-- A non-null interface pointer returned by a resolver: the object it points
into and the interface class it was cast to, as in
`(ISteamUser *)(void *)(ISteamUser009 *)steam_user`.  `none` is `NULL`. -/
structure Adapter where
  object : Subsystem
  itf : String
  deriving DecidableEq, Repr

/-- An `if / else if` chain of `strcmp(pchVersion, name) == 0` tests: the value
of the first entry whose name is the token, or the default of the last
branch. -/
def strcmpChain {α : Type} : List (String × α) → α → String → α
  | [], dflt, _ => dflt
  | (name, a) :: rest, dflt, pchVersion =>
    if pchVersion = name then a else strcmpChain rest dflt pchVersion

/-- The test `strstr(pchVersion, p) == pchVersion`: the token starts with
`p`. -/
def strstrAtStart (pchVersion p : String) : Bool :=
  p.toList.isPrefixOf pchVersion.toList

namespace Steam_Client

/-- The versions that `GetISteamUser` tests by name, each with the interface class the
returned pointer is cast to. -/
def GetISteamUser_versions : List (String × String) :=
  [("SteamUser009", "ISteamUser009"),
   ("SteamUser010", "ISteamUser010"),
   ("SteamUser011", "ISteamUser011"),
   ("SteamUser012", "ISteamUser012"),
   ("SteamUser013", "ISteamUser013"),
   ("SteamUser014", "ISteamUser014"),
   ("SteamUser015", "ISteamUser015"),
   ("SteamUser016", "ISteamUser016"),
   ("SteamUser017", "ISteamUser017"),
   ("SteamUser018", "ISteamUser018"),
   ("SteamUser019", "ISteamUser019"),
   ("SteamUser020", "ISteamUser020"),
   ("SteamUser021", "ISteamUser021"),
   ("SteamUser022", "ISteamUser022")]

/-- The method `Steam_Client::GetISteamUser`.  The branch of `STEAMUSER_INTERFACE_VERSION` and the final
`else` return the same pointer and are the chain default. -/
def GetISteamUser (s : Steam_Client) (hSteamUser : HSteamUser) (hSteamPipe : HSteamPipe)
    (pchVersion : String) : Option Adapter × Steam_Client :=
  if s.steam_pipes.count hSteamPipe = 0 ∨ hSteamUser = 0 then (none, s)
  else (some ⟨Subsystem.steam_user, strcmpChain GetISteamUser_versions "ISteamUser" pchVersion⟩, s)

/-- The versions that `GetISteamFriends` tests by name, each with the interface class the
returned pointer is cast to. -/
def GetISteamFriends_versions : List (String × String) :=
  [("SteamFriends003", "ISteamFriends003"),
   ("SteamFriends004", "ISteamFriends004"),
   ("SteamFriends005", "ISteamFriends005"),
   ("SteamFriends006", "ISteamFriends006"),
   ("SteamFriends007", "ISteamFriends007"),
   ("SteamFriends008", "ISteamFriends008"),
   ("SteamFriends009", "ISteamFriends009"),
   ("SteamFriends010", "ISteamFriends010"),
   ("SteamFriends011", "ISteamFriends011"),
   ("SteamFriends012", "ISteamFriends012"),
   ("SteamFriends013", "ISteamFriends013"),
   ("SteamFriends014", "ISteamFriends014"),
   ("SteamFriends015", "ISteamFriends015"),
   ("SteamFriends016", "ISteamFriends016")]

/-- The method `Steam_Client::GetISteamFriends`.  The branch of `STEAMFRIENDS_INTERFACE_VERSION` and the final
`else` return the same pointer and are the chain default. -/
def GetISteamFriends (s : Steam_Client) (hSteamUser : HSteamUser) (hSteamPipe : HSteamPipe)
    (pchVersion : String) : Option Adapter × Steam_Client :=
  if s.steam_pipes.count hSteamPipe = 0 ∨ hSteamUser = 0 then (none, s)
  else (some ⟨Subsystem.steam_friends, strcmpChain GetISteamFriends_versions "ISteamFriends" pchVersion⟩, s)

/-- The versions that `GetISteamUtils` tests by name, each with the interface class the
returned pointer is cast to. -/
def GetISteamUtils_versions : List (String × String) :=
  [("SteamUtils002", "ISteamUtils002"),
   ("SteamUtils003", "ISteamUtils003"),
   ("SteamUtils004", "ISteamUtils004"),
   ("SteamUtils005", "ISteamUtils005"),
   ("SteamUtils006", "ISteamUtils006"),
   ("SteamUtils007", "ISteamUtils007"),
   ("SteamUtils008", "ISteamUtils008"),
   ("SteamUtils009", "ISteamUtils009")]

/-- The method `Steam_Client::GetISteamUtils`.  The branch of `STEAMUTILS_INTERFACE_VERSION` and the final
`else` return the same pointer and are the chain default. -/
def GetISteamUtils (s : Steam_Client) (hSteamPipe : HSteamPipe)
    (pchVersion : String) : Option Adapter × Steam_Client :=
  if s.steam_pipes.count hSteamPipe = 0 then (none, s)
  else
    let steam_utils_temp :=
      if s.steam_pipes.find hSteamPipe = some Steam_Pipe.SERVER then Subsystem.steam_gameserver_utils
      else Subsystem.steam_utils
    (some ⟨steam_utils_temp, strcmpChain GetISteamUtils_versions "ISteamUtils" pchVersion⟩, s)

/-- The versions that `GetISteamMatchmaking` tests by name, each with the interface class the
returned pointer is cast to. -/
def GetISteamMatchmaking_versions : List (String × String) :=
  [("SteamMatchMaking001", "ISteamMatchmaking002"),
   ("SteamMatchMaking002", "ISteamMatchmaking002"),
   ("SteamMatchMaking003", "ISteamMatchmaking003"),
   ("SteamMatchMaking004", "ISteamMatchmaking004"),
   ("SteamMatchMaking005", "ISteamMatchmaking005"),
   ("SteamMatchMaking006", "ISteamMatchmaking006"),
   ("SteamMatchMaking007", "ISteamMatchmaking007"),
   ("SteamMatchMaking008", "ISteamMatchmaking008")]

/-- The method `Steam_Client::GetISteamMatchmaking`.  The branch of `STEAMMATCHMAKING_INTERFACE_VERSION` and the final
`else` return the same pointer and are the chain default. -/
def GetISteamMatchmaking (s : Steam_Client) (hSteamUser : HSteamUser) (hSteamPipe : HSteamPipe)
    (pchVersion : String) : Option Adapter × Steam_Client :=
  if s.steam_pipes.count hSteamPipe = 0 ∨ hSteamUser = 0 then (none, s)
  else (some ⟨Subsystem.steam_matchmaking, strcmpChain GetISteamMatchmaking_versions "ISteamMatchmaking" pchVersion⟩, s)

/-- The versions that `GetISteamMatchmakingServers` tests by name, each with the interface class the
returned pointer is cast to. -/
def GetISteamMatchmakingServers_versions : List (String × String) :=
  [("SteamMatchMakingServers001", "ISteamMatchmakingServers001")]

/-- The method `Steam_Client::GetISteamMatchmakingServers`.  The branch of `STEAMMATCHMAKINGSERVERS_INTERFACE_VERSION` and the final
`else` return the same pointer and are the chain default. -/
def GetISteamMatchmakingServers (s : Steam_Client) (hSteamUser : HSteamUser) (hSteamPipe : HSteamPipe)
    (pchVersion : String) : Option Adapter × Steam_Client :=
  if s.steam_pipes.count hSteamPipe = 0 ∨ hSteamUser = 0 then (none, s)
  else (some ⟨Subsystem.steam_matchmaking_servers, strcmpChain GetISteamMatchmakingServers_versions "ISteamMatchmakingServers" pchVersion⟩, s)

/-- The versions that `GetISteamUserStats` tests by name, each with the interface class the
returned pointer is cast to. -/
def GetISteamUserStats_versions : List (String × String) :=
  [("STEAMUSERSTATS_INTERFACE_VERSION001", "ISteamUserStats003"),
   ("STEAMUSERSTATS_INTERFACE_VERSION002", "ISteamUserStats003"),
   ("STEAMUSERSTATS_INTERFACE_VERSION003", "ISteamUserStats003"),
   ("STEAMUSERSTATS_INTERFACE_VERSION004", "ISteamUserStats004"),
   ("STEAMUSERSTATS_INTERFACE_VERSION005", "ISteamUserStats005"),
   ("STEAMUSERSTATS_INTERFACE_VERSION006", "ISteamUserStats006"),
   ("STEAMUSERSTATS_INTERFACE_VERSION007", "ISteamUserStats007"),
   ("STEAMUSERSTATS_INTERFACE_VERSION008", "ISteamUserStats008"),
   ("STEAMUSERSTATS_INTERFACE_VERSION009", "ISteamUserStats009"),
   ("STEAMUSERSTATS_INTERFACE_VERSION010", "ISteamUserStats010"),
   ("STEAMUSERSTATS_INTERFACE_VERSION011", "ISteamUserStats011")]

/-- The method `Steam_Client::GetISteamUserStats`.  The branch of `STEAMUSERSTATS_INTERFACE_VERSION` and the final
`else` return the same pointer and are the chain default. -/
def GetISteamUserStats (s : Steam_Client) (hSteamUser : HSteamUser) (hSteamPipe : HSteamPipe)
    (pchVersion : String) : Option Adapter × Steam_Client :=
  if s.steam_pipes.count hSteamPipe = 0 ∨ hSteamUser = 0 then (none, s)
  else (some ⟨Subsystem.steam_user_stats, strcmpChain GetISteamUserStats_versions "ISteamUserStats" pchVersion⟩, s)

/-- The versions that `GetISteamGameServerStats` tests by name, each with the interface class the
returned pointer is cast to. -/
def GetISteamGameServerStats_versions : List (String × String) :=
  []

/-- The method `Steam_Client::GetISteamGameServerStats`.  The branch of `STEAMGAMESERVERSTATS_INTERFACE_VERSION` and the final
`else` return the same pointer and are the chain default. -/
def GetISteamGameServerStats (s : Steam_Client) (hSteamUser : HSteamUser) (hSteamPipe : HSteamPipe)
    (pchVersion : String) : Option Adapter × Steam_Client :=
  if s.steam_pipes.count hSteamPipe = 0 ∨ hSteamUser = 0 then (none, s)
  else (some ⟨Subsystem.steam_gameserverstats, strcmpChain GetISteamGameServerStats_versions "ISteamGameServerStats" pchVersion⟩, s)

/-- The versions that `GetISteamApps` tests by name, each with the interface class the
returned pointer is cast to. -/
def GetISteamApps_versions : List (String × String) :=
  [("STEAMAPPS_INTERFACE_VERSION001", "ISteamApps001"),
   ("STEAMAPPS_INTERFACE_VERSION002", "ISteamApps002"),
   ("STEAMAPPS_INTERFACE_VERSION003", "ISteamApps003"),
   ("STEAMAPPS_INTERFACE_VERSION004", "ISteamApps004"),
   ("STEAMAPPS_INTERFACE_VERSION005", "ISteamApps005"),
   ("STEAMAPPS_INTERFACE_VERSION006", "ISteamApps006"),
   ("STEAMAPPS_INTERFACE_VERSION007", "ISteamApps007")]

/-- The method `Steam_Client::GetISteamApps`.  The branch of `STEAMAPPS_INTERFACE_VERSION` and the final
`else` return the same pointer and are the chain default. -/
def GetISteamApps (s : Steam_Client) (hSteamUser : HSteamUser) (hSteamPipe : HSteamPipe)
    (pchVersion : String) : Option Adapter × Steam_Client :=
  if s.steam_pipes.count hSteamPipe = 0 ∨ hSteamUser = 0 then (none, s)
  else
    let steam_apps_temp :=
      if s.steam_pipes.find hSteamPipe = some Steam_Pipe.SERVER then Subsystem.steam_gameserver_apps
      else Subsystem.steam_apps
    (some ⟨steam_apps_temp, strcmpChain GetISteamApps_versions "ISteamApps" pchVersion⟩, s)

/-- The versions that `GetISteamNetworking` tests by name, each with the interface class the
returned pointer is cast to. -/
def GetISteamNetworking_versions : List (String × String) :=
  [("SteamNetworking001", "ISteamNetworking001"),
   ("SteamNetworking002", "ISteamNetworking002"),
   ("SteamNetworking003", "ISteamNetworking003"),
   ("SteamNetworking004", "ISteamNetworking004"),
   ("SteamNetworking005", "ISteamNetworking005")]

/-- The method `Steam_Client::GetISteamNetworking`.  The branch of `STEAMNETWORKING_INTERFACE_VERSION` and the final
`else` return the same pointer and are the chain default. -/
def GetISteamNetworking (s : Steam_Client) (hSteamUser : HSteamUser) (hSteamPipe : HSteamPipe)
    (pchVersion : String) : Option Adapter × Steam_Client :=
  if s.steam_pipes.count hSteamPipe = 0 ∨ hSteamUser = 0 then (none, s)
  else
    let steam_networking_temp :=
      if s.steam_pipes.find hSteamPipe = some Steam_Pipe.SERVER then Subsystem.steam_gameserver_networking
      else Subsystem.steam_networking
    (some ⟨steam_networking_temp, strcmpChain GetISteamNetworking_versions "ISteamNetworking" pchVersion⟩, s)

/-- The versions that `GetISteamRemoteStorage` tests by name, each with the interface class the
returned pointer is cast to. -/
def GetISteamRemoteStorage_versions : List (String × String) :=
  [("STEAMREMOTESTORAGE_INTERFACE_VERSION001", "ISteamRemoteStorage001"),
   ("STEAMREMOTESTORAGE_INTERFACE_VERSION002", "ISteamRemoteStorage002"),
   ("STEAMREMOTESTORAGE_INTERFACE_VERSION003", "ISteamRemoteStorage003"),
   ("STEAMREMOTESTORAGE_INTERFACE_VERSION004", "ISteamRemoteStorage004"),
   ("STEAMREMOTESTORAGE_INTERFACE_VERSION005", "ISteamRemoteStorage005"),
   ("STEAMREMOTESTORAGE_INTERFACE_VERSION006", "ISteamRemoteStorage006"),
   ("STEAMREMOTESTORAGE_INTERFACE_VERSION007", "ISteamRemoteStorage007"),
   ("STEAMREMOTESTORAGE_INTERFACE_VERSION008", "ISteamRemoteStorage008"),
   ("STEAMREMOTESTORAGE_INTERFACE_VERSION009", "ISteamRemoteStorage009"),
   ("STEAMREMOTESTORAGE_INTERFACE_VERSION010", "ISteamRemoteStorage010"),
   ("STEAMREMOTESTORAGE_INTERFACE_VERSION011", "ISteamRemoteStorage011"),
   ("STEAMREMOTESTORAGE_INTERFACE_VERSION012", "ISteamRemoteStorage012"),
   ("STEAMREMOTESTORAGE_INTERFACE_VERSION013", "ISteamRemoteStorage013"),
   ("STEAMREMOTESTORAGE_INTERFACE_VERSION014", "ISteamRemoteStorage014")]

/-- The method `Steam_Client::GetISteamRemoteStorage`.  The branch of `STEAMREMOTESTORAGE_INTERFACE_VERSION` and the final
`else` return the same pointer and are the chain default. -/
def GetISteamRemoteStorage (s : Steam_Client) (hSteamUser : HSteamUser) (hSteamPipe : HSteamPipe)
    (pchVersion : String) : Option Adapter × Steam_Client :=
  if s.steam_pipes.count hSteamPipe = 0 ∨ hSteamUser = 0 then (none, s)
  else (some ⟨Subsystem.steam_remote_storage, strcmpChain GetISteamRemoteStorage_versions "ISteamRemoteStorage" pchVersion⟩, s)

/-- The versions that `GetISteamScreenshots` tests by name, each with the interface class the
returned pointer is cast to. -/
def GetISteamScreenshots_versions : List (String × String) :=
  []

/-- The method `Steam_Client::GetISteamScreenshots`.  The branch of `STEAMSCREENSHOTS_INTERFACE_VERSION` and the final
`else` return the same pointer and are the chain default. -/
def GetISteamScreenshots (s : Steam_Client) (hSteamUser : HSteamUser) (hSteamPipe : HSteamPipe)
    (pchVersion : String) : Option Adapter × Steam_Client :=
  if s.steam_pipes.count hSteamPipe = 0 ∨ hSteamUser = 0 then (none, s)
  else (some ⟨Subsystem.steam_screenshots, strcmpChain GetISteamScreenshots_versions "ISteamScreenshots" pchVersion⟩, s)

/-- The versions that `GetISteamHTTP` tests by name, each with the interface class the
returned pointer is cast to. -/
def GetISteamHTTP_versions : List (String × String) :=
  [("STEAMHTTP_INTERFACE_VERSION001", "ISteamHTTP001"),
   ("STEAMHTTP_INTERFACE_VERSION002", "ISteamHTTP002")]

/-- The method `Steam_Client::GetISteamHTTP`.  The branch of `STEAMHTTP_INTERFACE_VERSION` and the final
`else` return the same pointer and are the chain default. -/
def GetISteamHTTP (s : Steam_Client) (hSteamUser : HSteamUser) (hSteamPipe : HSteamPipe)
    (pchVersion : String) : Option Adapter × Steam_Client :=
  if s.steam_pipes.count hSteamPipe = 0 ∨ hSteamUser = 0 then (none, s)
  else
    let steam_http_temp :=
      if s.steam_pipes.find hSteamPipe = some Steam_Pipe.SERVER then Subsystem.steam_gameserver_http
      else Subsystem.steam_http
    (some ⟨steam_http_temp, strcmpChain GetISteamHTTP_versions "ISteamHTTP" pchVersion⟩, s)

/-- The versions that `DEPRECATED_GetISteamUnifiedMessages` tests by name, each with the interface class the
returned pointer is cast to. -/
def DEPRECATED_GetISteamUnifiedMessages_versions : List (String × String) :=
  []

/-- The method `Steam_Client::DEPRECATED_GetISteamUnifiedMessages`.  The branch of `STEAMUNIFIEDMESSAGES_INTERFACE_VERSION` and the final
`else` return the same pointer and are the chain default. -/
def DEPRECATED_GetISteamUnifiedMessages (s : Steam_Client) (hSteamUser : HSteamUser) (hSteamPipe : HSteamPipe)
    (pchVersion : String) : Option Adapter × Steam_Client :=
  if s.steam_pipes.count hSteamPipe = 0 ∨ hSteamUser = 0 then (none, s)
  else (some ⟨Subsystem.steam_unified_messages, strcmpChain DEPRECATED_GetISteamUnifiedMessages_versions "ISteamUnifiedMessages" pchVersion⟩, s)

/-- The versions that `GetISteamUnifiedMessages` tests by name, each with the interface class the
returned pointer is cast to. -/
def GetISteamUnifiedMessages_versions : List (String × String) :=
  []

/-- The method `Steam_Client::GetISteamUnifiedMessages`.  The branch of `STEAMUNIFIEDMESSAGES_INTERFACE_VERSION` and the final
`else` return the same pointer and are the chain default. -/
def GetISteamUnifiedMessages (s : Steam_Client) (hSteamUser : HSteamUser) (hSteamPipe : HSteamPipe)
    (pchVersion : String) : Option Adapter × Steam_Client :=
  if s.steam_pipes.count hSteamPipe = 0 ∨ hSteamUser = 0 then (none, s)
  else (some ⟨Subsystem.steam_unified_messages, strcmpChain GetISteamUnifiedMessages_versions "ISteamUnifiedMessages" pchVersion⟩, s)

/-- The versions that `GetISteamController` tests by name, each with the interface class the
returned pointer is cast to. -/
def GetISteamController_versions : List (String × String) :=
  [("STEAMCONTROLLER_INTERFACE_VERSION", "ISteamController001"),
   ("STEAMCONTROLLER_INTERFACE_VERSION_002", "ISteamController003"),
   ("SteamController003", "ISteamController003"),
   ("SteamController004", "ISteamController004"),
   ("SteamController005", "ISteamController005"),
   ("SteamController006", "ISteamController006"),
   ("SteamController007", "ISteamController007")]

/-- The method `Steam_Client::GetISteamController`.  The branch of `STEAMCONTROLLER_INTERFACE_VERSION` and the final
`else` return the same pointer and are the chain default. -/
def GetISteamController (s : Steam_Client) (hSteamUser : HSteamUser) (hSteamPipe : HSteamPipe)
    (pchVersion : String) : Option Adapter × Steam_Client :=
  if s.steam_pipes.count hSteamPipe = 0 ∨ hSteamUser = 0 then (none, s)
  else (some ⟨Subsystem.steam_controller, strcmpChain GetISteamController_versions "ISteamController" pchVersion⟩, s)

/-- The versions that `GetISteamUGC` tests by name, each with the interface class the
returned pointer is cast to. -/
def GetISteamUGC_versions : List (String × String) :=
  [("STEAMUGC_INTERFACE_VERSION", "ISteamUGC001"),
   ("STEAMUGC_INTERFACE_VERSION001", "ISteamUGC001"),
   ("STEAMUGC_INTERFACE_VERSION002", "ISteamUGC002"),
   ("STEAMUGC_INTERFACE_VERSION003", "ISteamUGC003"),
   ("STEAMUGC_INTERFACE_VERSION004", "ISteamUGC004"),
   ("STEAMUGC_INTERFACE_VERSION005", "ISteamUGC005"),
   ("STEAMUGC_INTERFACE_VERSION006", "ISteamUGC006"),
   ("STEAMUGC_INTERFACE_VERSION007", "ISteamUGC007"),
   ("STEAMUGC_INTERFACE_VERSION008", "ISteamUGC008"),
   ("STEAMUGC_INTERFACE_VERSION009", "ISteamUGC009"),
   ("STEAMUGC_INTERFACE_VERSION010", "ISteamUGC010"),
   ("STEAMUGC_INTERFACE_VERSION011", "ISteamUGC012"),
   ("STEAMUGC_INTERFACE_VERSION012", "ISteamUGC012"),
   ("STEAMUGC_INTERFACE_VERSION013", "ISteamUGC013"),
   ("STEAMUGC_INTERFACE_VERSION014", "ISteamUGC014"),
   ("STEAMUGC_INTERFACE_VERSION015", "ISteamUGC015"),
   ("STEAMUGC_INTERFACE_VERSION016", "ISteamUGC016"),
   ("STEAMUGC_INTERFACE_VERSION017", "ISteamUGC017")]

/-- The method `Steam_Client::GetISteamUGC`.  The branch of `STEAMUGC_INTERFACE_VERSION` and the final
`else` return the same pointer and are the chain default. -/
def GetISteamUGC (s : Steam_Client) (hSteamUser : HSteamUser) (hSteamPipe : HSteamPipe)
    (pchVersion : String) : Option Adapter × Steam_Client :=
  if s.steam_pipes.count hSteamPipe = 0 ∨ hSteamUser = 0 then (none, s)
  else
    let steam_ugc_temp :=
      if s.steam_pipes.find hSteamPipe = some Steam_Pipe.SERVER then Subsystem.steam_gameserver_ugc
      else Subsystem.steam_ugc
    (some ⟨steam_ugc_temp, strcmpChain GetISteamUGC_versions "ISteamUGC" pchVersion⟩, s)

/-- The versions that `GetISteamAppList` tests by name, each with the interface class the
returned pointer is cast to. -/
def GetISteamAppList_versions : List (String × String) :=
  []

/-- The method `Steam_Client::GetISteamAppList`.  The branch of `STEAMAPPLIST_INTERFACE_VERSION` and the final
`else` return the same pointer and are the chain default. -/
def GetISteamAppList (s : Steam_Client) (hSteamUser : HSteamUser) (hSteamPipe : HSteamPipe)
    (pchVersion : String) : Option Adapter × Steam_Client :=
  if s.steam_pipes.count hSteamPipe = 0 ∨ hSteamUser = 0 then (none, s)
  else (some ⟨Subsystem.steam_applist, strcmpChain GetISteamAppList_versions "ISteamAppList" pchVersion⟩, s)

/-- The versions that `GetISteamMusic` tests by name, each with the interface class the
returned pointer is cast to. -/
def GetISteamMusic_versions : List (String × String) :=
  []

/-- The method `Steam_Client::GetISteamMusic`.  The branch of `STEAMMUSIC_INTERFACE_VERSION` and the final
`else` return the same pointer and are the chain default. -/
def GetISteamMusic (s : Steam_Client) (hSteamUser : HSteamUser) (hSteamPipe : HSteamPipe)
    (pchVersion : String) : Option Adapter × Steam_Client :=
  if s.steam_pipes.count hSteamPipe = 0 ∨ hSteamUser = 0 then (none, s)
  else (some ⟨Subsystem.steam_music, strcmpChain GetISteamMusic_versions "ISteamMusic" pchVersion⟩, s)

/-- The versions that `GetISteamMusicRemote` tests by name, each with the interface class the
returned pointer is cast to. -/
def GetISteamMusicRemote_versions : List (String × String) :=
  []

/-- The method `Steam_Client::GetISteamMusicRemote`.  The branch of `STEAMMUSICREMOTE_INTERFACE_VERSION` and the final
`else` return the same pointer and are the chain default. -/
def GetISteamMusicRemote (s : Steam_Client) (hSteamUser : HSteamUser) (hSteamPipe : HSteamPipe)
    (pchVersion : String) : Option Adapter × Steam_Client :=
  if s.steam_pipes.count hSteamPipe = 0 ∨ hSteamUser = 0 then (none, s)
  else (some ⟨Subsystem.steam_musicremote, strcmpChain GetISteamMusicRemote_versions "ISteamMusicRemote" pchVersion⟩, s)

/-- The versions that `GetISteamHTMLSurface` tests by name, each with the interface class the
returned pointer is cast to. -/
def GetISteamHTMLSurface_versions : List (String × String) :=
  [("STEAMHTMLSURFACE_INTERFACE_VERSION_001", "ISteamHTMLSurface001"),
   ("STEAMHTMLSURFACE_INTERFACE_VERSION_002", "ISteamHTMLSurface002"),
   ("STEAMHTMLSURFACE_INTERFACE_VERSION_003", "ISteamHTMLSurface003"),
   ("STEAMHTMLSURFACE_INTERFACE_VERSION_004", "ISteamHTMLSurface004")]

/-- The method `Steam_Client::GetISteamHTMLSurface`.  The branch of `STEAMHTMLSURFACE_INTERFACE_VERSION` and the final
`else` return the same pointer and are the chain default. -/
def GetISteamHTMLSurface (s : Steam_Client) (hSteamUser : HSteamUser) (hSteamPipe : HSteamPipe)
    (pchVersion : String) : Option Adapter × Steam_Client :=
  if s.steam_pipes.count hSteamPipe = 0 ∨ hSteamUser = 0 then (none, s)
  else (some ⟨Subsystem.steam_HTMLsurface, strcmpChain GetISteamHTMLSurface_versions "ISteamHTMLSurface" pchVersion⟩, s)

/-- The versions that `GetISteamInventory` tests by name, each with the interface class the
returned pointer is cast to. -/
def GetISteamInventory_versions : List (String × String) :=
  [("STEAMINVENTORY_INTERFACE_V001", "ISteamInventory001"),
   ("STEAMINVENTORY_INTERFACE_V002", "ISteamInventory002")]

/-- The method `Steam_Client::GetISteamInventory`.  The branch of `STEAMINVENTORY_INTERFACE_VERSION` and the final
`else` return the same pointer and are the chain default. -/
def GetISteamInventory (s : Steam_Client) (hSteamUser : HSteamUser) (hSteamPipe : HSteamPipe)
    (pchVersion : String) : Option Adapter × Steam_Client :=
  if s.steam_pipes.count hSteamPipe = 0 ∨ hSteamUser = 0 then (none, s)
  else
    let steam_inventory_temp :=
      if s.steam_pipes.find hSteamPipe = some Steam_Pipe.SERVER then Subsystem.steam_gameserver_inventory
      else Subsystem.steam_inventory
    (some ⟨steam_inventory_temp, strcmpChain GetISteamInventory_versions "ISteamInventory" pchVersion⟩, s)

/-- The versions that `GetISteamVideo` tests by name, each with the interface class the
returned pointer is cast to. -/
def GetISteamVideo_versions : List (String × String) :=
  []

/-- The method `Steam_Client::GetISteamVideo`.  The branch of `STEAMVIDEO_INTERFACE_VERSION` and the final
`else` return the same pointer and are the chain default. -/
def GetISteamVideo (s : Steam_Client) (hSteamUser : HSteamUser) (hSteamPipe : HSteamPipe)
    (pchVersion : String) : Option Adapter × Steam_Client :=
  if s.steam_pipes.count hSteamPipe = 0 ∨ hSteamUser = 0 then (none, s)
  else (some ⟨Subsystem.steam_video, strcmpChain GetISteamVideo_versions "ISteamVideo" pchVersion⟩, s)

/-- The versions that `GetISteamParentalSettings` tests by name, each with the interface class the
returned pointer is cast to. -/
def GetISteamParentalSettings_versions : List (String × String) :=
  []

/-- The method `Steam_Client::GetISteamParentalSettings`.  The branch of `STEAMPARENTALSETTINGS_INTERFACE_VERSION` and the final
`else` return the same pointer and are the chain default. -/
def GetISteamParentalSettings (s : Steam_Client) (hSteamUser : HSteamUser) (hSteamPipe : HSteamPipe)
    (pchVersion : String) : Option Adapter × Steam_Client :=
  if s.steam_pipes.count hSteamPipe = 0 ∨ hSteamUser = 0 then (none, s)
  else (some ⟨Subsystem.steam_parental, strcmpChain GetISteamParentalSettings_versions "ISteamParentalSettings" pchVersion⟩, s)

/-- The versions that `GetISteamMasterServerUpdater` tests by name, each with the interface class the
returned pointer is cast to. -/
def GetISteamMasterServerUpdater_versions : List (String × String) :=
  []

/-- The method `Steam_Client::GetISteamMasterServerUpdater`.  The branch of `STEAMMASTERSERVERUPDATER_INTERFACE_VERSION` and the final
`else` return the same pointer and are the chain default. -/
def GetISteamMasterServerUpdater (s : Steam_Client) (hSteamUser : HSteamUser) (hSteamPipe : HSteamPipe)
    (pchVersion : String) : Option Adapter × Steam_Client :=
  if s.steam_pipes.count hSteamPipe = 0 ∨ hSteamUser = 0 then (none, s)
  else (some ⟨Subsystem.steam_masterserver_updater, strcmpChain GetISteamMasterServerUpdater_versions "ISteamMasterServerUpdater" pchVersion⟩, s)

/-- The versions that `GetISteamGameSearch` tests by name, each with the interface class the
returned pointer is cast to. -/
def GetISteamGameSearch_versions : List (String × String) :=
  []

/-- The method `Steam_Client::GetISteamGameSearch`.  The branch of `STEAMGAMESEARCH_INTERFACE_VERSION` and the final
`else` return the same pointer and are the chain default. -/
def GetISteamGameSearch (s : Steam_Client) (hSteamUser : HSteamUser) (hSteamPipe : HSteamPipe)
    (pchVersion : String) : Option Adapter × Steam_Client :=
  if s.steam_pipes.count hSteamPipe = 0 ∨ hSteamUser = 0 then (none, s)
  else (some ⟨Subsystem.steam_game_search, strcmpChain GetISteamGameSearch_versions "ISteamGameSearch" pchVersion⟩, s)

/-- The versions that `GetISteamInput` tests by name, each with the interface class the
returned pointer is cast to. -/
def GetISteamInput_versions : List (String × String) :=
  [("SteamInput001", "ISteamInput001"),
   ("SteamInput002", "ISteamInput002"),
   ("SteamInput005", "ISteamInput005")]

/-- The method `Steam_Client::GetISteamInput`.  The branch of `STEAMINPUT_INTERFACE_VERSION` and the final
`else` return the same pointer and are the chain default. -/
def GetISteamInput (s : Steam_Client) (hSteamUser : HSteamUser) (hSteamPipe : HSteamPipe)
    (pchVersion : String) : Option Adapter × Steam_Client :=
  if s.steam_pipes.count hSteamPipe = 0 ∨ hSteamUser = 0 then (none, s)
  else (some ⟨Subsystem.steam_controller, strcmpChain GetISteamInput_versions "ISteamInput" pchVersion⟩, s)

/-- The versions that `GetISteamParties` tests by name, each with the interface class the
returned pointer is cast to. -/
def GetISteamParties_versions : List (String × String) :=
  []

/-- The method `Steam_Client::GetISteamParties`.  The branch of `STEAMPARTIES_INTERFACE_VERSION` and the final
`else` return the same pointer and are the chain default. -/
def GetISteamParties (s : Steam_Client) (hSteamUser : HSteamUser) (hSteamPipe : HSteamPipe)
    (pchVersion : String) : Option Adapter × Steam_Client :=
  if s.steam_pipes.count hSteamPipe = 0 ∨ hSteamUser = 0 then (none, s)
  else (some ⟨Subsystem.steam_parties, strcmpChain GetISteamParties_versions "ISteamParties" pchVersion⟩, s)

/-- The versions that `GetISteamRemotePlay` tests by name, each with the interface class the
returned pointer is cast to. -/
def GetISteamRemotePlay_versions : List (String × String) :=
  [("STEAMREMOTEPLAY_INTERFACE_VERSION001", "ISteamRemotePlay001")]

/-- The method `Steam_Client::GetISteamRemotePlay`.  The branch of `STEAMREMOTEPLAY_INTERFACE_VERSION` and the final
`else` return the same pointer and are the chain default. -/
def GetISteamRemotePlay (s : Steam_Client) (hSteamUser : HSteamUser) (hSteamPipe : HSteamPipe)
    (pchVersion : String) : Option Adapter × Steam_Client :=
  if s.steam_pipes.count hSteamPipe = 0 ∨ hSteamUser = 0 then (none, s)
  else (some ⟨Subsystem.steam_remoteplay, strcmpChain GetISteamRemotePlay_versions "ISteamRemotePlay" pchVersion⟩, s)

/-- The versions that `GetAppTicket` tests by name, each with the interface class the
returned pointer is cast to. -/
def GetAppTicket_versions : List (String × String) :=
  []

/-- The method `Steam_Client::GetAppTicket`.  The branch of `STEAMAPPTICKET_INTERFACE_VERSION` and the final
`else` return the same pointer and are the chain default. -/
def GetAppTicket (s : Steam_Client) (hSteamUser : HSteamUser) (hSteamPipe : HSteamPipe)
    (pchVersion : String) : Option Adapter × Steam_Client :=
  if s.steam_pipes.count hSteamPipe = 0 ∨ hSteamUser = 0 then (none, s)
  else (some ⟨Subsystem.steam_app_ticket, strcmpChain GetAppTicket_versions "ISteamAppTicket" pchVersion⟩, s)

/-- The versions that `GetISteamGameServer` tests by name, each with the
interface class the returned pointer is cast to and whether the branch sets
`gameserver_has_ipv6_functions = true`. -/
def GetISteamGameServer_versions : List (String × String × Bool) :=
  [("SteamGameServer004", "ISteamGameServer004", false),
   ("SteamGameServer005", "ISteamGameServer005", false),
   ("SteamGameServer006", "ISteamGameServer008", false),
   ("SteamGameServer007", "ISteamGameServer008", false),
   ("SteamGameServer008", "ISteamGameServer008", false),
   ("SteamGameServer009", "ISteamGameServer009", false),
   ("SteamGameServer010", "ISteamGameServer010", false),
   ("SteamGameServer011", "ISteamGameServer011", false),
   ("SteamGameServer012", "ISteamGameServer012", false),
   ("SteamGameServer013", "ISteamGameServer013", true),
   ("SteamGameServer014", "ISteamGameServer014", true)]

/-- The method `Steam_Client::GetISteamGameServer`.  The branch of
`STEAMGAMESERVER_INTERFACE_VERSION` and the final `else` both set the flag and
return the same pointer; they are the chain default. -/
def GetISteamGameServer (s : Steam_Client) (hSteamUser : HSteamUser) (hSteamPipe : HSteamPipe)
    (pchVersion : String) : Option Adapter × Steam_Client :=
  if s.steam_pipes.count hSteamPipe = 0 ∨ hSteamUser = 0 then (none, s)
  else
    let branch := strcmpChain GetISteamGameServer_versions ("ISteamGameServer", true) pchVersion
    (some ⟨Subsystem.steam_gameserver, branch.1⟩,
      if branch.2 then { s with gameserver_has_ipv6_functions := true } else s)

/-- The method `Steam_Client::GetISteamContentServer`: `NULL` on every path. -/
def GetISteamContentServer (s : Steam_Client) (hSteamUser : HSteamUser) (hSteamPipe : HSteamPipe)
    (_pchVersion : String) : Option Adapter × Steam_Client :=
  if s.steam_pipes.count hSteamPipe = 0 ∨ hSteamUser = 0 then (none, s)
  else (none, s)

/-- The versions the `SteamNetworkingSocketsSerialized` branch of
`GetISteamGenericInterface` tests by name. -/
def NetworkingSocketsSerialized_versions : List (String × String) :=
  [("SteamNetworkingSocketsSerialized002", "ISteamNetworkingSocketsSerialized002"),
   ("SteamNetworkingSocketsSerialized003", "ISteamNetworkingSocketsSerialized003"),
   ("SteamNetworkingSocketsSerialized004", "ISteamNetworkingSocketsSerialized004"),
   ("SteamNetworkingSocketsSerialized005", "ISteamNetworkingSocketsSerialized005")]

/-- The versions the `SteamNetworkingSockets` branch of
`GetISteamGenericInterface` tests by name. -/
def NetworkingSockets_versions : List (String × String) :=
  [("SteamNetworkingSockets001", "ISteamNetworkingSockets001"),
   ("SteamNetworkingSockets002", "ISteamNetworkingSockets002"),
   ("SteamNetworkingSockets003", "ISteamNetworkingSockets003"),
   ("SteamNetworkingSockets004", "ISteamNetworkingSockets004"),
   ("SteamNetworkingSockets006", "ISteamNetworkingSockets006"),
   ("SteamNetworkingSockets008", "ISteamNetworkingSockets008"),
   ("SteamNetworkingSockets009", "ISteamNetworkingSockets009")]

/-- The versions the `SteamNetworkingUtils` branch of
`GetISteamGenericInterface` tests by name. -/
def NetworkingUtils_versions : List (String × String) :=
  [("SteamNetworkingUtils001", "ISteamNetworkingUtils001"),
   ("SteamNetworkingUtils002", "ISteamNetworkingUtils002"),
   ("SteamNetworkingUtils003", "ISteamNetworkingUtils003")]

/-- The branches of the `strstr` chain of `GetISteamGenericInterface`. -/
inductive Family where
  | NetworkingSocketsSerialized
  | NetworkingSockets
  | NetworkingMessages
  | NetworkingUtils
  | Networking
  | GameCoordinator
  | TV
  | RemoteStorage
  | GameServerStats
  | GameServer
  | MatchmakingServers
  | Matchmaking
  | Friends
  | Controller
  | UGC
  | Inventory
  | UserStats
  | User
  | Utils
  | Apps
  | Screenshots
  | HTTP
  | UnifiedMessages
  | AppList
  | Music
  | MusicRemote
  | HTMLSurface
  | Video
  | MasterServerUpdater
  | GameSearch
  | Parties
  | Input
  | RemotePlay
  | ParentalSettings
  | AppTicket
  deriving DecidableEq, Repr

/-- The `strstr(pchVersion, p) == pchVersion` tests of
`GetISteamGenericInterface` in the order of the source, each with the branch it
guards.  The `SteamController` branch has two tests joined by `||`. -/
def GetISteamGenericInterface_families : List (String × Family) :=
  [("SteamNetworkingSocketsSerialized", Family.NetworkingSocketsSerialized),
   ("SteamNetworkingSockets", Family.NetworkingSockets),
   ("SteamNetworkingMessages", Family.NetworkingMessages),
   ("SteamNetworkingUtils", Family.NetworkingUtils),
   ("SteamNetworking", Family.Networking),
   ("SteamGameCoordinator", Family.GameCoordinator),
   ("STEAMTV_INTERFACE_V", Family.TV),
   ("STEAMREMOTESTORAGE_INTERFACE_VERSION", Family.RemoteStorage),
   ("SteamGameServerStats", Family.GameServerStats),
   ("SteamGameServer", Family.GameServer),
   ("SteamMatchMakingServers", Family.MatchmakingServers),
   ("SteamMatchMaking", Family.Matchmaking),
   ("SteamFriends", Family.Friends),
   ("SteamController", Family.Controller),
   ("STEAMCONTROLLER_INTERFACE_VERSION", Family.Controller),
   ("STEAMUGC_INTERFACE_VERSION", Family.UGC),
   ("STEAMINVENTORY_INTERFACE", Family.Inventory),
   ("STEAMUSERSTATS_INTERFACE_VERSION", Family.UserStats),
   ("SteamUser", Family.User),
   ("SteamUtils", Family.Utils),
   ("STEAMAPPS_INTERFACE_VERSION", Family.Apps),
   ("STEAMSCREENSHOTS_INTERFACE_VERSION", Family.Screenshots),
   ("STEAMHTTP_INTERFACE_VERSION", Family.HTTP),
   ("STEAMUNIFIEDMESSAGES_INTERFACE_VERSION", Family.UnifiedMessages),
   ("STEAMAPPLIST_INTERFACE_VERSION", Family.AppList),
   ("STEAMMUSIC_INTERFACE_VERSION", Family.Music),
   ("STEAMMUSICREMOTE_INTERFACE_VERSION", Family.MusicRemote),
   ("STEAMHTMLSURFACE_INTERFACE_VERSION", Family.HTMLSurface),
   ("STEAMVIDEO_INTERFACE", Family.Video),
   ("SteamMasterServerUpdater", Family.MasterServerUpdater),
   ("SteamMatchGameSearch", Family.GameSearch),
   ("SteamParties", Family.Parties),
   ("SteamInput", Family.Input),
   ("STEAMREMOTEPLAY_INTERFACE_VERSION", Family.RemotePlay),
   ("STEAMPARENTALSETTINGS_INTERFACE_VERSION", Family.ParentalSettings),
   ("STEAMAPPTICKET_INTERFACE_VERSION", Family.AppTicket)]

/-- The first test of the `strstr` chain that succeeds on the token, with its
branch; `none` when the chain falls through to the final `else`. -/
def selectFamily (pchVersion : String) : Option (String × Family) :=
  GetISteamGenericInterface_families.find? (fun e => strstrAtStart pchVersion e.1)

/-- The body of the branch of `GetISteamGenericInterface` that the `strstr`
chain selected; `server` is the local flag of that function. -/
def genericBranch (s : Steam_Client) (server : Bool) (hSteamUser : HSteamUser)
    (hSteamPipe : HSteamPipe) (pchVersion : String) : Family → Option Adapter × Steam_Client
  | Family.NetworkingSocketsSerialized =>
    let steam_networking_sockets_serialized_temp :=
      if server then Subsystem.steam_gameserver_networking_sockets_serialized
      else Subsystem.steam_networking_sockets_serialized
    (some ⟨steam_networking_sockets_serialized_temp,
      strcmpChain NetworkingSocketsSerialized_versions "ISteamNetworkingSocketsSerialized005"
        pchVersion⟩, s)
  | Family.NetworkingSockets =>
    let steam_networking_sockets_temp :=
      if server then Subsystem.steam_gameserver_networking_sockets
      else Subsystem.steam_networking_sockets
    (some ⟨steam_networking_sockets_temp,
      strcmpChain NetworkingSockets_versions "ISteamNetworkingSockets" pchVersion⟩, s)
  | Family.NetworkingMessages =>
    let steam_networking_messages_temp :=
      if server then Subsystem.steam_gameserver_networking_messages
      else Subsystem.steam_networking_messages
    (some ⟨steam_networking_messages_temp, "ISteamNetworkingMessages"⟩, s)
  | Family.NetworkingUtils =>
    (some ⟨Subsystem.steam_networking_utils,
      strcmpChain NetworkingUtils_versions "ISteamNetworkingUtils" pchVersion⟩, s)
  | Family.Networking => s.GetISteamNetworking hSteamUser hSteamPipe pchVersion
  | Family.GameCoordinator =>
    let steam_game_coordinator_temp :=
      if server then Subsystem.steam_gameserver_game_coordinator
      else Subsystem.steam_game_coordinator
    (some ⟨steam_game_coordinator_temp, "ISteamGameCoordinator"⟩, s)
  | Family.TV => (some ⟨Subsystem.steam_tv, "ISteamTV"⟩, s)
  | Family.RemoteStorage => s.GetISteamRemoteStorage hSteamUser hSteamPipe pchVersion
  | Family.GameServerStats => s.GetISteamGameServerStats hSteamUser hSteamPipe pchVersion
  | Family.GameServer => s.GetISteamGameServer hSteamUser hSteamPipe pchVersion
  | Family.MatchmakingServers => s.GetISteamMatchmakingServers hSteamUser hSteamPipe pchVersion
  | Family.Matchmaking => s.GetISteamMatchmaking hSteamUser hSteamPipe pchVersion
  | Family.Friends => s.GetISteamFriends hSteamUser hSteamPipe pchVersion
  | Family.Controller => s.GetISteamController hSteamUser hSteamPipe pchVersion
  | Family.UGC => s.GetISteamUGC hSteamUser hSteamPipe pchVersion
  | Family.Inventory => s.GetISteamInventory hSteamUser hSteamPipe pchVersion
  | Family.UserStats => s.GetISteamUserStats hSteamUser hSteamPipe pchVersion
  | Family.User => s.GetISteamUser hSteamUser hSteamPipe pchVersion
  | Family.Utils => s.GetISteamUtils hSteamPipe pchVersion
  | Family.Apps => s.GetISteamApps hSteamUser hSteamPipe pchVersion
  | Family.Screenshots => s.GetISteamScreenshots hSteamUser hSteamPipe pchVersion
  | Family.HTTP => s.GetISteamHTTP hSteamUser hSteamPipe pchVersion
  | Family.UnifiedMessages =>
    s.DEPRECATED_GetISteamUnifiedMessages hSteamUser hSteamPipe pchVersion
  | Family.AppList => s.GetISteamAppList hSteamUser hSteamPipe pchVersion
  | Family.Music => s.GetISteamMusic hSteamUser hSteamPipe pchVersion
  | Family.MusicRemote => s.GetISteamMusicRemote hSteamUser hSteamPipe pchVersion
  | Family.HTMLSurface => s.GetISteamHTMLSurface hSteamUser hSteamPipe pchVersion
  | Family.Video => s.GetISteamVideo hSteamUser hSteamPipe pchVersion
  | Family.MasterServerUpdater =>
    s.GetISteamMasterServerUpdater hSteamUser hSteamPipe pchVersion
  | Family.GameSearch => s.GetISteamGameSearch hSteamUser hSteamPipe pchVersion
  | Family.Parties => s.GetISteamParties hSteamUser hSteamPipe pchVersion
  | Family.Input => s.GetISteamInput hSteamUser hSteamPipe pchVersion
  | Family.RemotePlay => s.GetISteamRemotePlay hSteamUser hSteamPipe pchVersion
  | Family.ParentalSettings => s.GetISteamParentalSettings hSteamUser hSteamPipe pchVersion
  | Family.AppTicket => s.GetAppTicket hSteamUser hSteamPipe pchVersion

/-- The method `Steam_Client::GetISteamGenericInterface`: the registration test, the
user-handle test that spares server pipes and the two utils families, then the
`strstr` chain. -/
def GetISteamGenericInterface (s : Steam_Client) (hSteamUser : HSteamUser)
    (hSteamPipe : HSteamPipe) (pchVersion : String) : Option Adapter × Steam_Client :=
  if s.steam_pipes.count hSteamPipe = 0 then (none, s)
  else
    let server := decide (s.steam_pipes.find hSteamPipe = some Steam_Pipe.SERVER)
    if server = false ∧ strstrAtStart pchVersion "SteamNetworkingUtils" = false
        ∧ strstrAtStart pchVersion "SteamUtils" = false ∧ hSteamUser = 0 then (none, s)
    else
      match selectFamily pchVersion with
      | some (_, family) => genericBranch s server hSteamUser hSteamPipe pchVersion family
      | none => (none, s)

end Steam_Client

/-! ## Calls on the aggregate -/

/-- The interface getters of `Steam_Client`. -/
inductive Resolver where
  | GetISteamUser
  | GetISteamGameServer
  | GetISteamFriends
  | GetISteamUtils
  | GetISteamMatchmaking
  | GetISteamMatchmakingServers
  | GetISteamGenericInterface
  | GetISteamUserStats
  | GetISteamGameServerStats
  | GetISteamApps
  | GetISteamNetworking
  | GetISteamRemoteStorage
  | GetISteamScreenshots
  | GetISteamHTTP
  | DEPRECATED_GetISteamUnifiedMessages
  | GetISteamUnifiedMessages
  | GetISteamController
  | GetISteamUGC
  | GetISteamAppList
  | GetISteamMusic
  | GetISteamMusicRemote
  | GetISteamHTMLSurface
  | GetISteamInventory
  | GetISteamVideo
  | GetISteamParentalSettings
  | GetISteamMasterServerUpdater
  | GetISteamContentServer
  | GetISteamGameSearch
  | GetISteamInput
  | GetISteamParties
  | GetISteamRemotePlay
  | GetAppTicket
  deriving DecidableEq, Repr

/-- The call of one interface getter.  `GetISteamUtils` takes no user
handle. -/
def Resolver.call (r : Resolver) (s : Steam_Client) (hSteamUser : HSteamUser)
    (hSteamPipe : HSteamPipe) (pchVersion : String) : Option Adapter × Steam_Client :=
  match r with
  | .GetISteamUser => s.GetISteamUser hSteamUser hSteamPipe pchVersion
  | .GetISteamGameServer => s.GetISteamGameServer hSteamUser hSteamPipe pchVersion
  | .GetISteamFriends => s.GetISteamFriends hSteamUser hSteamPipe pchVersion
  | .GetISteamUtils => s.GetISteamUtils hSteamPipe pchVersion
  | .GetISteamMatchmaking => s.GetISteamMatchmaking hSteamUser hSteamPipe pchVersion
  | .GetISteamMatchmakingServers => s.GetISteamMatchmakingServers hSteamUser hSteamPipe pchVersion
  | .GetISteamGenericInterface => s.GetISteamGenericInterface hSteamUser hSteamPipe pchVersion
  | .GetISteamUserStats => s.GetISteamUserStats hSteamUser hSteamPipe pchVersion
  | .GetISteamGameServerStats => s.GetISteamGameServerStats hSteamUser hSteamPipe pchVersion
  | .GetISteamApps => s.GetISteamApps hSteamUser hSteamPipe pchVersion
  | .GetISteamNetworking => s.GetISteamNetworking hSteamUser hSteamPipe pchVersion
  | .GetISteamRemoteStorage => s.GetISteamRemoteStorage hSteamUser hSteamPipe pchVersion
  | .GetISteamScreenshots => s.GetISteamScreenshots hSteamUser hSteamPipe pchVersion
  | .GetISteamHTTP => s.GetISteamHTTP hSteamUser hSteamPipe pchVersion
  | .DEPRECATED_GetISteamUnifiedMessages =>
    s.DEPRECATED_GetISteamUnifiedMessages hSteamUser hSteamPipe pchVersion
  | .GetISteamUnifiedMessages => s.GetISteamUnifiedMessages hSteamUser hSteamPipe pchVersion
  | .GetISteamController => s.GetISteamController hSteamUser hSteamPipe pchVersion
  | .GetISteamUGC => s.GetISteamUGC hSteamUser hSteamPipe pchVersion
  | .GetISteamAppList => s.GetISteamAppList hSteamUser hSteamPipe pchVersion
  | .GetISteamMusic => s.GetISteamMusic hSteamUser hSteamPipe pchVersion
  | .GetISteamMusicRemote => s.GetISteamMusicRemote hSteamUser hSteamPipe pchVersion
  | .GetISteamHTMLSurface => s.GetISteamHTMLSurface hSteamUser hSteamPipe pchVersion
  | .GetISteamInventory => s.GetISteamInventory hSteamUser hSteamPipe pchVersion
  | .GetISteamVideo => s.GetISteamVideo hSteamUser hSteamPipe pchVersion
  | .GetISteamParentalSettings => s.GetISteamParentalSettings hSteamUser hSteamPipe pchVersion
  | .GetISteamMasterServerUpdater =>
    s.GetISteamMasterServerUpdater hSteamUser hSteamPipe pchVersion
  | .GetISteamContentServer => s.GetISteamContentServer hSteamUser hSteamPipe pchVersion
  | .GetISteamGameSearch => s.GetISteamGameSearch hSteamUser hSteamPipe pchVersion
  | .GetISteamInput => s.GetISteamInput hSteamUser hSteamPipe pchVersion
  | .GetISteamParties => s.GetISteamParties hSteamUser hSteamPipe pchVersion
  | .GetISteamRemotePlay => s.GetISteamRemotePlay hSteamUser hSteamPipe pchVersion
  | .GetAppTicket => s.GetAppTicket hSteamUser hSteamPipe pchVersion

/-- A call of a method of `Steam_Client` that works on the pipe table, the
role flags or the resolver. -/
inductive Call where
  | userLogIn
  | serverInit
  | serverShutdown
  | clientShutdown
  | CreateSteamPipe
  | BReleaseSteamPipe (hSteamPipe : HSteamPipe)
  | ConnectToGlobalUser (hSteamPipe : HSteamPipe)
  | CreateLocalUser (phSteamPipe : Bool)
  | ReleaseUser (hSteamPipe : HSteamPipe) (hUser : HSteamUser)
  | resolve (r : Resolver) (hSteamUser : HSteamUser) (hSteamPipe : HSteamPipe)
      (pchVersion : String)
  deriving DecidableEq, Repr

/-- The aggregate after one call. -/
def Call.run (K : UserHandles) : Call → Steam_Client → Steam_Client
  | .userLogIn, s => s.userLogIn
  | .serverInit, s => s.serverInit
  | .serverShutdown, s => s.serverShutdown
  | .clientShutdown, s => s.clientShutdown
  | .CreateSteamPipe, s => s.CreateSteamPipe.2
  | .BReleaseSteamPipe h, s => (s.BReleaseSteamPipe h).2
  | .ConnectToGlobalUser h, s => (s.ConnectToGlobalUser K h).2
  | .CreateLocalUser p, s => (s.CreateLocalUser K p).2.2
  | .ReleaseUser h u, s => s.ReleaseUser K h u
  | .resolve r u h v, s => (r.call s u h v).2

/-- The pipe handle a call allocates: the result of `CreateSteamPipe`, and the
pipe `CreateLocalUser` creates. -/
def Call.created : Call → Steam_Client → Option HSteamPipe
  | .CreateSteamPipe, s => some s.CreateSteamPipe.1
  | .CreateLocalUser _, s => some s.serverInit.CreateSteamPipe.1
  | _, _ => none

/-- The aggregate after a sequence of calls. -/
def runCalls (K : UserHandles) : List Call → Steam_Client → Steam_Client
  | [], s => s
  | c :: cs, s => runCalls K cs (c.run K s)

/-- The pipe handles allocated by a sequence of calls, in order. -/
def issued (K : UserHandles) : List Call → Steam_Client → List HSteamPipe
  | [], _ => []
  | c :: cs, s => (c.created s).toList ++ issued K cs (c.run K s)

/-- The number of pipe allocations in a sequence of calls. -/
def creations : List Call → Nat
  | [] => 0
  | .CreateSteamPipe :: cs => creations cs + 1
  | .CreateLocalUser _ :: cs => creations cs + 1
  | _ :: cs => creations cs

/-- The sequence `CreateSteamPipe(); BReleaseSteamPipe(pipe)` repeated `n`
times from counter value `c`: every pipe is released right after it was
created. -/
def churn : Nat → Nat → List Call
  | _, 0 => []
  | c, n + 1 =>
    Call.CreateSteamPipe :: Call.BReleaseSteamPipe (toHSteamPipe c) :: churn ((c + 1) % 2 ^ 32) n

/-! ## Process-wide state -/

/-- One entry of the manual-dispatch queues: `struct cb_data`.  `result` holds
the bytes of the `std::vector<char>`. -/
structure cb_data where
  cb_id : Int
  result : List Nat
  deriving DecidableEq, Repr

/-- The static pointers of `dll.cpp` that cache the interface an old-style
accessor returned, named as the variables. -/
inductive OldInstance where
  | old_user_instance
  | old_friends_interface
  | old_utils_interface
  | old_matchmaking_instance
  | old_userstats_instance
  | old_apps_instance
  | old_matchmakingservers_instance
  | old_networking_instance
  | old_remotestorage_instance
  | old_screenshots_instance
  | old_http_instance
  | old_controller_instance
  | old_ugc_instance
  | old_applist_instance
  | old_music_instance
  | old_musicremote_instance
  | old_htmlsurface_instance
  | old_inventory_instance
  | old_video_instance
  | old_parental_instance
  | old_unified_instance
  | old_gameserver_instance
  | old_gamserver_utils_instance
  | old_gamserver_networking_instance
  | old_gamserver_stats_instance
  | old_gamserver_http_instance
  | old_gamserver_inventory_instance
  | old_gamserver_ugc_instance
  | old_gamserver_apps_instance
  | old_gamserver_masterupdater_instance
  deriving DecidableEq, Repr

/-- The file-level statics of `dll.cpp` and `steam_client.cpp` that outlive a
call: the singleton, the client capability flag, the keepalive thread's stop
flag, the reference count `global_counter`, the two pipes the init functions
keep, the cached old-style interface pointers (`old_instances` lists the
variables that are not `NULL`, with their values), `g_pSteamClientGameServer`
(the interface class it is cast to), the two manual-dispatch queues (the
front of a queue is the head of the list) and the function-local static
`manual_dispatch_called` of `SteamAPI_ManualDispatch_Init`. -/
structure Dll where
  steamclient_instance : Option Steam_Client := none
  steamclient_has_ipv6_functions_flag : Bool := false
  kill_background_thread : Bool := false
  global_counter : Nat := 0
  user_steam_pipe : HSteamPipe := 0
  server_steam_pipe : HSteamPipe := 0
  old_instances : List (OldInstance × Adapter) := []
  g_pSteamClientGameServer : Option String := none
  client_cb : List cb_data := []
  server_cb : List cb_data := []
  manual_dispatch_called : Bool := false
  deriving DecidableEq, Repr

/-- The function `get_steam_client`: the singleton, constructed on first use. -/
def get_steam_client (g : Dll) : Steam_Client × Dll :=
  match g.steamclient_instance with
  | some client => (client, g)
  | none => (Steam_Client.new, { g with steamclient_instance := some Steam_Client.new })

/-- The function `destroy_client`. -/
def destroy_client (g : Dll) : Dll :=
  { g with steamclient_instance := none }

/-- The function `steamclient_has_ipv6_functions`. -/
def steamclient_has_ipv6_functions (g : Dll) : Bool × Dll :=
  let (client, g1) := get_steam_client g
  (client.gameserver_has_ipv6_functions || g1.steamclient_has_ipv6_functions_flag, g1)

/-- The versions `create_client_interface` tests by name, each with the
interface class the client is cast to and whether the branch sets
`steamclient_has_ipv6_functions_flag`. -/
def create_client_interface_versions : List (String × String × Bool) :=
  [("SteamClient007", "ISteamClient007", false),
   ("SteamClient008", "ISteamClient008", false),
   ("SteamClient009", "ISteamClient009", false),
   ("SteamClient010", "ISteamClient010", false),
   ("SteamClient011", "ISteamClient011", false),
   ("SteamClient012", "ISteamClient012", false),
   ("SteamClient013", "ISteamClient013", false),
   ("SteamClient014", "ISteamClient014", false),
   ("SteamClient015", "ISteamClient015", false),
   ("SteamClient016", "ISteamClient016", false),
   ("SteamClient017", "ISteamClient017", false),
   ("SteamClient018", "ISteamClient018", false),
   ("SteamClient019", "ISteamClient019", false),
   ("SteamClient020", "ISteamClient020", false)]

/-- The function `create_client_interface`: the result is the interface class the singleton
is cast to, `none` for `nullptr`.  The branch of
`STEAMCLIENT_INTERFACE_VERSION` and the final `else` do the same and are the
chain default. -/
def create_client_interface (g : Dll) (ver : String) : Option String × Dll :=
  if strstrAtStart ver "SteamClient" then
    let branch := strcmpChain create_client_interface_versions ("ISteamClient", true) ver
    let g1 := (get_steam_client g).2
    (some branch.1,
      if branch.2 then { g1 with steamclient_has_ipv6_functions_flag := true } else g1)
  else (none, g)

/-- The method `Steam_Client::BShutdownIfAllPipesClosed`, with the static
`kill_background_thread` of `steam_client.cpp` passed in and out.  Joining the
thread leaves `background_keepalive` not joinable. -/
def Steam_Client.BShutdownIfAllPipesClosed (s : Steam_Client) (kill_background_thread : Bool) :
    Bool × Steam_Client × Bool :=
  if s.steam_pipes.size ≠ 0 then (false, s, kill_background_thread)
  else
    let joinable := s.background_keepalive
    (true, (if joinable then { s with background_keepalive := false } else s),
      (if joinable then true else kill_background_thread))

/-- A call made on the live singleton: a method of the aggregate reached
through `get_steam_client()`, or one of the free functions of `dll.cpp` that
read or raise the capability flags. -/
inductive ApiCall where
  | method (c : Call)
  | BShutdownIfAllPipesClosed
  | create_client_interface (ver : String)
  | steamclient_has_ipv6_functions
  deriving DecidableEq, Repr

/-- The process-wide state after one call on the live singleton. -/
def ApiCall.run (K : UserHandles) : ApiCall → Dll → Dll
  | .method c, g =>
    let (client, g1) := get_steam_client g
    { g1 with steamclient_instance := some (c.run K client) }
  | .BShutdownIfAllPipesClosed, g =>
    let (client, g1) := get_steam_client g
    let r := Steam_Client.BShutdownIfAllPipesClosed client g1.kill_background_thread
    { g1 with steamclient_instance := some r.2.1, kill_background_thread := r.2.2 }
  | .create_client_interface ver, g => (Gbe.create_client_interface g ver).2
  | .steamclient_has_ipv6_functions, g => (Gbe.steamclient_has_ipv6_functions g).2

/-- The process-wide state after a sequence of calls on the live singleton. -/
def runApi (K : UserHandles) : List ApiCall → Dll → Dll
  | [], g => g
  | c :: cs, g => runApi K cs (c.run K g)

/-! ## Families: listed versions and the current adapter -/

namespace Steam_Client

/-- The version names a family tests literally (its historical versions): the
names of the family's `strcmp` chain. -/
def Family.listed : Family → List String
  | .NetworkingSocketsSerialized => NetworkingSocketsSerialized_versions.map Prod.fst
  | .NetworkingSockets => NetworkingSockets_versions.map Prod.fst
  | .NetworkingMessages => []
  | .NetworkingUtils => NetworkingUtils_versions.map Prod.fst
  | .Networking => GetISteamNetworking_versions.map Prod.fst
  | .GameCoordinator => []
  | .TV => []
  | .RemoteStorage => GetISteamRemoteStorage_versions.map Prod.fst
  | .GameServerStats => GetISteamGameServerStats_versions.map Prod.fst
  | .GameServer => GetISteamGameServer_versions.map Prod.fst
  | .MatchmakingServers => GetISteamMatchmakingServers_versions.map Prod.fst
  | .Matchmaking => GetISteamMatchmaking_versions.map Prod.fst
  | .Friends => GetISteamFriends_versions.map Prod.fst
  | .Controller => GetISteamController_versions.map Prod.fst
  | .UGC => GetISteamUGC_versions.map Prod.fst
  | .Inventory => GetISteamInventory_versions.map Prod.fst
  | .UserStats => GetISteamUserStats_versions.map Prod.fst
  | .User => GetISteamUser_versions.map Prod.fst
  | .Utils => GetISteamUtils_versions.map Prod.fst
  | .Apps => GetISteamApps_versions.map Prod.fst
  | .Screenshots => GetISteamScreenshots_versions.map Prod.fst
  | .HTTP => GetISteamHTTP_versions.map Prod.fst
  | .UnifiedMessages => DEPRECATED_GetISteamUnifiedMessages_versions.map Prod.fst
  | .AppList => GetISteamAppList_versions.map Prod.fst
  | .Music => GetISteamMusic_versions.map Prod.fst
  | .MusicRemote => GetISteamMusicRemote_versions.map Prod.fst
  | .HTMLSurface => GetISteamHTMLSurface_versions.map Prod.fst
  | .Video => GetISteamVideo_versions.map Prod.fst
  | .MasterServerUpdater => GetISteamMasterServerUpdater_versions.map Prod.fst
  | .GameSearch => GetISteamGameSearch_versions.map Prod.fst
  | .Parties => GetISteamParties_versions.map Prod.fst
  | .Input => GetISteamInput_versions.map Prod.fst
  | .RemotePlay => GetISteamRemotePlay_versions.map Prod.fst
  | .ParentalSettings => GetISteamParentalSettings_versions.map Prod.fst
  | .AppTicket => GetAppTicket_versions.map Prod.fst

/-- The subsystem object a family's pointers point into: the game-server
object on a `SERVER` pipe and the client object otherwise for the families
that keep one object per role, a single object for the others. -/
def Family.object (server : Bool) : Family → Subsystem
  | .NetworkingSocketsSerialized =>
    if server then .steam_gameserver_networking_sockets_serialized
    else .steam_networking_sockets_serialized
  | .NetworkingSockets =>
    if server then .steam_gameserver_networking_sockets else .steam_networking_sockets
  | .NetworkingMessages =>
    if server then .steam_gameserver_networking_messages else .steam_networking_messages
  | .NetworkingUtils => .steam_networking_utils
  | .Networking => if server then .steam_gameserver_networking else .steam_networking
  | .GameCoordinator =>
    if server then .steam_gameserver_game_coordinator else .steam_game_coordinator
  | .TV => .steam_tv
  | .RemoteStorage => .steam_remote_storage
  | .GameServerStats => .steam_gameserverstats
  | .GameServer => .steam_gameserver
  | .MatchmakingServers => .steam_matchmaking_servers
  | .Matchmaking => .steam_matchmaking
  | .Friends => .steam_friends
  | .Controller => .steam_controller
  | .UGC => if server then .steam_gameserver_ugc else .steam_ugc
  | .Inventory => if server then .steam_gameserver_inventory else .steam_inventory
  | .UserStats => .steam_user_stats
  | .User => .steam_user
  | .Utils => if server then .steam_gameserver_utils else .steam_utils
  | .Apps => if server then .steam_gameserver_apps else .steam_apps
  | .Screenshots => .steam_screenshots
  | .HTTP => if server then .steam_gameserver_http else .steam_http
  | .UnifiedMessages => .steam_unified_messages
  | .AppList => .steam_applist
  | .Music => .steam_music
  | .MusicRemote => .steam_musicremote
  | .HTMLSurface => .steam_HTMLsurface
  | .Video => .steam_video
  | .MasterServerUpdater => .steam_masterserver_updater
  | .GameSearch => .steam_game_search
  | .Parties => .steam_parties
  | .Input => .steam_controller
  | .RemotePlay => .steam_remoteplay
  | .ParentalSettings => .steam_parental
  | .AppTicket => .steam_app_ticket

/-- The interface class of a family's current version: the cast in the branch
of the SDK's `..._INTERFACE_VERSION` macro (for
`SteamNetworkingSocketsSerialized`, whose chain has no such branch, the cast
of its newest listed version). -/
def Family.currentItf : Family → String
  | .NetworkingSocketsSerialized => "ISteamNetworkingSocketsSerialized005"
  | .NetworkingSockets => "ISteamNetworkingSockets"
  | .NetworkingMessages => "ISteamNetworkingMessages"
  | .NetworkingUtils => "ISteamNetworkingUtils"
  | .Networking => "ISteamNetworking"
  | .GameCoordinator => "ISteamGameCoordinator"
  | .TV => "ISteamTV"
  | .RemoteStorage => "ISteamRemoteStorage"
  | .GameServerStats => "ISteamGameServerStats"
  | .GameServer => "ISteamGameServer"
  | .MatchmakingServers => "ISteamMatchmakingServers"
  | .Matchmaking => "ISteamMatchmaking"
  | .Friends => "ISteamFriends"
  | .Controller => "ISteamController"
  | .UGC => "ISteamUGC"
  | .Inventory => "ISteamInventory"
  | .UserStats => "ISteamUserStats"
  | .User => "ISteamUser"
  | .Utils => "ISteamUtils"
  | .Apps => "ISteamApps"
  | .Screenshots => "ISteamScreenshots"
  | .HTTP => "ISteamHTTP"
  | .UnifiedMessages => "ISteamUnifiedMessages"
  | .AppList => "ISteamAppList"
  | .Music => "ISteamMusic"
  | .MusicRemote => "ISteamMusicRemote"
  | .HTMLSurface => "ISteamHTMLSurface"
  | .Video => "ISteamVideo"
  | .MasterServerUpdater => "ISteamMasterServerUpdater"
  | .GameSearch => "ISteamGameSearch"
  | .Parties => "ISteamParties"
  | .Input => "ISteamInput"
  | .RemotePlay => "ISteamRemotePlay"
  | .ParentalSettings => "ISteamParentalSettings"
  | .AppTicket => "ISteamAppTicket"

/-- The adapter of a family's current version on a pipe of the aggregate. -/
def Family.latest (f : Family) (s : Steam_Client) (hSteamPipe : HSteamPipe) : Adapter :=
  ⟨f.object (decide (s.steam_pipes.find hSteamPipe = some Steam_Pipe.SERVER)), f.currentItf⟩

end Steam_Client

/-- The family an interface getter serves.  `GetISteamGenericInterface` serves
every family and `GetISteamContentServer` has no adapter, so they have
none. -/
def Resolver.family : Resolver → Option Steam_Client.Family
  | .GetISteamUser => some .User
  | .GetISteamGameServer => some .GameServer
  | .GetISteamFriends => some .Friends
  | .GetISteamUtils => some .Utils
  | .GetISteamMatchmaking => some .Matchmaking
  | .GetISteamMatchmakingServers => some .MatchmakingServers
  | .GetISteamGenericInterface => none
  | .GetISteamUserStats => some .UserStats
  | .GetISteamGameServerStats => some .GameServerStats
  | .GetISteamApps => some .Apps
  | .GetISteamNetworking => some .Networking
  | .GetISteamRemoteStorage => some .RemoteStorage
  | .GetISteamScreenshots => some .Screenshots
  | .GetISteamHTTP => some .HTTP
  | .DEPRECATED_GetISteamUnifiedMessages => some .UnifiedMessages
  | .GetISteamUnifiedMessages => some .UnifiedMessages
  | .GetISteamController => some .Controller
  | .GetISteamUGC => some .UGC
  | .GetISteamAppList => some .AppList
  | .GetISteamMusic => some .Music
  | .GetISteamMusicRemote => some .MusicRemote
  | .GetISteamHTMLSurface => some .HTMLSurface
  | .GetISteamInventory => some .Inventory
  | .GetISteamVideo => some .Video
  | .GetISteamParentalSettings => some .ParentalSettings
  | .GetISteamMasterServerUpdater => some .MasterServerUpdater
  | .GetISteamContentServer => none
  | .GetISteamGameSearch => some .GameSearch
  | .GetISteamInput => some .Input
  | .GetISteamParties => some .Parties
  | .GetISteamRemotePlay => some .RemotePlay
  | .GetAppTicket => some .AppTicket

/-! ## Auxiliary definitions for the statements -/

/-- In a chain of `strstr` tests, no test is passed by the name of a later test
of greater length: a name that extends another one is tested before it. -/
def longestFirst {α : Type} : List (String × α) → Bool
  | [] => true
  | e :: rest =>
    rest.all (fun f => !(strstrAtStart f.1 e.1) || decide (f.1.length ≤ e.1.length))
      && longestFirst rest

/-- The decimal digit `d` as a character. -/
def digitChar (d : Nat) : Char := Char.ofNat (48 + d)

/-- The token `SteamGameServerNNN`, where `NNN` are the three decimal digits of
`n`. -/
def gameServerToken (n : Nat) : String :=
  "SteamGameServer"
    ++ String.mk [digitChar (n / 100 % 10), digitChar (n / 10 % 10), digitChar (n % 10)]

/-- The aggregate after `CreateSteamPipe(); ConnectToGlobalUser(1)` on a fresh
aggregate and then `n` pipes created and at once released. -/
@[irreducible]
def afterChurn (n : Nat) : Steam_Client :=
  runCalls ⟨1, 1⟩ (Call.CreateSteamPipe :: Call.ConnectToGlobalUser 1 :: churn 2 n)
    Steam_Client.new

/-! ## The dispatch cycle and the keepalive tick -/

/-- The calls into collaborators that a dispatch makes, named as in the
source. -/
inductive Step where
  | network_Run
  | steam_matchmaking_servers_RunCallbacks
  | run_every_runcb_run
  | steam_gameserver_RunCallbacks
  | callback_results_client_runCallResults
  | callback_results_server_runCallResults
  | callbacks_server_runCallBacks
  | callbacks_client_runCallBacks
  deriving DecidableEq, Repr

/-- The method `Steam_Client::RunCallbacks`: the collaborator calls it makes, in
order, and the aggregate afterwards.  `now_ms` is the reading of the steady
clock stored in `last_cb_run`; `cb_run_active` is true during the calls and
false at the end. -/
def Steam_Client.RunCallbacks (s : Steam_Client) (now_ms : Nat)
    (runClientCB runGameserverCB : Bool) : List Step × Steam_Client :=
  ([Step.network_Run, Step.steam_matchmaking_servers_RunCallbacks, Step.run_every_runcb_run,
      Step.steam_gameserver_RunCallbacks]
    ++ (if runClientCB then [Step.callback_results_client_runCallResults] else [])
    ++ (if runGameserverCB then [Step.callback_results_server_runCallResults] else [])
    ++ [Step.callbacks_server_runCallBacks, Step.callbacks_client_runCallBacks],
   { s with last_cb_run := now_ms, cb_run_active := false })

/-- The constant `max_stall_ms` of `background_thread`, in milliseconds. -/
def max_stall_ms : Nat := 200

/-- One pass of the loop of `background_thread` after its wait, when the stop
flag is not set: the test on `cb_run_active` and `last_cb_run`, and the forced
dispatch.  `now_ms` and `last_cb_run` are `unsigned long long` readings of the
clock, so the sum `last_cb_run + max_stall_ms.count()` is taken modulo 2^64. -/
def background_thread_tick (client : Steam_Client) (now_ms : Nat) : List Step × Steam_Client :=
  if !client.cb_run_active
      && decide (now_ms ≥ (client.last_cb_run + max_stall_ms) % 2 ^ 64) then
    ([Step.network_Run, Step.run_every_runcb_run], { client with last_cb_run := now_ms })
  else ([], client)

/-- The order of a dispatch cycle in the words of the specification: transport
drain, periodic actions, the game-server subsystem's callbacks, client
call-result delivery when asked, server call-result delivery when asked, and
last the fired callbacks of the two role registries. -/
def dispatchOrder (runClientCB runGameserverCB : Bool) : List Step :=
  [Step.network_Run, Step.run_every_runcb_run, Step.steam_gameserver_RunCallbacks]
    ++ (if runClientCB then [Step.callback_results_client_runCallResults] else [])
    ++ (if runGameserverCB then [Step.callback_results_server_runCallResults] else [])
    ++ [Step.callbacks_server_runCallBacks, Step.callbacks_client_runCallBacks]

/-! ## Init, shutdown and the user-handle accessors -/

/-- The modulus of the SDK's `uintp`, the pointer-sized unsigned integer of
`global_counter`; the 64-bit build is modelled. -/
def uintp_mod : Nat := 2 ^ 64

/-- The cache variables `SteamAPI_Shutdown` sets to `NULL`. -/
def clientOldInstances : List OldInstance :=
  [.old_user_instance, .old_friends_interface, .old_utils_interface,
   .old_matchmaking_instance, .old_userstats_instance, .old_apps_instance,
   .old_matchmakingservers_instance, .old_networking_instance, .old_remotestorage_instance,
   .old_screenshots_instance, .old_http_instance, .old_controller_instance, .old_ugc_instance,
   .old_applist_instance, .old_music_instance, .old_musicremote_instance,
   .old_htmlsurface_instance, .old_inventory_instance, .old_video_instance,
   .old_parental_instance, .old_unified_instance]

/-- The cache variables `SteamGameServer_Shutdown` sets to `NULL`. -/
def serverOldInstances : List OldInstance :=
  [.old_gameserver_instance, .old_gamserver_utils_instance,
   .old_gamserver_networking_instance, .old_gamserver_stats_instance,
   .old_gamserver_http_instance, .old_gamserver_inventory_instance,
   .old_gamserver_ugc_instance, .old_gamserver_apps_instance,
   .old_gamserver_masterupdater_instance]

/-- The function `SteamAPI_GetHSteamUser`. -/
def SteamAPI_GetHSteamUser (K : UserHandles) (g : Dll) : HSteamUser × Dll :=
  let (client, g1) := get_steam_client g
  (if !client.user_logged_in then 0 else K.CLIENT_HSTEAMUSER, g1)

/-- The function `SteamGameServer_GetHSteamUser`. -/
def SteamGameServer_GetHSteamUser (K : UserHandles) (g : Dll) : HSteamUser × Dll :=
  let (client, g1) := get_steam_client g
  (if !client.server_init then 0 else K.SERVER_HSTEAMUSER, g1)

/-- The function `SteamAPI_Init`. -/
def SteamAPI_Init (K : UserHandles) (g : Dll) : Bool × Dll :=
  if g.user_steam_pipe ≠ 0 then (true, g)
  else
    let (client, g1) := get_steam_client g
    let created := client.CreateSteamPipe
    let bound := created.2.ConnectToGlobalUser K created.1
    (true, { g1 with
      steamclient_instance := some bound.2
      user_steam_pipe := created.1
      global_counter := (g1.global_counter + 1) % uintp_mod })

/-- The function `SteamAPI_Shutdown`.  Every `get_steam_client()` after the
first returns the same singleton. -/
def SteamAPI_Shutdown (g : Dll) : Dll :=
  let (client, g1) := get_steam_client g
  let released := (client.clientShutdown.BReleaseSteamPipe g1.user_steam_pipe).2
  let closed := released.BShutdownIfAllPipesClosed g1.kill_background_thread
  let g2 : Dll := { g1 with
    steamclient_instance := some closed.2.1
    kill_background_thread := closed.2.2
    user_steam_pipe := 0
    global_counter := (g1.global_counter + uintp_mod - 1) % uintp_mod
    old_instances := g1.old_instances.filter (fun e => !(clientOldInstances.contains e.1)) }
  if g2.global_counter = 0 then destroy_client g2 else g2

/-- The function `SteamGameServer_Shutdown`. -/
def SteamGameServer_Shutdown (g : Dll) : Dll :=
  let (client, g1) := get_steam_client g
  let released := (client.serverShutdown.BReleaseSteamPipe g1.server_steam_pipe).2
  let closed := released.BShutdownIfAllPipesClosed g1.kill_background_thread
  let g2 : Dll := { g1 with
    steamclient_instance := some closed.2.1
    kill_background_thread := closed.2.2
    server_steam_pipe := 0
    global_counter := (g1.global_counter + uintp_mod - 1) % uintp_mod
    g_pSteamClientGameServer := none
    old_instances := g1.old_instances.filter (fun e => !(serverOldInstances.contains e.1)) }
  if g2.global_counter = 0 then destroy_client g2 else g2

/-! ## Manual dispatch -/

/-- The output structure `CallbackMsg_t`.  `m_pubParam` holds the bytes the
pointer points to (the payload of the front entry, not a copy of it in the
source); `m_cubParam` is their number, which fits an `int`. -/
structure CallbackMsg_t where
  m_hSteamUser : HSteamUser
  m_iCallback : Int
  m_pubParam : List Nat
  m_cubParam : Nat
  deriving DecidableEq, Repr

/-- The function `cb_add_queue_server`. -/
def cb_add_queue_server (g : Dll) (result : List Nat) (callback : Int) : Dll :=
  { g with server_cb := g.server_cb ++ [{ cb_id := callback, result := result }] }

/-- The function `cb_add_queue_client`. -/
def cb_add_queue_client (g : Dll) (result : List Nat) (callback : Int) : Dll :=
  { g with client_cb := g.client_cb ++ [{ cb_id := callback, result := result }] }

/-- The tail of `SteamAPI_ManualDispatch_GetNextCallback` once the queue `q`
and the user handle are chosen: the empty test, then the null test on the
output structure and the four writes. -/
def nextCallbackFrom (q : List cb_data) (m_hSteamUser : HSteamUser) (pCallbackMsg : Bool) :
    Bool × Option CallbackMsg_t :=
  match q with
  | [] => (false, none)
  | front :: _ =>
    if pCallbackMsg then
      (true, some
        { m_hSteamUser := m_hSteamUser
          m_iCallback := front.cb_id
          m_pubParam := front.result
          m_cubParam := front.result.length })
    else (false, none)

/-- The function `SteamAPI_ManualDispatch_GetNextCallback`.  `pCallbackMsg`
says whether the output pointer is non-null; the second component is what is
written through it, `none` when nothing is written. -/
def SteamAPI_ManualDispatch_GetNextCallback (K : UserHandles) (g : Dll)
    (hSteamPipe : HSteamPipe) (pCallbackMsg : Bool) : Bool × Option CallbackMsg_t × Dll :=
  let (steam_client, g1) := get_steam_client g
  let g2 : Dll := if !steam_client.steamclient_server_inited then { g1 with server_cb := [] } else g1
  match steam_client.steam_pipes.find hSteamPipe with
  | none => (false, none, g2)
  | some Steam_Pipe.SERVER =>
    let r := nextCallbackFrom g2.server_cb K.SERVER_HSTEAMUSER pCallbackMsg
    (r.1, r.2, g2)
  | some Steam_Pipe.CLIENT =>
    let r := nextCallbackFrom g2.client_cb K.CLIENT_HSTEAMUSER pCallbackMsg
    (r.1, r.2, g2)
  | some Steam_Pipe.NO_USER => (false, none, g2)

/-- The statement `if (!q->empty()) q->pop();`. -/
def popIfNotEmpty (q : List cb_data) : List cb_data :=
  match q with
  | [] => []
  | _ :: rest => rest

/-- The function `SteamAPI_ManualDispatch_FreeLastCallback`. -/
def SteamAPI_ManualDispatch_FreeLastCallback (g : Dll) (hSteamPipe : HSteamPipe) : Dll :=
  let (steam_client, g1) := get_steam_client g
  match steam_client.steam_pipes.find hSteamPipe with
  | none => g1
  | some Steam_Pipe.SERVER => { g1 with server_cb := popIfNotEmpty g1.server_cb }
  | some Steam_Pipe.CLIENT => { g1 with client_cb := popIfNotEmpty g1.client_cb }
  | some Steam_Pipe.NO_USER => g1

/-- The queue of a role; an unbound pipe has none. -/
def queueOf (role : Steam_Pipe) (g : Dll) : List cb_data :=
  match role with
  | Steam_Pipe.SERVER => g.server_cb
  | Steam_Pipe.CLIENT => g.client_cb
  | Steam_Pipe.NO_USER => []

/-- The user handle `SteamAPI_ManualDispatch_GetNextCallback` reports for a
role. -/
def userOf (K : UserHandles) (role : Steam_Pipe) : HSteamUser :=
  match role with
  | Steam_Pipe.SERVER => K.SERVER_HSTEAMUSER
  | Steam_Pipe.CLIENT => K.CLIENT_HSTEAMUSER
  | Steam_Pipe.NO_USER => 0

/-- The message `SteamAPI_ManualDispatch_GetNextCallback` writes for an entry
of the queue of a role. -/
def messageOf (K : UserHandles) (role : Steam_Pipe) (e : cb_data) : CallbackMsg_t :=
  { m_hSteamUser := userOf K role
    m_iCallback := e.cb_id
    m_pubParam := e.result
    m_cubParam := e.result.length }

/-- Rounds of manual dispatch on one pipe: each round is some other activity
`between`, then `SteamAPI_ManualDispatch_GetNextCallback` with an output
structure, then `SteamAPI_ManualDispatch_FreeLastCallback`.  The result lists
what each round returned and wrote. -/
def manualDispatchRounds (K : UserHandles) (hSteamPipe : HSteamPipe) :
    List (Dll → Dll) → Dll → List (Bool × Option CallbackMsg_t) × Dll
  | [], g => ([], g)
  | between :: rest, g =>
    let r := SteamAPI_ManualDispatch_GetNextCallback K (between g) hSteamPipe true
    let out := manualDispatchRounds K hSteamPipe rest
      (SteamAPI_ManualDispatch_FreeLastCallback r.2.2 hSteamPipe)
    ((r.1, r.2.1) :: out.1, out.2)

/-- The pipe is bound to the role in the live singleton, the role's queue is
`q`, and for the server role `steamclient_server_inited` is set. -/
def readyFor (role : Steam_Pipe) (hSteamPipe : HSteamPipe) (q : List cb_data) (g : Dll) : Prop :=
  ∃ client, g.steamclient_instance = some client
    ∧ client.steam_pipes.find hSteamPipe = some role
    ∧ (role = Steam_Pipe.SERVER → client.steamclient_server_inited = true)
    ∧ queueOf role g = q

/-- The call `f` made between two rounds keeps the pipe bound to the role (and, for the
server role, the server marked initialised) and removes nothing from the role's queue: it may
only push further events at its back. -/
def keepsRole (role : Steam_Pipe) (hSteamPipe : HSteamPipe) (f : Dll → Dll) : Prop :=
  ∀ q g, readyFor role hSteamPipe q g → ∃ pushed, readyFor role hSteamPipe (q ++ pushed) (f g)

/-- The state of scenario B with a second event: a server bound through `CreateLocalUser` on
a fresh singleton, whose pipe is handle 1, and the events (42, [0xAA]) and (43, [0xBB]) pushed
on the server queue in this order. -/
def serverQueued (K : UserHandles) : Dll :=
  cb_add_queue_server
    (cb_add_queue_server ((ApiCall.method (Call.CreateLocalUser true)).run K {}) [0xAA] 42)
    [0xBB] 43

/-- A client bound through `SteamAPI_Init` on a fresh singleton, whose pipe is handle 1, with
the event (42, [0xAA]) pushed on the server queue and the event (7, [0x01]) pushed on the
client queue. -/
def clientWithServerEvent (K : UserHandles) : Dll :=
  cb_add_queue_client (cb_add_queue_server (SteamAPI_Init K {}).2 [0xAA] 42) [0x01] 7

/-! ## Callback registration -/

/-- The method `Steam_Client::RegisterCallback`.  Its `switch` on the callback
base only prints. -/
def Steam_Client.RegisterCallback (s : Steam_Client) (pCallback : CCallbackBase)
    (iCallback : Int) : Steam_Client :=
  let isGameServer := pCallback.isServer
  if isGameServer then
    { s with callbacks_server := s.callbacks_server.addCallBack iCallback pCallback }
  else
    { s with callbacks_client := s.callbacks_client.addCallBack iCallback pCallback }

/-- The method `Steam_Client::UnregisterCallback`: the kind id is the one the
object reports. -/
def Steam_Client.UnregisterCallback (s : Steam_Client) (pCallback : CCallbackBase) :
    Steam_Client :=
  let iCallback := pCallback.GetICallback
  let isGameServer := pCallback.isServer
  if isGameServer then
    { s with callbacks_server := s.callbacks_server.rmCallBack iCallback pCallback }
  else
    { s with callbacks_client := s.callbacks_client.rmCallBack iCallback pCallback }

/-- The method `Steam_Client::RegisterCallResult`. -/
def Steam_Client.RegisterCallResult (s : Steam_Client) (pCallback : CCallbackBase)
    (hAPICall : Nat) : Steam_Client :=
  { s with
    callback_results_client := s.callback_results_client.addCallBack hAPICall pCallback
    callback_results_server := s.callback_results_server.addCallBack hAPICall pCallback }

/-- The method `Steam_Client::UnregisterCallResult`. -/
def Steam_Client.UnregisterCallResult (s : Steam_Client) (pCallback : CCallbackBase)
    (hAPICall : Nat) : Steam_Client :=
  { s with
    callback_results_client := s.callback_results_client.rmCallBack hAPICall pCallback
    callback_results_server := s.callback_results_server.rmCallBack hAPICall pCallback }

/-! ## Manual dispatch: activation and call results -/

/-- The function `SteamAPI_ManualDispatch_Init`.  The exchange on the static
`manual_dispatch_called` succeeds exactly when the flag is false (a spurious
failure of `compare_exchange_weak` is left out). -/
def SteamAPI_ManualDispatch_Init (g : Dll) : Dll :=
  if g.manual_dispatch_called = false then
    let (steam_client, g1) := get_steam_client { g with manual_dispatch_called := true }
    { g1 with steamclient_instance := some { steam_client with
        callback_results_server :=
          steam_client.callback_results_server.setCbAll QueueHook.cb_add_queue_server
        callback_results_client :=
          steam_client.callback_results_client.setCbAll QueueHook.cb_add_queue_client } }
  else g

/-- Modelled from the spec: what the method `GetAPICallResult` of a utils object
(class `Steam_Utils`, not among the sources) gives back: the boolean it returns,
the bytes it writes to `pCallback` and the value it writes to `pbFailed`. -/
structure CallResultAnswer where
  ret : Bool
  pCallback : List Nat
  pbFailed : Bool
  deriving DecidableEq, Repr

/-- The function `SteamAPI_ManualDispatch_GetAPICallResult`.  `GetAPICallResult`
is the method of the utils objects, a parameter: the answer of the table of the
given object.  The result is the boolean returned and, when a table was
consulted, the object asked and its answer. -/
def SteamAPI_ManualDispatch_GetAPICallResult
    (GetAPICallResult : Subsystem → Nat → Nat → Int → CallResultAnswer) (g : Dll)
    (hSteamPipe : HSteamPipe) (hSteamAPICall cubCallback : Nat) (iCallbackExpected : Int) :
    Bool × Option (Subsystem × CallResultAnswer) × Dll :=
  let (steam_client, g1) := get_steam_client g
  if steam_client.steam_pipes.count hSteamPipe = 0 then (false, none, g1)
  else
    match steam_client.steam_pipes.find hSteamPipe with
    | some Steam_Pipe.SERVER =>
      let a := GetAPICallResult Subsystem.steam_gameserver_utils hSteamAPICall cubCallback
        iCallbackExpected
      (a.ret, some (Subsystem.steam_gameserver_utils, a), g1)
    | some Steam_Pipe.CLIENT =>
      let a := GetAPICallResult Subsystem.steam_utils hSteamAPICall cubCallback iCallbackExpected
      (a.ret, some (Subsystem.steam_utils, a), g1)
    | _ => (false, none, g1)

/-! ## Game-server initialisation and context blocks -/

/-- The function `SteamInternal_CreateInterface`. -/
def SteamInternal_CreateInterface (g : Dll) (ver : String) : Option String × Dll :=
  let (client, g1) := get_steam_client g
  if !client.user_logged_in && !client.IsServerInit then (none, g1)
  else create_client_interface g1 ver

/-- The function `SteamGameServerClient`; `old_client` is the static version
string of that name. -/
def SteamGameServerClient (old_client : String) (g : Dll) : Option String × Dll :=
  let (client, g1) := get_steam_client g
  if !client.IsServerInit then (none, g1)
  else SteamInternal_CreateInterface g1 old_client

/-- The function `SteamInternal_GameServer_Init`.  `InitGameServer` is what
`steam_gameserver->InitGameServer(...)` returns, a parameter: the class of the
game-server subsystem is not among the sources. -/
def SteamInternal_GameServer_Init (K : UserHandles) (old_client : String)
    (InitGameServer : Bool) (g : Dll) : Bool × Dll :=
  let (client, g1) := get_steam_client g
  if g1.server_steam_pipe = 0 then
    let r := client.CreateLocalUser K true
    let g2 : Dll := { g1 with
      steamclient_instance := some r.2.2
      server_steam_pipe := r.2.1.getD g1.server_steam_pipe
      global_counter := (g1.global_counter + 1) % uintp_mod }
    let c := SteamGameServerClient old_client g2
    (InitGameServer, { c.2 with g_pSteamClientGameServer := c.1 })
  else (InitGameServer, g1)

/-- The structure `ContextInitData`: the counter it stores and, for `ctx`, how
many times the initialiser `pFn` has run on it. -/
structure ContextInitData where
  counter : Nat
  pFn_runs : Nat
  deriving DecidableEq, Repr

/-- The function `SteamInternal_ContextInit`. -/
def SteamInternal_ContextInit (g : Dll) (contextInitData : ContextInitData) :
    ContextInitData :=
  if contextInitData.counter ≠ g.global_counter then
    { counter := g.global_counter, pFn_runs := contextInitData.pFn_runs + 1 }
  else contextInitData

/-! ## The cached old-style accessors -/

/-- The getter each accessor built with `CACHE_OLDSTEAM_INSTANCE` calls, by
the variable it caches into (`SteamUser()` for `old_user_instance`, ...,
`SteamMasterServerUpdater()` for `old_gamserver_masterupdater_instance`). -/
def OldInstance.getter : OldInstance → Resolver
  | .old_user_instance => .GetISteamUser
  | .old_friends_interface => .GetISteamFriends
  | .old_utils_interface => .GetISteamUtils
  | .old_matchmaking_instance => .GetISteamMatchmaking
  | .old_userstats_instance => .GetISteamUserStats
  | .old_apps_instance => .GetISteamApps
  | .old_matchmakingservers_instance => .GetISteamMatchmakingServers
  | .old_networking_instance => .GetISteamNetworking
  | .old_remotestorage_instance => .GetISteamRemoteStorage
  | .old_screenshots_instance => .GetISteamScreenshots
  | .old_http_instance => .GetISteamHTTP
  | .old_controller_instance => .GetISteamController
  | .old_ugc_instance => .GetISteamUGC
  | .old_applist_instance => .GetISteamAppList
  | .old_music_instance => .GetISteamMusic
  | .old_musicremote_instance => .GetISteamMusicRemote
  | .old_htmlsurface_instance => .GetISteamHTMLSurface
  | .old_inventory_instance => .GetISteamInventory
  | .old_video_instance => .GetISteamVideo
  | .old_parental_instance => .GetISteamParentalSettings
  | .old_unified_instance => .GetISteamUnifiedMessages
  | .old_gameserver_instance => .GetISteamGameServer
  | .old_gamserver_utils_instance => .GetISteamUtils
  | .old_gamserver_networking_instance => .GetISteamNetworking
  | .old_gamserver_stats_instance => .GetISteamGameServerStats
  | .old_gamserver_http_instance => .GetISteamHTTP
  | .old_gamserver_inventory_instance => .GetISteamInventory
  | .old_gamserver_ugc_instance => .GetISteamUGC
  | .old_gamserver_apps_instance => .GetISteamApps
  | .old_gamserver_masterupdater_instance => .GetISteamMasterServerUpdater

/-- The macro `CACHE_OLDSTEAM_INSTANCE`: the cached pointer when the variable is
not `NULL`, else the result of the getter, which is stored in the variable (a
`NULL` result leaves it `NULL`). -/
def CACHE_OLDSTEAM_INSTANCE (g : Dll) (cacheVar : OldInstance)
    (get_func : Dll → Option Adapter × Dll) : Option Adapter × Dll :=
  match g.old_instances.lookup cacheVar with
  | some cached => (some cached, g)
  | none =>
    let r := get_func g
    match r.1 with
    | some a => (some a, { r.2 with old_instances := r.2.old_instances ++ [(cacheVar, a)] })
    | none => (none, r.2)

/-- An old-style accessor, by the variable it caches into.  The client accessors
pass `SteamAPI_GetHSteamUser()` and `SteamAPI_GetHSteamPipe()`, the game-server
ones `SteamGameServer_GetHSteamUser()` and `SteamGameServer_GetHSteamPipe()`;
`old_version` gives the static version string the accessor passes
(`SteamParentalSettings()` passes the empty string). -/
def oldAccessor (K : UserHandles) (old_version : OldInstance → String)
    (cacheVar : OldInstance) (g : Dll) : Option Adapter × Dll :=
  CACHE_OLDSTEAM_INSTANCE g cacheVar (fun g0 =>
    let u := if serverOldInstances.contains cacheVar then SteamGameServer_GetHSteamUser K g0
      else SteamAPI_GetHSteamUser K g0
    let hSteamPipe := if serverOldInstances.contains cacheVar then u.2.server_steam_pipe
      else u.2.user_steam_pipe
    let (client, g1) := get_steam_client u.2
    let r := cacheVar.getter.call client u.1 hSteamPipe
      (if cacheVar = OldInstance.old_parental_instance then "" else old_version cacheVar)
    (r.1, { g1 with steamclient_instance := some r.2 }))

/-! ## Sequences of init and shutdown calls -/

/-- A call of the lifecycle: the two init functions, the two shutdown
functions, the activation of manual dispatch, or any other call on the live
singleton. -/
inductive LifecycleCall where
  | SteamAPI_Init
  | SteamInternal_GameServer_Init (InitGameServer : Bool)
  | SteamAPI_Shutdown
  | SteamGameServer_Shutdown
  | SteamAPI_ManualDispatch_Init
  | other (c : ApiCall)
  deriving DecidableEq, Repr

/-- The process-wide state after one call of the lifecycle. -/
def LifecycleCall.run (K : UserHandles) (old_client : String) : LifecycleCall → Dll → Dll
  | .SteamAPI_Init, g => (Gbe.SteamAPI_Init K g).2
  | .SteamInternal_GameServer_Init ret, g =>
    (Gbe.SteamInternal_GameServer_Init K old_client ret g).2
  | .SteamAPI_Shutdown, g => Gbe.SteamAPI_Shutdown g
  | .SteamGameServer_Shutdown, g => Gbe.SteamGameServer_Shutdown g
  | .SteamAPI_ManualDispatch_Init, g => Gbe.SteamAPI_ManualDispatch_Init g
  | .other c, g => c.run K g

/-- The process-wide state after a sequence of calls of the lifecycle. -/
def runLifecycle (K : UserHandles) (old_client : String) : List LifecycleCall → Dll → Dll
  | [], g => g
  | c :: cs, g => runLifecycle K old_client cs (c.run K old_client g)

/-- No call of the sequence leaves the process without an aggregate. -/
def aliveThroughout (K : UserHandles) (old_client : String) :
    List LifecycleCall → Dll → Bool
  | [], _ => true
  | c :: cs, g =>
    (c.run K old_client g).steamclient_instance.isSome
      && aliveThroughout K old_client cs (c.run K old_client g)

/-- The live aggregate has `cb_add_queue_server` installed on the server
call-result table and `cb_add_queue_client` on the client one. -/
def hooksInstalled (g : Dll) : Bool :=
  match g.steamclient_instance with
  | some client =>
    decide (client.callback_results_server.cb_all = some QueueHook.cb_add_queue_server)
      && decide (client.callback_results_client.cb_all = some QueueHook.cb_add_queue_client)
  | none => false

/-! ## The keepalive thread from its start -/

/-- One test `kill_background_thread || kill_background_thread_cv.wait_for(...) != timeout`
followed by the inner test of `kill_background_thread`, all under the mutex of
the flag: whether the thread returns there.  `kill_at_entry` is the flag when
the mutex is taken, `notified` whether the wait ends before its timeout, and
`kill_after_wait` the flag when the wait ends. -/
def killObserved (kill_at_entry notified kill_after_wait : Bool) : Bool :=
  if kill_at_entry || notified then
    (if kill_at_entry then kill_at_entry else kill_after_wait)
  else false

/-- The `while (1)` loop of `background_thread`: each pass is what the pass
observes of the stop flag (as in `killObserved`) and the clock it reads; a
pass that sees the flag set returns, any other runs `background_thread_tick`. -/
def background_thread_loop (client : Steam_Client) :
    List (Bool × Bool × Bool × Nat) → List Step × Steam_Client
  | [] => ([], client)
  | (kill_at_entry, notified, kill_after_wait, now_ms) :: rest =>
    if killObserved kill_at_entry notified kill_after_wait then ([], client)
    else
      let r := background_thread_tick client now_ms
      let o := background_thread_loop r.2 rest
      (r.1 ++ o.1, o.2)

/-- The function `background_thread`: the grace wait of one second, in which
the thread returns when it sees the stop flag set, then the loop.  The result
is the dispatch steps the thread forces and the aggregate it leaves. -/
def background_thread (client : Steam_Client) (kill_at_entry notified kill_after_wait : Bool)
    (passes : List (Bool × Bool × Bool × Nat)) : List Step × Steam_Client :=
  if killObserved kill_at_entry notified kill_after_wait then ([], client)
  else background_thread_loop client passes

/-! ## What the shutdown of the aggregate calls -/

/-- The calls `BShutdownIfAllPipesClosed` makes on the keepalive thread, the
controller and the overlay. -/
inductive ShutdownStep where
  | kill_background_thread_cv_notify_one
  | steam_controller_Shutdown
  | steam_overlay_UnSetupOverlay
  | background_keepalive_join
  deriving DecidableEq, Repr

/-- The calls of the method `Steam_Client::BShutdownIfAllPipesClosed`, in
order; `disable_overlay` is the setting `settings_client->disable_overlay`. -/
def Steam_Client.BShutdownIfAllPipesClosed_calls (s : Steam_Client) (disable_overlay : Bool) :
    List ShutdownStep :=
  if s.steam_pipes.size ≠ 0 then []
  else
    let joinable := s.background_keepalive
    (if joinable then [ShutdownStep.kill_background_thread_cv_notify_one] else [])
      ++ [ShutdownStep.steam_controller_Shutdown]
      ++ (if !disable_overlay then [ShutdownStep.steam_overlay_UnSetupOverlay] else [])
      ++ (if joinable then [ShutdownStep.background_keepalive_join] else [])

/-! ## The old-style game-server init functions -/

/-- The arguments `SteamGameServer_Init` and `SteamGameServer_InitSafe` pass on
to `SteamInternal_GameServer_Init`.  Pointers are their values. -/
structure GameServerInitCall where
  unIP : Nat
  usPort : Nat
  usGamePort : Nat
  usQueryPort : Nat
  eServerMode : Nat
  pchVersionString : Nat
  deriving DecidableEq, Repr

/-- The function `SteamGameServer_InitSafe`.  `old_gameserver` is the static
version string of that name.  The two `memcpy` read the first four bytes of the
pointer `unknown1` and the first two bytes of `eServerMode`: their low 32 and
low 16 bits on the little-endian targets of the library.  The result is the
boolean returned, whether `LogOnAnonymous` was called, the arguments passed on
and the state. -/
def SteamGameServer_InitSafe (K : UserHandles) (old_client old_gameserver : String)
    (InitGameServer : Bool) (unIP usSteamPort usGamePort unknown eServerMode : Nat)
    (unknown1 _unknown2 unknown3 : Nat) (g : Dll) :
    Bool × Bool × GameServerInitCall × Dll :=
  let (_, g1) := get_steam_client g
  let legacy := decide (old_gameserver = "SteamGameServer010")
    || strstrAtStart old_gameserver "SteamGameServer00"
  let pchVersionString := if legacy then unknown3 else unknown1
  let serverMode := if legacy then unknown1 % 2 ^ 32 else eServerMode
  let usQueryPort := if legacy then eServerMode % 2 ^ 16 else unknown
  let logon_anon := legacy
  let ret := SteamInternal_GameServer_Init K old_client InitGameServer g1
  (ret.1, logon_anon,
    { unIP := unIP, usPort := usSteamPort, usGamePort := usGamePort,
      usQueryPort := usQueryPort, eServerMode := serverMode,
      pchVersionString := pchVersionString },
    ret.2)

/-- The function `SteamGameServer_Init`: the same statements as
`SteamGameServer_InitSafe`. -/
def SteamGameServer_Init (K : UserHandles) (old_client old_gameserver : String)
    (InitGameServer : Bool) (unIP usSteamPort usGamePort unknown eServerMode : Nat)
    (unknown1 _unknown2 unknown3 : Nat) (g : Dll) :
    Bool × Bool × GameServerInitCall × Dll :=
  let (_, g1) := get_steam_client g
  let legacy := decide (old_gameserver = "SteamGameServer010")
    || strstrAtStart old_gameserver "SteamGameServer00"
  let pchVersionString := if legacy then unknown3 else unknown1
  let serverMode := if legacy then unknown1 % 2 ^ 32 else eServerMode
  let usQueryPort := if legacy then eServerMode % 2 ^ 16 else unknown
  let logon_anon := legacy
  let ret := SteamInternal_GameServer_Init K old_client InitGameServer g1
  (ret.1, logon_anon,
    { unIP := unIP, usPort := usSteamPort, usGamePort := usGamePort,
      usQueryPort := usQueryPort, eServerMode := serverMode,
      pchVersionString := pchVersionString },
    ret.2)

/-- The exported function `CreateInterface`; `pReturnCode` is not written. -/
def CreateInterface (g : Dll) (pName : String) : Option String × Dll :=
  create_client_interface g pName

/-! ## Families of the generic getter by how they resolve -/

/-- The families whose branch of `GetISteamGenericInterface` returns a pointer itself
instead of calling another getter. -/
def inlineFamilies : List Steam_Client.Family :=
  [.NetworkingSocketsSerialized, .NetworkingSockets, .NetworkingMessages, .NetworkingUtils,
   .GameCoordinator, .TV]

/-- The families that keep one subsystem object for the client and one for the
game server. -/
def roleSplitFamilies : List Steam_Client.Family :=
  [.Utils, .Apps, .Networking, .HTTP, .UGC, .Inventory, .NetworkingSockets,
   .NetworkingSocketsSerialized, .NetworkingMessages, .GameCoordinator]

/-- The state after `n` calls of `SteamAPI_Init` in a row. -/
def SteamAPI_Init_times (K : UserHandles) : Nat → Dll → Dll
  | 0, g => g
  | n + 1, g => SteamAPI_Init_times K n (SteamAPI_Init K g).2

/-! # Theorems -/

/-! ## Lemmas on the pipe table -/

namespace StdMap

theorem find_assign_same (m : StdMap) (h : HSteamPipe) (v : Steam_Pipe) :
    find (assign m h v) h = some v := by
  induction m with
  | nil => simp [assign, find]
  | cons e rest ih =>
    obtain ⟨k, w⟩ := e
    unfold assign
    by_cases h1 : h < k
    · simp [h1, find]
    · by_cases h2 : h = k
      · simp [h2, find]
      · have h3 : ¬ k = h := fun e => h2 e.symm
        simp [h1, h2, h3, find, ih]

theorem find_assign_other (m : StdMap) (h k : HSteamPipe) (v : Steam_Pipe) (hk : k ≠ h) :
    find (assign m h v) k = find m k := by
  induction m with
  | nil =>
    have : ¬ h = k := fun e => hk e.symm
    simp [assign, find, this]
  | cons e rest ih =>
    obtain ⟨j, w⟩ := e
    have hne : ¬ h = k := fun e => hk e.symm
    unfold assign
    by_cases h1 : h < j
    · simp [h1, find, hne]
    · by_cases h2 : h = j
      · subst h2
        simp [find, hne]
      · simp [h1, h2, find, ih]

theorem find_erase_same (m : StdMap) (h : HSteamPipe) : find (erase m h) h = none := by
  induction m with
  | nil => simp [erase, find]
  | cons e rest ih =>
    obtain ⟨j, w⟩ := e
    by_cases h1 : j = h
    · simpa [erase, h1] using ih
    · simpa [erase, h1, find] using ih

theorem find_erase_other (m : StdMap) (h k : HSteamPipe) (hk : k ≠ h) :
    find (erase m h) k = find m k := by
  induction m with
  | nil => simp [erase, find]
  | cons e rest ih =>
    obtain ⟨j, w⟩ := e
    have ih2 : find (List.filter (fun e => decide (e.1 ≠ h)) rest) k = find rest k := ih
    unfold erase
    by_cases h1 : j = h
    · subst h1
      have h2 : ¬ j = k := fun e => hk e.symm
      rw [List.filter_cons_of_neg (by simp)]
      rw [ih2]
      simp [find, h2]
    · rw [List.filter_cons_of_pos (by simpa using h1)]
      by_cases h2 : j = k
      · simp [find, h2]
      · simp only [find, h2, if_false]
        exact ih2

theorem count_eq_zero_iff (m : StdMap) (h : HSteamPipe) : count m h = 0 ↔ find m h = none := by
  unfold count
  cases hf : find m h <;> simp

theorem find_erase_ne_none (m : StdMap) (h k : HSteamPipe)
    (hk : find (erase m h) k ≠ none) : find m k ≠ none := by
  by_cases e : k = h
  · subst e
    exact absurd (find_erase_same m k) hk
  · rwa [find_erase_other m h k e] at hk

theorem find_assign_ne_none (m : StdMap) (h k : HSteamPipe) (v : Steam_Pipe)
    (hk : find (assign m h v) k ≠ none) : k = h ∨ find m k ≠ none := by
  by_cases e : k = h
  · exact Or.inl e
  · right
    rwa [find_assign_other m h k v e] at hk

end StdMap

/-! ## Lemmas on the version chains -/

theorem strcmpChain_of_not_mem {α : Type} (chain : List (String × α)) (dflt : α) (v : String)
    (hv : v ∉ chain.map Prod.fst) : strcmpChain chain dflt v = dflt := by
  induction chain with
  | nil => rfl
  | cons e rest ih =>
    obtain ⟨name, a⟩ := e
    simp only [List.map_cons, List.mem_cons, not_or] at hv
    simp [strcmpChain, hv.1, ih hv.2]

theorem strstrAtStart_iff (v p : String) : strstrAtStart v p = true ↔ p.toList <+: v.toList := by
  unfold strstrAtStart
  exact List.isPrefixOf_iff_prefix

/-- In a chain ordered longest-first, the first test the token passes has the longest name
among all the tests the token passes. -/
theorem find_longest {α : Type} (v : String) :
    ∀ (T : List (String × α)), longestFirst T = true →
      ∀ q ∈ T, strstrAtStart v q.1 = true →
        ∃ e, T.find? (fun e => strstrAtStart v e.1) = some e ∧ e ∈ T
          ∧ strstrAtStart v e.1 = true ∧ q.1.length ≤ e.1.length := by
  intro T
  induction T with
  | nil => intro _ q hq; cases hq
  | cons e rest ih =>
    intro hT q hq hstart
    simp only [longestFirst, Bool.and_eq_true, List.all_eq_true] at hT
    obtain ⟨hall, hrest⟩ := hT
    by_cases he : strstrAtStart v e.1 = true
    · refine ⟨e, by simp [List.find?, he], List.mem_cons_self _ _, he, ?_⟩
      rcases List.mem_cons.1 hq with rfl | hq'
      · exact le_refl _
      · have h1 := hall q hq'
        by_contra hlt
        have hlt' : e.1.length < q.1.length := Nat.lt_of_not_le hlt
        have hp : e.1.toList <+: q.1.toList := by
          apply List.prefix_of_prefix_length_le ((strstrAtStart_iff _ _).1 he)
            ((strstrAtStart_iff _ _).1 hstart)
          show e.1.length ≤ q.1.length
          exact Nat.le_of_lt hlt'
        have hp' : strstrAtStart q.1 e.1 = true := (strstrAtStart_iff _ _).2 hp
        simp [hp', hlt] at h1
    · rcases List.mem_cons.1 hq with rfl | hq'
      · exact absurd hstart he
      · obtain ⟨f, hf, hmem, hfs, hlen⟩ := ih hrest q hq' hstart
        refine ⟨f, ?_, List.mem_cons_of_mem _ hmem, hfs, hlen⟩
        have he' : strstrAtStart v e.1 = false := by simpa using he
        simp [List.find?, he', hf]

/-- Whenever one family name extends another, the source tests the longer one first. -/
theorem families_longestFirst :
    longestFirst Steam_Client.GetISteamGenericInterface_families = true := by
  decide

/-! ## C1: longest family name first -/

/-- C1. For every version token that starts with some family name `q` of the `strstr` chain,
`GetISteamGenericInterface` selects a family `f` whose name `p` the token starts with and that
is at least as long as `q`: the longest of the family names the token starts with.  On a
registered pipe with a nonzero user handle the result is that of the branch of `f`. -/
theorem C1_longest_family_selected (pchVersion q : String) (fam : Steam_Client.Family)
    (hq : (q, fam) ∈ Steam_Client.GetISteamGenericInterface_families)
    (hstart : strstrAtStart pchVersion q = true) :
    ∃ p f, Steam_Client.selectFamily pchVersion = some (p, f)
      ∧ (p, f) ∈ Steam_Client.GetISteamGenericInterface_families
      ∧ strstrAtStart pchVersion p = true
      ∧ q.length ≤ p.length
      ∧ ∀ (s : Steam_Client) (hSteamUser : HSteamUser) (hSteamPipe : HSteamPipe),
          s.steam_pipes.count hSteamPipe ≠ 0 → hSteamUser ≠ 0 →
          s.GetISteamGenericInterface hSteamUser hSteamPipe pchVersion
            = Steam_Client.genericBranch s
                (decide (s.steam_pipes.find hSteamPipe = some Steam_Pipe.SERVER))
                hSteamUser hSteamPipe pchVersion f := by
  obtain ⟨e, hfind, hmem, hes, hlen⟩ :=
    find_longest pchVersion _ families_longestFirst (q, fam) hq hstart
  refine ⟨e.1, e.2, hfind, hmem, hes, hlen, ?_⟩
  intro s u h hc hu
  unfold Steam_Client.GetISteamGenericInterface
  have hsel : Steam_Client.selectFamily pchVersion = some (e.1, e.2) := hfind
  simp [hc, hu, hsel]

/-- The token `SteamNetworkingSocketsSerialized003` starts with three family names; the
selected one is at least as long as `SteamNetworking`. -/
theorem C1_longest_family_selected_witness :
    ∃ p f, Steam_Client.selectFamily "SteamNetworkingSocketsSerialized003" = some (p, f)
      ∧ (p, f) ∈ Steam_Client.GetISteamGenericInterface_families
      ∧ strstrAtStart "SteamNetworkingSocketsSerialized003" p = true
      ∧ "SteamNetworking".length ≤ p.length
      ∧ ∀ (s : Steam_Client) (hSteamUser : HSteamUser) (hSteamPipe : HSteamPipe),
          s.steam_pipes.count hSteamPipe ≠ 0 → hSteamUser ≠ 0 →
          s.GetISteamGenericInterface hSteamUser hSteamPipe "SteamNetworkingSocketsSerialized003"
            = Steam_Client.genericBranch s
                (decide (s.steam_pipes.find hSteamPipe = some Steam_Pipe.SERVER))
                hSteamUser hSteamPipe "SteamNetworkingSocketsSerialized003" f :=
  C1_longest_family_selected "SteamNetworkingSocketsSerialized003" "SteamNetworking"
    Steam_Client.Family.Networking (by decide) (by decide)

/-- The pairs of family names the claim lists resolve to the longer family. -/
theorem selectFamily_examples :
    Steam_Client.selectFamily "SteamNetworkingSocketsSerialized003"
        = some ("SteamNetworkingSocketsSerialized",
            Steam_Client.Family.NetworkingSocketsSerialized)
    ∧ Steam_Client.selectFamily "SteamNetworkingSockets009"
        = some ("SteamNetworkingSockets", Steam_Client.Family.NetworkingSockets)
    ∧ Steam_Client.selectFamily "SteamNetworkingMessages002"
        = some ("SteamNetworkingMessages", Steam_Client.Family.NetworkingMessages)
    ∧ Steam_Client.selectFamily "SteamNetworkingUtils003"
        = some ("SteamNetworkingUtils", Steam_Client.Family.NetworkingUtils)
    ∧ Steam_Client.selectFamily "SteamGameServerStats001"
        = some ("SteamGameServerStats", Steam_Client.Family.GameServerStats)
    ∧ Steam_Client.selectFamily "SteamMatchMakingServers002"
        = some ("SteamMatchMakingServers", Steam_Client.Family.MatchmakingServers) := by
  decide

/-! ## C2: unlisted versions fall back to the current adapter -/

/-- The branch a family takes inside the generic getter returns the family's current adapter
for a token the family does not list. -/
theorem genericBranch_unlisted (s : Steam_Client) (u : HSteamUser) (h : HSteamPipe) (v : String)
    (f : Steam_Client.Family) (hc : s.steam_pipes.count h ≠ 0) (hu : u ≠ 0)
    (hv : v ∉ f.listed) :
    (Steam_Client.genericBranch s (decide (s.steam_pipes.find h = some Steam_Pipe.SERVER))
      u h v f).1 = some (f.latest s h) := by
  cases f <;>
    simp only [Steam_Client.genericBranch, hc, hu, or_self, if_false,
      Steam_Client.GetISteamUser, Steam_Client.GetISteamGameServer,
      Steam_Client.GetISteamFriends, Steam_Client.GetISteamUtils,
      Steam_Client.GetISteamMatchmaking, Steam_Client.GetISteamMatchmakingServers,
      Steam_Client.GetISteamUserStats, Steam_Client.GetISteamGameServerStats,
      Steam_Client.GetISteamApps, Steam_Client.GetISteamNetworking,
      Steam_Client.GetISteamRemoteStorage, Steam_Client.GetISteamScreenshots,
      Steam_Client.GetISteamHTTP, Steam_Client.DEPRECATED_GetISteamUnifiedMessages,
      Steam_Client.GetISteamController, Steam_Client.GetISteamUGC,
      Steam_Client.GetISteamAppList, Steam_Client.GetISteamMusic,
      Steam_Client.GetISteamMusicRemote, Steam_Client.GetISteamHTMLSurface,
      Steam_Client.GetISteamInventory, Steam_Client.GetISteamVideo,
      Steam_Client.GetISteamParentalSettings, Steam_Client.GetISteamMasterServerUpdater,
      Steam_Client.GetISteamGameSearch, Steam_Client.GetISteamInput,
      Steam_Client.GetISteamParties, Steam_Client.GetISteamRemotePlay,
      Steam_Client.GetAppTicket] <;>
    (try rw [strcmpChain_of_not_mem _ _ _ hv]) <;>
    simp [Steam_Client.Family.latest, Steam_Client.Family.object, Steam_Client.Family.currentItf]

/-- C2. On a registered pipe with a nonzero user handle, every interface getter that serves a
family, and every branch of `GetISteamGenericInterface`, resolves a token that is not one of
the family's listed versions to the adapter of the family's current version: never `NULL`,
and the same adapter for every such token. -/
theorem C2_unlisted_version_resolves_to_current (s : Steam_Client) (hSteamUser : HSteamUser)
    (hSteamPipe : HSteamPipe) (pchVersion : String)
    (hreg : s.steam_pipes.find hSteamPipe ≠ none) (hu : hSteamUser ≠ 0) :
    (∀ (r : Resolver) (f : Steam_Client.Family), r.family = some f → pchVersion ∉ f.listed →
      (r.call s hSteamUser hSteamPipe pchVersion).1 = some (f.latest s hSteamPipe))
    ∧ (∀ (p : String) (f : Steam_Client.Family),
        Steam_Client.selectFamily pchVersion = some (p, f) → pchVersion ∉ f.listed →
        (s.GetISteamGenericInterface hSteamUser hSteamPipe pchVersion).1
          = some (f.latest s hSteamPipe)) := by
  have hc : s.steam_pipes.count hSteamPipe ≠ 0 := by
    intro e
    exact hreg ((StdMap.count_eq_zero_iff _ _).1 e)
  constructor
  · intro r f hrf hv
    have hb := genericBranch_unlisted s hSteamUser hSteamPipe pchVersion f hc hu hv
    cases r <;> simp only [Resolver.family, Option.some.injEq, reduceCtorEq] at hrf <;>
      subst hrf <;> exact hb
  · intro p f hsel hv
    unfold Steam_Client.GetISteamGenericInterface
    simp only [hc, hu, hsel, if_false, and_false]
    exact genericBranch_unlisted s hSteamUser hSteamPipe pchVersion f hc hu hv

/-- On the first pipe of a fresh aggregate, `GetISteamUser` resolves the unlisted token
`SteamUser999` to the current `ISteamUser` adapter, and `GetISteamGenericInterface` resolves
the unlisted token `SteamNetworkingSockets012` to the current sockets adapter. -/
theorem C2_unlisted_version_resolves_to_current_witness :
    (Resolver.GetISteamUser.call Steam_Client.new.CreateSteamPipe.2 1 1 "SteamUser999").1
        = some ⟨Subsystem.steam_user, "ISteamUser"⟩
    ∧ (Steam_Client.new.CreateSteamPipe.2.GetISteamGenericInterface 1 1
          "SteamNetworkingSockets012").1
        = some ⟨Subsystem.steam_networking_sockets, "ISteamNetworkingSockets"⟩ :=
  ⟨(C2_unlisted_version_resolves_to_current Steam_Client.new.CreateSteamPipe.2 1 1
      "SteamUser999" (by decide) (by decide)).1 Resolver.GetISteamUser Steam_Client.Family.User
      rfl (by decide),
   (C2_unlisted_version_resolves_to_current Steam_Client.new.CreateSteamPipe.2 1 1
      "SteamNetworkingSockets012" (by decide) (by decide)).2 "SteamNetworkingSockets"
      Steam_Client.Family.NetworkingSockets (by decide) (by decide)⟩

/-! ## C3: unknown family -/

/-- C3. For every version token (the empty string and malformed text included) that starts
with none of the family names, `GetISteamGenericInterface` returns `NULL` and leaves the
aggregate as it was, on a registered pipe as on any other. -/
theorem C3_unknown_family_returns_null (s : Steam_Client) (hSteamUser : HSteamUser)
    (hSteamPipe : HSteamPipe) (pchVersion : String)
    (hnone : ∀ e ∈ Steam_Client.GetISteamGenericInterface_families,
      strstrAtStart pchVersion e.1 = false) :
    s.GetISteamGenericInterface hSteamUser hSteamPipe pchVersion = (none, s) := by
  have hsel : Steam_Client.selectFamily pchVersion = none := by
    unfold Steam_Client.selectFamily
    rw [List.find?_eq_none]
    intro e he
    simp [hnone e he]
  unfold Steam_Client.GetISteamGenericInterface
  simp only [hsel]
  split_ifs <;> rfl

/-- The empty token and the token `Steam` on the registered pipe 1 of a fresh aggregate. -/
theorem C3_unknown_family_returns_null_witness :
    Steam_Client.new.CreateSteamPipe.2.steam_pipes.find 1 = some Steam_Pipe.NO_USER
    ∧ Steam_Client.new.CreateSteamPipe.2.GetISteamGenericInterface 1 1 ""
        = (none, Steam_Client.new.CreateSteamPipe.2)
    ∧ Steam_Client.new.CreateSteamPipe.2.GetISteamGenericInterface 1 1 "Steam"
        = (none, Steam_Client.new.CreateSteamPipe.2) :=
  ⟨by decide,
   C3_unknown_family_returns_null Steam_Client.new.CreateSteamPipe.2 1 1 "" (by decide),
   C3_unknown_family_returns_null Steam_Client.new.CreateSteamPipe.2 1 1 "Steam"
     (by decide)⟩

/-! ## C4: unregistered pipe -/

/-- C4. For every interface getter (`GetISteamGenericInterface` included, hence every
family), version token and user handle: on a pipe handle that is not registered the getter
returns `NULL` and the aggregate is unchanged. -/
theorem C4_unregistered_pipe_resolves_to_null (r : Resolver) (s : Steam_Client)
    (hSteamUser : HSteamUser) (hSteamPipe : HSteamPipe) (pchVersion : String)
    (hunreg : s.steam_pipes.find hSteamPipe = none) :
    r.call s hSteamUser hSteamPipe pchVersion = (none, s) := by
  have hc : s.steam_pipes.count hSteamPipe = 0 := by simp [StdMap.count, hunreg]
  cases r <;> simp [Resolver.call, hc, Steam_Client.GetISteamUser,
    Steam_Client.GetISteamGameServer,
    Steam_Client.GetISteamFriends, Steam_Client.GetISteamUtils, Steam_Client.GetISteamMatchmaking,
    Steam_Client.GetISteamMatchmakingServers, Steam_Client.GetISteamGenericInterface,
    Steam_Client.GetISteamUserStats, Steam_Client.GetISteamGameServerStats,
    Steam_Client.GetISteamApps, Steam_Client.GetISteamNetworking,
    Steam_Client.GetISteamRemoteStorage, Steam_Client.GetISteamScreenshots,
    Steam_Client.GetISteamHTTP, Steam_Client.DEPRECATED_GetISteamUnifiedMessages,
    Steam_Client.GetISteamUnifiedMessages, Steam_Client.GetISteamController,
    Steam_Client.GetISteamUGC, Steam_Client.GetISteamAppList, Steam_Client.GetISteamMusic,
    Steam_Client.GetISteamMusicRemote, Steam_Client.GetISteamHTMLSurface,
    Steam_Client.GetISteamInventory, Steam_Client.GetISteamVideo,
    Steam_Client.GetISteamParentalSettings, Steam_Client.GetISteamMasterServerUpdater,
    Steam_Client.GetISteamContentServer, Steam_Client.GetISteamGameSearch,
    Steam_Client.GetISteamInput, Steam_Client.GetISteamParties,
    Steam_Client.GetISteamRemotePlay, Steam_Client.GetAppTicket]

/-- Pipe 7 is not registered in an aggregate whose only pipe is 1: resolving the newest
game-server version there returns `NULL` and raises no flag. -/
theorem C4_unregistered_pipe_resolves_to_null_witness :
    Resolver.GetISteamGameServer.call Steam_Client.new.CreateSteamPipe.2 1 7 "SteamGameServer015"
      = (none, Steam_Client.new.CreateSteamPipe.2) :=
  C4_unregistered_pipe_resolves_to_null Resolver.GetISteamGameServer
    Steam_Client.new.CreateSteamPipe.2 1 7 "SteamGameServer015" (by decide)

/-! ## C5: the IPv6 flag along the game-server versions -/

theorem digitChar_inj : ∀ a < 10, ∀ b < 10, digitChar a = digitChar b → a = b := by
  decide

theorem gameServerToken_inj (a b : Nat) (ha : a < 1000) (hb : b < 1000)
    (h : gameServerToken a = gameServerToken b) : a = b := by
  unfold gameServerToken at h
  have h1 := congrArg String.data h
  simp only [String.data_append, List.append_cancel_left_eq, List.cons.injEq, and_true] at h1
  obtain ⟨e1, e2, e3⟩ := h1
  have d1 := digitChar_inj _ (Nat.mod_lt _ (by norm_num)) _ (Nat.mod_lt _ (by norm_num)) e1
  have d2 := digitChar_inj _ (Nat.mod_lt _ (by norm_num)) _ (Nat.mod_lt _ (by norm_num)) e2
  have d3 := digitChar_inj _ (Nat.mod_lt _ (by norm_num)) _ (Nat.mod_lt _ (by norm_num)) e3
  omega

theorem toHSteamPipe_inj (a b : Nat) (h : toHSteamPipe a = toHSteamPipe b) :
    a % 2 ^ 32 = b % 2 ^ 32 := by
  have h2 : @Eq Int (toHSteamPipe a) (toHSteamPipe b) := h
  unfold toHSteamPipe at h2
  have ha : a % 2 ^ 32 < 2 ^ 32 := Nat.mod_lt _ (by norm_num)
  have hb : b % 2 ^ 32 < 2 ^ 32 := Nat.mod_lt _ (by norm_num)
  generalize a % 2 ^ 32 = x at h2 ha ⊢
  generalize b % 2 ^ 32 = y at h2 hb ⊢
  split_ifs at h2 <;> omega

theorem toHSteamPipe_mod (a : Nat) : toHSteamPipe (a % 2 ^ 32) = toHSteamPipe a := by
  unfold toHSteamPipe
  rw [Nat.mod_mod]

theorem toHSteamPipe_ne_one (c : Nat) (hc : c % 2 ^ 32 ≠ 1) : toHSteamPipe c ≠ 1 := by
  intro e
  have h1 : toHSteamPipe 1 = 1 := by decide
  rw [← h1] at e
  have := toHSteamPipe_inj _ _ e
  omega

/-- Every interface getter leaves the aggregate as it is or sets the game-server
capability flag. -/
theorem Resolver.call_state (r : Resolver) (s : Steam_Client) (u : HSteamUser) (h : HSteamPipe)
    (v : String) :
    (r.call s u h v).2 = s ∨ (r.call s u h v).2 = { s with gameserver_has_ipv6_functions := true } := by
  have key : ∀ f : Steam_Client.Family,
      (Steam_Client.genericBranch s (decide (s.steam_pipes.find h = some Steam_Pipe.SERVER)) u h v f).2 = s
      ∨ (Steam_Client.genericBranch s (decide (s.steam_pipes.find h = some Steam_Pipe.SERVER)) u h v f).2
          = { s with gameserver_has_ipv6_functions := true } := by
    intro f
    cases f <;>
      simp only [Steam_Client.genericBranch, Steam_Client.GetISteamUser, Steam_Client.GetISteamGameServer,
      Steam_Client.GetISteamFriends, Steam_Client.GetISteamUtils,
      Steam_Client.GetISteamMatchmaking, Steam_Client.GetISteamMatchmakingServers,
      Steam_Client.GetISteamUserStats, Steam_Client.GetISteamGameServerStats,
      Steam_Client.GetISteamApps, Steam_Client.GetISteamNetworking,
      Steam_Client.GetISteamRemoteStorage, Steam_Client.GetISteamScreenshots,
      Steam_Client.GetISteamHTTP, Steam_Client.DEPRECATED_GetISteamUnifiedMessages,
      Steam_Client.GetISteamController, Steam_Client.GetISteamUGC,
      Steam_Client.GetISteamAppList, Steam_Client.GetISteamMusic,
      Steam_Client.GetISteamMusicRemote, Steam_Client.GetISteamHTMLSurface,
      Steam_Client.GetISteamInventory, Steam_Client.GetISteamVideo,
      Steam_Client.GetISteamParentalSettings, Steam_Client.GetISteamMasterServerUpdater,
      Steam_Client.GetISteamGameSearch, Steam_Client.GetISteamInput,
      Steam_Client.GetISteamParties, Steam_Client.GetISteamRemotePlay,
      Steam_Client.GetAppTicket] <;>
      (try split_ifs) <;> simp
  cases r
  case GetISteamGenericInterface =>
    simp only [Resolver.call, Steam_Client.GetISteamGenericInterface]
    split_ifs
    · exact Or.inl rfl
    · exact Or.inl rfl
    · cases hsel : Steam_Client.selectFamily v with
      | none => exact Or.inl rfl
      | some e => exact key e.2
  case GetISteamUnifiedMessages =>
    simp only [Resolver.call, Steam_Client.GetISteamUnifiedMessages]
    split_ifs <;> simp
  case GetISteamContentServer =>
    simp only [Resolver.call, Steam_Client.GetISteamContentServer]
    split_ifs <;> simp
  case GetISteamUser => exact key Steam_Client.Family.User
  case GetISteamGameServer => exact key Steam_Client.Family.GameServer
  case GetISteamFriends => exact key Steam_Client.Family.Friends
  case GetISteamUtils => exact key Steam_Client.Family.Utils
  case GetISteamMatchmaking => exact key Steam_Client.Family.Matchmaking
  case GetISteamMatchmakingServers => exact key Steam_Client.Family.MatchmakingServers
  case GetISteamUserStats => exact key Steam_Client.Family.UserStats
  case GetISteamGameServerStats => exact key Steam_Client.Family.GameServerStats
  case GetISteamApps => exact key Steam_Client.Family.Apps
  case GetISteamNetworking => exact key Steam_Client.Family.Networking
  case GetISteamRemoteStorage => exact key Steam_Client.Family.RemoteStorage
  case GetISteamScreenshots => exact key Steam_Client.Family.Screenshots
  case GetISteamHTTP => exact key Steam_Client.Family.HTTP
  case DEPRECATED_GetISteamUnifiedMessages => exact key Steam_Client.Family.UnifiedMessages
  case GetISteamController => exact key Steam_Client.Family.Controller
  case GetISteamUGC => exact key Steam_Client.Family.UGC
  case GetISteamAppList => exact key Steam_Client.Family.AppList
  case GetISteamMusic => exact key Steam_Client.Family.Music
  case GetISteamMusicRemote => exact key Steam_Client.Family.MusicRemote
  case GetISteamHTMLSurface => exact key Steam_Client.Family.HTMLSurface
  case GetISteamInventory => exact key Steam_Client.Family.Inventory
  case GetISteamVideo => exact key Steam_Client.Family.Video
  case GetISteamParentalSettings => exact key Steam_Client.Family.ParentalSettings
  case GetISteamMasterServerUpdater => exact key Steam_Client.Family.MasterServerUpdater
  case GetISteamGameSearch => exact key Steam_Client.Family.GameSearch
  case GetISteamInput => exact key Steam_Client.Family.Input
  case GetISteamParties => exact key Steam_Client.Family.Parties
  case GetISteamRemotePlay => exact key Steam_Client.Family.RemotePlay
  case GetAppTicket => exact key Steam_Client.Family.AppTicket


theorem Resolver.call_pipes (r : Resolver) (s : Steam_Client) (u : HSteamUser) (h : HSteamPipe)
    (v : String) :
    (r.call s u h v).2.steam_pipes = s.steam_pipes
    ∧ (r.call s u h v).2.steam_pipe_counter = s.steam_pipe_counter := by
  rcases Resolver.call_state r s u h v with e | e <;> rw [e] <;> exact ⟨rfl, rfl⟩

theorem ConnectToGlobalUser_registered (K : UserHandles) (s : Steam_Client) (h : HSteamPipe)
    (hc : s.steam_pipes.count h ≠ 0) :
    s.ConnectToGlobalUser K h = (K.CLIENT_HSTEAMUSER,
      { s with
        user_logged_in := true
        background_keepalive := true
        steam_pipes := s.steam_pipes.assign h Steam_Pipe.CLIENT }) := by
  unfold Steam_Client.ConnectToGlobalUser
  cases hb : s.background_keepalive <;> simp [hc, hb, Steam_Client.userLogIn]

/-- One call keeps the allocation invariant: the counter is one more than the number of
allocations so far (modulo 2^32) and every registered handle is one of the handles allocated
so far; a handle the call allocates is the next one. -/
theorem Call.run_allocation (K : UserHandles) (c : Call) (s : Steam_Client) (n : Nat)
    (hcount : s.steam_pipe_counter = (1 + n) % 2 ^ 32)
    (hreg : ∀ k, s.steam_pipes.find k ≠ none → ∃ i, i < n ∧ k = toHSteamPipe (1 + i)) :
    (c.run K s).steam_pipe_counter = (1 + (n + creations [c])) % 2 ^ 32
    ∧ (∀ k, (c.run K s).steam_pipes.find k ≠ none →
        ∃ i, i < n + creations [c] ∧ k = toHSteamPipe (1 + i))
    ∧ (∀ k, c.created s = some k → creations [c] = 1 ∧ k = toHSteamPipe (1 + n)) := by
  have hpipe : toHSteamPipe s.steam_pipe_counter = toHSteamPipe (1 + n) := by
    rw [hcount, toHSteamPipe_mod]
  have hnext : (s.steam_pipe_counter + 1) % 2 ^ 32 = (1 + (n + 1)) % 2 ^ 32 := by
    rw [hcount]; omega
  cases c with
  | userLogIn => exact ⟨hcount, hreg, by simp [Call.created]⟩
  | serverInit => exact ⟨hcount, hreg, by simp [Call.created]⟩
  | serverShutdown => exact ⟨hcount, hreg, by simp [Call.created]⟩
  | clientShutdown => exact ⟨hcount, hreg, by simp [Call.created]⟩
  | CreateSteamPipe =>
    refine ⟨hnext, ?_, ?_⟩
    · intro k hk
      rcases StdMap.find_assign_ne_none _ _ _ _ hk with e | e
      · exact ⟨n, by simp [creations], by rw [e, hpipe]⟩
      · obtain ⟨i, hi, hki⟩ := hreg k e
        exact ⟨i, by simp [creations]; omega, hki⟩
    · intro k hk
      simp only [Call.created, Option.some.injEq] at hk
      exact ⟨rfl, by rw [← hk]; exact hpipe⟩
  | BReleaseSteamPipe h =>
    refine ⟨?_, ?_, by simp [Call.created]⟩
    · simp only [Call.run, Steam_Client.BReleaseSteamPipe]
      split_ifs <;> exact hcount
    · intro k hk
      simp only [Call.run, Steam_Client.BReleaseSteamPipe] at hk
      split_ifs at hk
      · exact hreg k (StdMap.find_erase_ne_none _ _ _ hk)
      · exact hreg k hk
  | ConnectToGlobalUser h =>
    by_cases hc : s.steam_pipes.count h = 0
    · have e : (Call.ConnectToGlobalUser h).run K s = s := by
        simp [Call.run, Steam_Client.ConnectToGlobalUser, hc]
      rw [e]
      exact ⟨hcount, hreg, by simp [Call.created]⟩
    · have e : (Call.ConnectToGlobalUser h).run K s = { s with
          user_logged_in := true
          background_keepalive := true
          steam_pipes := s.steam_pipes.assign h Steam_Pipe.CLIENT } := by
        simp [Call.run, ConnectToGlobalUser_registered K s h hc]
      rw [e]
      refine ⟨hcount, ?_, by simp [Call.created]⟩
      intro k hk
      rcases StdMap.find_assign_ne_none _ _ _ _ hk with e1 | e1
      · subst e1
        exact hreg k (fun e2 => hc ((StdMap.count_eq_zero_iff _ _).2 e2))
      · exact hreg k e1
  | CreateLocalUser p =>
    refine ⟨hnext, ?_, ?_⟩
    · intro k hk
      rcases StdMap.find_assign_ne_none _ _ _ _ hk with e | e
      · exact ⟨n, by simp [creations], by rw [e]; exact hpipe⟩
      · rcases StdMap.find_assign_ne_none _ _ _ _ e with e1 | e1
        · exact ⟨n, by simp [creations], by rw [e1]; exact hpipe⟩
        · obtain ⟨i, hi, hki⟩ := hreg k e1
          exact ⟨i, by simp [creations]; omega, hki⟩
    · intro k hk
      simp only [Call.created, Option.some.injEq] at hk
      exact ⟨rfl, by rw [← hk]; exact hpipe⟩
  | ReleaseUser h u =>
    refine ⟨?_, ?_, by simp [Call.created]⟩
    · simp only [Call.run, Steam_Client.ReleaseUser]
      split_ifs <;> exact hcount
    · intro k hk
      simp only [Call.run, Steam_Client.ReleaseUser] at hk
      split_ifs at hk <;> exact hreg k hk
  | resolve r u h v =>
    obtain ⟨e1, e2⟩ := Resolver.call_pipes r s u h v
    refine ⟨?_, ?_, by simp [Call.created]⟩
    · simp only [Call.run]; rw [e2]; exact hcount
    · intro k hk
      simp only [Call.run] at hk
      rw [e1] at hk
      exact hreg k hk

theorem creations_cons (c : Call) (cs : List Call) :
    creations (c :: cs) = creations [c] + creations cs := by
  cases c <;> simp [creations] <;> omega

/-- A sequence of calls keeps the allocation invariant, and the handles it allocates are the
next ones in order. -/
theorem runCalls_allocation (K : UserHandles) :
    ∀ (cs : List Call) (s : Steam_Client) (n : Nat),
      s.steam_pipe_counter = (1 + n) % 2 ^ 32 →
      (∀ k, s.steam_pipes.find k ≠ none → ∃ i, i < n ∧ k = toHSteamPipe (1 + i)) →
      (runCalls K cs s).steam_pipe_counter = (1 + (n + creations cs)) % 2 ^ 32
      ∧ (∀ k, (runCalls K cs s).steam_pipes.find k ≠ none →
          ∃ i, i < n + creations cs ∧ k = toHSteamPipe (1 + i))
      ∧ (∀ k ∈ issued K cs s, ∃ i, i < n + creations cs ∧ k = toHSteamPipe (1 + i)) := by
  intro cs
  induction cs with
  | nil =>
    intro s n hcount hreg
    exact ⟨hcount, hreg, by simp [issued]⟩
  | cons c cs ih =>
    intro s n hcount hreg
    obtain ⟨h1, h2, h3⟩ := Call.run_allocation K c s n hcount hreg
    obtain ⟨g1, g2, g3⟩ := ih (c.run K s) (n + creations [c]) h1 h2
    have hsum : n + creations (c :: cs) = n + creations [c] + creations cs := by
      rw [creations_cons]; omega
    rw [hsum]
    refine ⟨g1, g2, ?_⟩
    intro k hk
    simp only [issued, List.mem_append, Option.mem_toList, Option.mem_def] at hk
    rcases hk with hk | hk
    · obtain ⟨e1, e2⟩ := h3 k hk
      exact ⟨n, by omega, e2⟩
    · exact g3 k hk

/-- Creating and at once releasing `n` pipes, from a counter at `c` with `2 ≤ c` and
`c + n ≤ 2^32 + 1`, advances the counter by `n` modulo 2^32 and leaves the entry of handle 1
alone. -/
theorem churn_run (K : UserHandles) :
    ∀ (n c : Nat) (s : Steam_Client), 2 ≤ c → c + n ≤ 2 ^ 32 + 1 →
      s.steam_pipe_counter = c % 2 ^ 32 →
      (runCalls K (churn (c % 2 ^ 32) n) s).steam_pipe_counter = (c + n) % 2 ^ 32
      ∧ (runCalls K (churn (c % 2 ^ 32) n) s).steam_pipes.find 1 = s.steam_pipes.find 1 := by
  intro n
  induction n with
  | zero =>
    intro c s _ _ hs
    exact ⟨hs, rfl⟩
  | succ n ih =>
    intro c s hc2 hcn hs
    have hne : toHSteamPipe (c % 2 ^ 32) ≠ 1 := by
      apply toHSteamPipe_ne_one
      omega
    have hstep : (c % 2 ^ 32 + 1) % 2 ^ 32 = (c + 1) % 2 ^ 32 := by omega
    have hrun : runCalls K (churn (c % 2 ^ 32) (n + 1)) s
        = runCalls K (churn ((c + 1) % 2 ^ 32) n)
            ((Call.BReleaseSteamPipe (toHSteamPipe (c % 2 ^ 32))).run K
              (Call.CreateSteamPipe.run K s)) := by
      simp only [churn, runCalls, hstep]
    have hs1 : (Call.CreateSteamPipe.run K s).steam_pipe_counter = (c + 1) % 2 ^ 32 := by
      show (s.steam_pipe_counter + 1) % 2 ^ 32 = _
      rw [hs, hstep]
    have hf1 : (Call.CreateSteamPipe.run K s).steam_pipes.find 1 = s.steam_pipes.find 1 := by
      show StdMap.find (StdMap.assign s.steam_pipes (toHSteamPipe s.steam_pipe_counter) _) 1 = _
      rw [hs]
      exact StdMap.find_assign_other _ _ _ _ (fun e => hne e.symm)
    have hs2 : ((Call.BReleaseSteamPipe (toHSteamPipe (c % 2 ^ 32))).run K
        (Call.CreateSteamPipe.run K s)).steam_pipe_counter = (c + 1) % 2 ^ 32 := by
      simp only [Call.run, Steam_Client.BReleaseSteamPipe]
      split_ifs <;> exact hs1
    have hf2 : ((Call.BReleaseSteamPipe (toHSteamPipe (c % 2 ^ 32))).run K
        (Call.CreateSteamPipe.run K s)).steam_pipes.find 1 = s.steam_pipes.find 1 := by
      simp only [Call.run, Steam_Client.BReleaseSteamPipe]
      split_ifs
      · show StdMap.find (StdMap.erase _ _) 1 = _
        rw [StdMap.find_erase_other _ _ _ (fun e => hne e.symm)]
        exact hf1
      · exact hf1
    obtain ⟨g1, g2⟩ := ih (c + 1) _ (by omega) (by omega) hs2
    rw [hrun]
    refine ⟨?_, ?_⟩
    · rw [g1]; congr 1; omega
    · rw [g2, hf2]

/-! ### Wrap-around of the counter -/

theorem afterChurn_spec (n : Nat) (hn : n ≤ 2 ^ 32 - 1) :
    (afterChurn n).steam_pipe_counter = (2 + n) % 2 ^ 32
    ∧ (afterChurn n).steam_pipes.find 1 = some Steam_Pipe.CLIENT := by
  have h := churn_run ⟨1, 1⟩ n 2
    ((Call.ConnectToGlobalUser 1).run ⟨1, 1⟩ (Call.CreateSteamPipe.run ⟨1, 1⟩ Steam_Client.new))
    (le_refl _) (by omega) (by decide)
  have e : (2 % 2 ^ 32) = 2 := by norm_num
  rw [e] at h
  obtain ⟨h1, h2⟩ := h
  unfold afterChurn
  refine ⟨h1, ?_⟩
  show (runCalls ⟨1, 1⟩ (churn 2 n) _).steam_pipes.find 1 = _
  rw [h2]
  decide

theorem afterChurn_issued (n : Nat) :
    (1 : HSteamPipe) ∈ issued ⟨1, 1⟩
      (Call.CreateSteamPipe :: Call.ConnectToGlobalUser 1 :: churn 2 n) Steam_Client.new := by
  unfold issued
  apply List.mem_append_left
  decide

theorem CreateSteamPipe_fst (s : Steam_Client) :
    s.CreateSteamPipe.1 = toHSteamPipe s.steam_pipe_counter := rfl

theorem CreateSteamPipe_counter (s : Steam_Client) :
    s.CreateSteamPipe.2.steam_pipe_counter = (s.steam_pipe_counter + 1) % 2 ^ 32 := rfl

theorem CreateSteamPipe_find (s : Steam_Client) :
    s.CreateSteamPipe.2.steam_pipes.find s.CreateSteamPipe.1 = some Steam_Pipe.NO_USER :=
  StdMap.find_assign_same _ _ _

/-! ## C6: the capability flags are never lowered -/

theorem Call.run_flag (K : UserHandles) (c : Call) (s : Steam_Client)
    (h : s.gameserver_has_ipv6_functions = true) :
    (c.run K s).gameserver_has_ipv6_functions = true := by
  cases c with
  | userLogIn => exact h
  | serverInit => exact h
  | serverShutdown => exact h
  | clientShutdown => exact h
  | CreateSteamPipe => exact h
  | BReleaseSteamPipe k =>
    simp only [Call.run, Steam_Client.BReleaseSteamPipe]
    split_ifs <;> exact h
  | ConnectToGlobalUser k =>
    by_cases hc : s.steam_pipes.count k = 0
    · simp [Call.run, Steam_Client.ConnectToGlobalUser, hc, h]
    · simp [Call.run, ConnectToGlobalUser_registered K s k hc, h]
  | CreateLocalUser p => exact h
  | ReleaseUser k u =>
    simp only [Call.run, Steam_Client.ReleaseUser]
    split_ifs <;> exact h
  | resolve r u k v =>
    simp only [Call.run]
    rcases Resolver.call_state r s u k v with e | e <;> rw [e]
    exact h

theorem steamclient_has_ipv6_functions_iff (g : Dll) :
    (steamclient_has_ipv6_functions g).1 = true ↔
      (g.steamclient_has_ipv6_functions_flag = true
        ∨ ∃ client, g.steamclient_instance = some client
            ∧ client.gameserver_has_ipv6_functions = true) := by
  unfold steamclient_has_ipv6_functions get_steam_client
  cases hi : g.steamclient_instance with
  | none => simp [Steam_Client.new]
  | some client => simp [or_comm]

theorem get_steam_client_flag (g : Dll) :
    (get_steam_client g).2.steamclient_has_ipv6_functions_flag
      = g.steamclient_has_ipv6_functions_flag := by
  unfold get_steam_client
  cases g.steamclient_instance <;> rfl

theorem get_steam_client_some (g : Dll) (client : Steam_Client)
    (hi : g.steamclient_instance = some client) : get_steam_client g = (client, g) := by
  unfold get_steam_client
  rw [hi]

theorem create_client_interface_flag (g : Dll) (ver : String)
    (h : g.steamclient_has_ipv6_functions_flag = true) :
    (create_client_interface g ver).2.steamclient_has_ipv6_functions_flag = true := by
  unfold create_client_interface
  by_cases hp : strstrAtStart ver "SteamClient" = true
  · simp only [hp, if_true]
    split_ifs
    · rfl
    · rw [get_steam_client_flag]; exact h
  · simp only [hp, if_false]
    exact h

theorem create_client_interface_instance (g : Dll) (ver : String) (client : Steam_Client)
    (hi : g.steamclient_instance = some client) :
    (create_client_interface g ver).2.steamclient_instance = some client := by
  unfold create_client_interface
  rw [get_steam_client_some g client hi]
  by_cases hp : strstrAtStart ver "SteamClient" = true
  · simp only [hp, if_true]
    split_ifs <;> exact hi
  · simp only [hp, if_false]
    exact hi

/-- One call on the live singleton keeps a raised capability flag raised. -/
theorem apiCall_run_raised (K : UserHandles) (a : ApiCall) (g : Dll)
    (h : g.steamclient_has_ipv6_functions_flag = true
        ∨ ∃ client, g.steamclient_instance = some client
            ∧ client.gameserver_has_ipv6_functions = true) :
    (a.run K g).steamclient_has_ipv6_functions_flag = true
      ∨ ∃ client, (a.run K g).steamclient_instance = some client
          ∧ client.gameserver_has_ipv6_functions = true := by
  rcases h with h | ⟨client, hi, hf⟩
  · left
    cases a with
    | method c =>
      show (get_steam_client g).2.steamclient_has_ipv6_functions_flag = true
      rw [get_steam_client_flag]; exact h
    | BShutdownIfAllPipesClosed =>
      show (get_steam_client g).2.steamclient_has_ipv6_functions_flag = true
      rw [get_steam_client_flag]; exact h
    | create_client_interface ver => exact create_client_interface_flag g ver h
    | steamclient_has_ipv6_functions =>
      show (get_steam_client g).2.steamclient_has_ipv6_functions_flag = true
      rw [get_steam_client_flag]; exact h
  · right
    cases a with
    | method c =>
      refine ⟨c.run K client, ?_, Call.run_flag K c client hf⟩
      simp only [ApiCall.run, get_steam_client_some g client hi]
    | BShutdownIfAllPipesClosed =>
      simp only [ApiCall.run, get_steam_client_some g client hi,
        Steam_Client.BShutdownIfAllPipesClosed]
      split_ifs <;> simp [hf]
    | create_client_interface ver =>
      exact ⟨client, create_client_interface_instance g ver client hi, hf⟩
    | steamclient_has_ipv6_functions =>
      refine ⟨client, ?_, hf⟩
      simp only [ApiCall.run, Gbe.steamclient_has_ipv6_functions,
        get_steam_client_some g client hi]
      exact hi

/-- C6. Once `steamclient_has_ipv6_functions()` returns true (the game-server flag of the
aggregate or the client flag has been raised), it returns true after every sequence of calls
on the live singleton: methods of the aggregate, `BShutdownIfAllPipesClosed`,
`create_client_interface` and the accessor itself.  `destroy_client`, which ends the
lifecycle, is not among the calls. -/
theorem C6_capability_flag_never_lowered (K : UserHandles) (calls : List ApiCall) (g : Dll)
    (hraised : (steamclient_has_ipv6_functions g).1 = true) :
    (steamclient_has_ipv6_functions (runApi K calls g)).1 = true := by
  induction calls generalizing g with
  | nil => exact hraised
  | cons a rest ih =>
    apply ih
    rw [steamclient_has_ipv6_functions_iff] at hraised ⊢
    exact apiCall_run_raised K a g hraised

/-- The flag raised by `GetISteamGameServer(1, 1, "SteamGameServer013")` on the first pipe
is still reported after releasing the pipe, shutting both roles down and resolving an old
game-server and an old client version. -/
theorem C6_capability_flag_never_lowered_witness :
    (steamclient_has_ipv6_functions
      (runApi ⟨1, 1⟩
        [ApiCall.method (Call.BReleaseSteamPipe 1), ApiCall.method Call.clientShutdown,
         ApiCall.method Call.serverShutdown, ApiCall.BShutdownIfAllPipesClosed,
         ApiCall.method Call.CreateSteamPipe,
         ApiCall.method (Call.resolve Resolver.GetISteamGameServer 1 2 "SteamGameServer004"),
         ApiCall.create_client_interface "SteamClient007"]
        (runApi ⟨1, 1⟩
          [ApiCall.method Call.CreateSteamPipe,
           ApiCall.method (Call.resolve Resolver.GetISteamGameServer 1 1 "SteamGameServer013")]
          {}))).1 = true :=
  C6_capability_flag_never_lowered ⟨1, 1⟩ _ _ (by decide)

/-- The two resolutions that raise a flag: `GetISteamGameServer` with version 013 on a
registered pipe, and `create_client_interface` with an unlisted client version. -/
theorem capability_flag_raised_by_resolution :
    (steamclient_has_ipv6_functions ({} : Dll)).1 = false
    ∧ (steamclient_has_ipv6_functions
        (runApi ⟨1, 1⟩
          [ApiCall.method Call.CreateSteamPipe,
           ApiCall.method (Call.resolve Resolver.GetISteamGameServer 1 1 "SteamGameServer013")]
          ({} : Dll))).1 = true
    ∧ (steamclient_has_ipv6_functions
        (runApi ⟨1, 1⟩ [ApiCall.create_client_interface "SteamClient021"]
          ({} : Dll))).1 = true := by
  decide

/-! ## C7: releasing a pipe -/

/-- C7. `BReleaseSteamPipe(h)` returns true exactly when `h` was registered before the call;
afterwards `h` is not registered, and every other handle has the entry (registration and
role) it had before. -/
theorem C7_release_pipe (s : Steam_Client) (hSteamPipe : HSteamPipe) :
    ((s.BReleaseSteamPipe hSteamPipe).1 = true ↔ s.steam_pipes.find hSteamPipe ≠ none)
    ∧ (s.BReleaseSteamPipe hSteamPipe).2.steam_pipes.find hSteamPipe = none
    ∧ ∀ k, k ≠ hSteamPipe →
        (s.BReleaseSteamPipe hSteamPipe).2.steam_pipes.find k = s.steam_pipes.find k := by
  unfold Steam_Client.BReleaseSteamPipe
  by_cases hc : s.steam_pipes.count hSteamPipe = 0
  · have hf := (StdMap.count_eq_zero_iff _ _).1 hc
    simp [hc, hf]
  · have hf : s.steam_pipes.find hSteamPipe ≠ none :=
      fun e => hc ((StdMap.count_eq_zero_iff _ _).2 e)
    have hpos := Nat.pos_of_ne_zero hc
    simp only [hc, ne_eq, not_false_eq_true, if_true, hpos, gt_iff_lt, decide_True, hf,
      true_iff, StdMap.find_erase_same, true_and]
    intro k hk
    exact StdMap.find_erase_other _ _ _ hk

/-! ## C8 and C9: fresh handles and the wrap-around of the counter -/

/-- C8, as stated, fails: after `CreateSteamPipe(); ConnectToGlobalUser(1)` and 2^32 - 1
further pipes, each released right after its creation, the next `CreateSteamPipe` returns
handle 1, which is registered (with role `CLIENT`) and was returned before, and its role
becomes `NO_USER`. -/
theorem C8_counterexample_handle_reissued_after_wrap :
    (afterChurn (2 ^ 32 - 1)).CreateSteamPipe.1 = 1
    ∧ (afterChurn (2 ^ 32 - 1)).steam_pipes.find 1 = some Steam_Pipe.CLIENT
    ∧ (1 : HSteamPipe) ∈ issued ⟨1, 1⟩
        (Call.CreateSteamPipe :: Call.ConnectToGlobalUser 1 :: churn 2 (2 ^ 32 - 1))
        Steam_Client.new
    ∧ (afterChurn (2 ^ 32 - 1)).CreateSteamPipe.2.steam_pipes.find 1
        = some Steam_Pipe.NO_USER := by
  obtain ⟨h1, h2⟩ := afterChurn_spec (2 ^ 32 - 1) (le_refl _)
  have e1 : (2 + (2 ^ 32 - 1)) % 2 ^ 32 = 1 := by norm_num
  rw [e1] at h1
  have hp : (afterChurn (2 ^ 32 - 1)).CreateSteamPipe.1 = 1 := by
    rw [CreateSteamPipe_fst, h1]
    decide
  refine ⟨hp, h2, afterChurn_issued _, ?_⟩
  have h3 := CreateSteamPipe_find (afterChurn (2 ^ 32 - 1))
  rw [hp] at h3
  exact h3

/-- C8, amended. In every state reached from a fresh aggregate by a sequence of calls
(creations, binds, releases, user releases, role flags, interface getters) with fewer than
2^32 pipe allocations, `CreateSteamPipe` returns a handle that was not registered before the
call and that no earlier allocation returned, registers it with role `NO_USER`, and leaves the
entry of every other handle as it was. -/
theorem C8_create_pipe_fresh_before_wrap (K : UserHandles) (cs : List Call)
    (hbound : creations cs < 2 ^ 32) :
    (runCalls K cs Steam_Client.new).steam_pipes.find
        (runCalls K cs Steam_Client.new).CreateSteamPipe.1 = none
    ∧ (runCalls K cs Steam_Client.new).CreateSteamPipe.1 ∉ issued K cs Steam_Client.new
    ∧ (runCalls K cs Steam_Client.new).CreateSteamPipe.2.steam_pipes.find
        (runCalls K cs Steam_Client.new).CreateSteamPipe.1 = some Steam_Pipe.NO_USER
    ∧ ∀ k, k ≠ (runCalls K cs Steam_Client.new).CreateSteamPipe.1 →
        (runCalls K cs Steam_Client.new).CreateSteamPipe.2.steam_pipes.find k
          = (runCalls K cs Steam_Client.new).steam_pipes.find k := by
  obtain ⟨h1, h2, h3⟩ := runCalls_allocation K cs Steam_Client.new 0 (by decide)
    (by intro k hk; exact absurd rfl hk)
  have hpipe : (runCalls K cs Steam_Client.new).CreateSteamPipe.1
      = toHSteamPipe (1 + creations cs) := by
    show toHSteamPipe (runCalls K cs Steam_Client.new).steam_pipe_counter = _
    rw [h1, toHSteamPipe_mod, Nat.zero_add]
  have hfresh : ∀ i, i < 0 + creations cs →
      toHSteamPipe (1 + creations cs) ≠ toHSteamPipe (1 + i) := by
    intro i hi e
    have := toHSteamPipe_inj _ _ e
    omega
  refine ⟨?_, ?_, ?_, ?_⟩
  · by_contra hne
    obtain ⟨i, hi, e⟩ := h2 _ hne
    exact hfresh i hi (hpipe ▸ e)
  · intro hmem
    obtain ⟨i, hi, e⟩ := h3 _ hmem
    exact hfresh i hi (hpipe ▸ e)
  · exact StdMap.find_assign_same _ _ _
  · intro k hk
    exact StdMap.find_assign_other _ _ _ _ hk

/-- After a creation, a client bind, a server bind and the release of pipe 1, the next
`CreateSteamPipe` returns handle 3: unregistered, never returned before, entered as
`NO_USER`, with the server pipe 2 untouched. -/
theorem C8_create_pipe_fresh_before_wrap_witness :
    (runCalls ⟨1, 1⟩ [Call.CreateSteamPipe, Call.ConnectToGlobalUser 1,
        Call.CreateLocalUser true, Call.BReleaseSteamPipe 1]
        Steam_Client.new).CreateSteamPipe.1 = 3
    ∧ (runCalls ⟨1, 1⟩ [Call.CreateSteamPipe, Call.ConnectToGlobalUser 1,
        Call.CreateLocalUser true, Call.BReleaseSteamPipe 1]
        Steam_Client.new).steam_pipes.find
          (runCalls ⟨1, 1⟩ [Call.CreateSteamPipe, Call.ConnectToGlobalUser 1,
            Call.CreateLocalUser true, Call.BReleaseSteamPipe 1]
            Steam_Client.new).CreateSteamPipe.1 = none
    ∧ (runCalls ⟨1, 1⟩ [Call.CreateSteamPipe, Call.ConnectToGlobalUser 1,
        Call.CreateLocalUser true, Call.BReleaseSteamPipe 1]
        Steam_Client.new).CreateSteamPipe.2.steam_pipes
          = [(2, Steam_Pipe.SERVER), (3, Steam_Pipe.NO_USER)] :=
  ⟨by decide,
   (C8_create_pipe_fresh_before_wrap ⟨1, 1⟩ [Call.CreateSteamPipe, Call.ConnectToGlobalUser 1,
      Call.CreateLocalUser true, Call.BReleaseSteamPipe 1] (by decide)).1,
   by decide⟩

/-- C9, as stated, fails: with handle 1 bound as `CLIENT` and the counter at its largest
value 2^32 - 1, `CreateSteamPipe` reports nothing: it hands out handle -1, registered as
`NO_USER` like any other, and the counter wraps to 0; the next two calls hand out 0 and then
1, the handle issued first, whose role `CLIENT` is overwritten with `NO_USER`. -/
theorem C9_counterexample_counter_wraps_silently :
    (afterChurn (2 ^ 32 - 3)).steam_pipe_counter = 2 ^ 32 - 1
    ∧ (afterChurn (2 ^ 32 - 3)).steam_pipes.find 1 = some Steam_Pipe.CLIENT
    ∧ (afterChurn (2 ^ 32 - 3)).CreateSteamPipe.1 = -1
    ∧ (afterChurn (2 ^ 32 - 3)).CreateSteamPipe.2.steam_pipes.find (-1)
        = some Steam_Pipe.NO_USER
    ∧ (afterChurn (2 ^ 32 - 3)).CreateSteamPipe.2.steam_pipe_counter = 0
    ∧ (afterChurn (2 ^ 32 - 3)).CreateSteamPipe.2.CreateSteamPipe.1 = 0
    ∧ (afterChurn (2 ^ 32 - 3)).CreateSteamPipe.2.CreateSteamPipe.2.CreateSteamPipe.1 = 1
    ∧ (afterChurn (2 ^ 32 - 3)).CreateSteamPipe.2.CreateSteamPipe.2.CreateSteamPipe.2.steam_pipes.find
        1 = some Steam_Pipe.NO_USER := by
  obtain ⟨h1, h2⟩ := afterChurn_spec (2 ^ 32 - 3) (by norm_num)
  have e1 : (2 + (2 ^ 32 - 3)) % 2 ^ 32 = 2 ^ 32 - 1 := by norm_num
  rw [e1] at h1
  have hp1 : (afterChurn (2 ^ 32 - 3)).CreateSteamPipe.1 = -1 := by
    rw [CreateSteamPipe_fst, h1]
    decide
  have hc1 : (afterChurn (2 ^ 32 - 3)).CreateSteamPipe.2.steam_pipe_counter = 0 := by
    rw [CreateSteamPipe_counter, h1]
    norm_num
  have hp2 : (afterChurn (2 ^ 32 - 3)).CreateSteamPipe.2.CreateSteamPipe.1 = 0 := by
    rw [CreateSteamPipe_fst, hc1]
    decide
  have hc2 : (afterChurn (2 ^ 32 - 3)).CreateSteamPipe.2.CreateSteamPipe.2.steam_pipe_counter
      = 1 := by
    rw [CreateSteamPipe_counter, hc1]
    norm_num
  have hp3 : (afterChurn (2 ^ 32 - 3)).CreateSteamPipe.2.CreateSteamPipe.2.CreateSteamPipe.1
      = 1 := by
    rw [CreateSteamPipe_fst, hc2]
    decide
  have f1 := CreateSteamPipe_find (afterChurn (2 ^ 32 - 3))
  rw [hp1] at f1
  have f3 := CreateSteamPipe_find (afterChurn (2 ^ 32 - 3)).CreateSteamPipe.2.CreateSteamPipe.2
  rw [hp3] at f3
  exact ⟨h1, h2, hp1, f1, hc1, hp2, hp3, f3⟩

/-- C9, amended. `CreateSteamPipe` has no exhaustion report: at every counter value, the
largest included, it returns the low 32 bits of the counter as the handle, registers that
handle with role `NO_USER`, leaves every other entry as it was, and advances the counter
modulo 2^32. -/
theorem C9_create_pipe_never_reports_exhaustion (s : Steam_Client) :
    s.CreateSteamPipe.1 = toHSteamPipe s.steam_pipe_counter
    ∧ s.CreateSteamPipe.2.steam_pipes.find s.CreateSteamPipe.1 = some Steam_Pipe.NO_USER
    ∧ s.CreateSteamPipe.2.steam_pipe_counter = (s.steam_pipe_counter + 1) % 2 ^ 32
    ∧ (∀ k, k ≠ s.CreateSteamPipe.1 →
        s.CreateSteamPipe.2.steam_pipes.find k = s.steam_pipes.find k) :=
  ⟨rfl, StdMap.find_assign_same _ _ _, rfl, fun _ hk => StdMap.find_assign_other _ _ _ _ hk⟩

/-! ## C10: binding the client role -/

/-- C10. For every registered pipe handle `h`, `ConnectToGlobalUser(h)` returns
`CLIENT_HSTEAMUSER`, sets the role of `h` to `CLIENT`, sets `user_logged_in`, and leaves the
entry of every other pipe as it was. -/
theorem C10_connect_global_user_binds_client (K : UserHandles) (s : Steam_Client)
    (hSteamPipe : HSteamPipe) (hreg : s.steam_pipes.find hSteamPipe ≠ none) :
    (s.ConnectToGlobalUser K hSteamPipe).1 = K.CLIENT_HSTEAMUSER
    ∧ (s.ConnectToGlobalUser K hSteamPipe).2.steam_pipes.find hSteamPipe
        = some Steam_Pipe.CLIENT
    ∧ (s.ConnectToGlobalUser K hSteamPipe).2.user_logged_in = true
    ∧ ∀ k, k ≠ hSteamPipe →
        (s.ConnectToGlobalUser K hSteamPipe).2.steam_pipes.find k = s.steam_pipes.find k := by
  have hc : s.steam_pipes.count hSteamPipe ≠ 0 :=
    fun e => hreg ((StdMap.count_eq_zero_iff _ _).1 e)
  rw [ConnectToGlobalUser_registered K s hSteamPipe hc]
  refine ⟨rfl, StdMap.find_assign_same _ _ _, rfl, ?_⟩
  intro k hk
  exact StdMap.find_assign_other _ _ _ _ hk

/-- Binding pipe 2 of an aggregate with pipes 1 and 2, with client user handle 5. -/
theorem C10_connect_global_user_binds_client_witness :
    (Steam_Client.new.CreateSteamPipe.2.CreateSteamPipe.2.ConnectToGlobalUser ⟨5, 9⟩ 2).1 = 5
    ∧ (Steam_Client.new.CreateSteamPipe.2.CreateSteamPipe.2.ConnectToGlobalUser
        ⟨5, 9⟩ 2).2.steam_pipes = [(1, Steam_Pipe.NO_USER), (2, Steam_Pipe.CLIENT)]
    ∧ (Steam_Client.new.CreateSteamPipe.2.CreateSteamPipe.2.ConnectToGlobalUser
        ⟨5, 9⟩ 2).2.user_logged_in = true :=
  ⟨(C10_connect_global_user_binds_client ⟨5, 9⟩
      Steam_Client.new.CreateSteamPipe.2.CreateSteamPipe.2 2 (by decide)).1,
   by decide, by decide⟩

/-! ## C11: binding on an unregistered pipe -/

/-- C11. For every pipe handle that is not registered, `ConnectToGlobalUser` returns 0 and
the aggregate is unchanged: no entry of the pipe table is created or changed,
`user_logged_in` is not set and no keepalive thread is started. -/
theorem C11_connect_unregistered_pipe_is_noop (K : UserHandles) (s : Steam_Client)
    (hSteamPipe : HSteamPipe) (hunreg : s.steam_pipes.find hSteamPipe = none) :
    s.ConnectToGlobalUser K hSteamPipe = (0, s) := by
  have hc : s.steam_pipes.count hSteamPipe = 0 := (StdMap.count_eq_zero_iff _ _).2 hunreg
  simp [Steam_Client.ConnectToGlobalUser, hc]

/-- Handle 7 on a fresh aggregate with the single pipe 1. -/
theorem C11_connect_unregistered_pipe_is_noop_witness :
    Steam_Client.new.CreateSteamPipe.2.ConnectToGlobalUser ⟨5, 9⟩ 7
      = (0, Steam_Client.new.CreateSteamPipe.2) :=
  C11_connect_unregistered_pipe_is_noop ⟨5, 9⟩ Steam_Client.new.CreateSteamPipe.2 7 (by decide)

/-! ## C12: binding the server role -/

theorem CreateLocalUser_spec (K : UserHandles) (s : Steam_Client) (phSteamPipe : Bool) :
    (s.CreateLocalUser K phSteamPipe).1 = K.SERVER_HSTEAMUSER
    ∧ (s.CreateLocalUser K phSteamPipe).2.1
        = (if phSteamPipe then some (toHSteamPipe s.steam_pipe_counter) else none)
    ∧ (s.CreateLocalUser K phSteamPipe).2.2.steam_pipes.find (toHSteamPipe s.steam_pipe_counter)
        = some Steam_Pipe.SERVER
    ∧ (s.CreateLocalUser K phSteamPipe).2.2.server_init = true
    ∧ (s.CreateLocalUser K phSteamPipe).2.2.steamclient_server_inited = true
    ∧ ∀ k, k ≠ toHSteamPipe s.steam_pipe_counter →
        (s.CreateLocalUser K phSteamPipe).2.2.steam_pipes.find k = s.steam_pipes.find k := by
  refine ⟨rfl, rfl, StdMap.find_assign_same _ _ _, rfl, rfl, ?_⟩
  intro k hk
  have hk1 : k ≠ toHSteamPipe s.serverInit.steam_pipe_counter := hk
  show StdMap.find (StdMap.assign (StdMap.assign _ _ _) _ _) k = _
  rw [StdMap.find_assign_other _ _ _ _ hk1]
  exact StdMap.find_assign_other _ _ _ _ hk1

/-- C12, as stated, fails: after `CreateSteamPipe(); ConnectToGlobalUser(1)` and 2^32 - 1
further pipes, each released right after its creation, `CreateLocalUser` allocates handle 1,
which was registered with role `CLIENT`, and rebinds it to `SERVER`. -/
theorem C12_counterexample_local_user_takes_bound_pipe :
    (afterChurn (2 ^ 32 - 1)).steam_pipes.find 1 = some Steam_Pipe.CLIENT
    ∧ ((afterChurn (2 ^ 32 - 1)).CreateLocalUser ⟨1, 1⟩ true).2.1 = some 1
    ∧ ((afterChurn (2 ^ 32 - 1)).CreateLocalUser ⟨1, 1⟩ true).2.2.steam_pipes.find 1
        = some Steam_Pipe.SERVER := by
  obtain ⟨h1, h2⟩ := afterChurn_spec (2 ^ 32 - 1) (le_refl _)
  have e1 : (2 + (2 ^ 32 - 1)) % 2 ^ 32 = 1 := by norm_num
  rw [e1] at h1
  have hp : toHSteamPipe (afterChurn (2 ^ 32 - 1)).steam_pipe_counter = 1 := by
    rw [h1]
    decide
  obtain ⟨_, g2, g3, _⟩ := CreateLocalUser_spec ⟨1, 1⟩ (afterChurn (2 ^ 32 - 1)) true
  rw [hp] at g2 g3
  exact ⟨h2, g2, g3⟩

/-- C12, amended. In every state reached from a fresh aggregate by a sequence of calls with
fewer than 2^32 pipe allocations, `CreateLocalUser` allocates a handle that was not
registered before, registers it with role `SERVER`, writes it to the out-parameter when one
is supplied (nothing is written to a null one), sets `server_init` and
`steamclient_server_inited`, returns `SERVER_HSTEAMUSER`, and leaves the entry of every other
handle as it was. -/
theorem C12_create_local_user_before_wrap (K : UserHandles) (cs : List Call)
    (phSteamPipe : Bool) (hbound : creations cs < 2 ^ 32) :
    (runCalls K cs Steam_Client.new).steam_pipes.find
        (toHSteamPipe (runCalls K cs Steam_Client.new).steam_pipe_counter) = none
    ∧ ((runCalls K cs Steam_Client.new).CreateLocalUser K phSteamPipe).2.2.steam_pipes.find
        (toHSteamPipe (runCalls K cs Steam_Client.new).steam_pipe_counter)
        = some Steam_Pipe.SERVER
    ∧ ((runCalls K cs Steam_Client.new).CreateLocalUser K phSteamPipe).2.1
        = (if phSteamPipe then
            some (toHSteamPipe (runCalls K cs Steam_Client.new).steam_pipe_counter)
          else none)
    ∧ ((runCalls K cs Steam_Client.new).CreateLocalUser K phSteamPipe).2.2.server_init = true
    ∧ ((runCalls K cs Steam_Client.new).CreateLocalUser K
        phSteamPipe).2.2.steamclient_server_inited = true
    ∧ ((runCalls K cs Steam_Client.new).CreateLocalUser K phSteamPipe).1 = K.SERVER_HSTEAMUSER
    ∧ ∀ k, k ≠ toHSteamPipe (runCalls K cs Steam_Client.new).steam_pipe_counter →
        ((runCalls K cs Steam_Client.new).CreateLocalUser K phSteamPipe).2.2.steam_pipes.find k
          = (runCalls K cs Steam_Client.new).steam_pipes.find k := by
  obtain ⟨h1, h2, _⟩ := runCalls_allocation K cs Steam_Client.new 0 (by decide)
    (by intro k hk; exact absurd rfl hk)
  obtain ⟨g1, g2, g3, g4, g5, g6⟩ :=
    CreateLocalUser_spec K (runCalls K cs Steam_Client.new) phSteamPipe
  refine ⟨?_, g3, g2, g4, g5, g1, g6⟩
  by_contra hne
  obtain ⟨i, hi, e⟩ := h2 _ hne
  rw [h1, toHSteamPipe_mod] at e
  have := toHSteamPipe_inj _ _ e
  omega

/-- After a creation and a client bind, `CreateLocalUser` with an out-parameter allocates
handle 2, binds it to `SERVER` and leaves the client pipe 1 alone. -/
theorem C12_create_local_user_before_wrap_witness :
    ((runCalls ⟨5, 9⟩ [Call.CreateSteamPipe, Call.ConnectToGlobalUser 1]
        Steam_Client.new).CreateLocalUser ⟨5, 9⟩ true).1 = 9
    ∧ ((runCalls ⟨5, 9⟩ [Call.CreateSteamPipe, Call.ConnectToGlobalUser 1]
        Steam_Client.new).CreateLocalUser ⟨5, 9⟩ true).2.1 = some 2
    ∧ ((runCalls ⟨5, 9⟩ [Call.CreateSteamPipe, Call.ConnectToGlobalUser 1]
        Steam_Client.new).CreateLocalUser ⟨5, 9⟩ true).2.2.steam_pipes
        = [(1, Steam_Pipe.CLIENT), (2, Steam_Pipe.SERVER)]
    ∧ (runCalls ⟨5, 9⟩ [Call.CreateSteamPipe, Call.ConnectToGlobalUser 1]
        Steam_Client.new).steam_pipes.find
        (toHSteamPipe (runCalls ⟨5, 9⟩ [Call.CreateSteamPipe, Call.ConnectToGlobalUser 1]
          Steam_Client.new).steam_pipe_counter) = none :=
  ⟨by decide, by decide, by decide,
   (C12_create_local_user_before_wrap ⟨5, 9⟩ [Call.CreateSteamPipe, Call.ConnectToGlobalUser 1]
      true (by decide)).1⟩

/-! ## C13: the user-handle accessors -/

theorem BReleaseSteamPipe_flags (s : Steam_Client) (h : HSteamPipe) :
    (s.BReleaseSteamPipe h).2.user_logged_in = s.user_logged_in
    ∧ (s.BReleaseSteamPipe h).2.server_init = s.server_init := by
  unfold Steam_Client.BReleaseSteamPipe
  split_ifs <;> exact ⟨rfl, rfl⟩

theorem BShutdownIfAllPipesClosed_flags (s : Steam_Client) (kill : Bool) :
    (s.BShutdownIfAllPipesClosed kill).2.1.user_logged_in = s.user_logged_in
    ∧ (s.BShutdownIfAllPipesClosed kill).2.1.server_init = s.server_init := by
  unfold Steam_Client.BShutdownIfAllPipesClosed
  by_cases hp : s.steam_pipes.size ≠ 0
  · rw [if_pos hp]
    exact ⟨rfl, rfl⟩
  · rw [if_neg hp]
    cases hb : s.background_keepalive
    · exact ⟨rfl, rfl⟩
    · exact ⟨rfl, rfl⟩

/-- A property of the fresh aggregate that holds of the stored singleton, if there is one,
holds of the aggregate `get_steam_client` returns. -/
theorem get_steam_client_of_instance (g : Dll) (p : Steam_Client → Prop)
    (hnew : p Steam_Client.new)
    (hsome : ∀ client, g.steamclient_instance = some client → p client) :
    p (get_steam_client g).1 := by
  unfold get_steam_client
  cases hi : g.steamclient_instance with
  | none => exact hnew
  | some client => exact hsome client hi

theorem SteamAPI_Shutdown_instance (g : Dll) (client : Steam_Client)
    (hi : (SteamAPI_Shutdown g).steamclient_instance = some client) :
    client.user_logged_in = false := by
  unfold SteamAPI_Shutdown at hi
  generalize get_steam_client g = p at hi
  obtain ⟨c, g1⟩ := p
  dsimp only at hi
  split_ifs at hi
  · exact absurd hi (by unfold destroy_client; exact Option.noConfusion)
  · have h2 := Option.some.inj hi
    rw [← h2, (BShutdownIfAllPipesClosed_flags _ _).1, (BReleaseSteamPipe_flags _ _).1]
    rfl

theorem SteamGameServer_Shutdown_instance (g : Dll) (client : Steam_Client)
    (hi : (SteamGameServer_Shutdown g).steamclient_instance = some client) :
    client.server_init = false := by
  unfold SteamGameServer_Shutdown at hi
  generalize get_steam_client g = p at hi
  obtain ⟨c, g1⟩ := p
  dsimp only at hi
  split_ifs at hi
  · exact absurd hi (by unfold destroy_client; exact Option.noConfusion)
  · have h2 := Option.some.inj hi
    rw [← h2, (BShutdownIfAllPipesClosed_flags _ _).2, (BReleaseSteamPipe_flags _ _).2]
    rfl

/-- C13. `SteamAPI_GetHSteamUser` returns `CLIENT_HSTEAMUSER` when `user_logged_in` is set in
the singleton and 0 otherwise; `SteamGameServer_GetHSteamUser` returns `SERVER_HSTEAMUSER`
when `server_init` is set and 0 otherwise; after `SteamAPI_Shutdown` the client accessor
returns 0 and after `SteamGameServer_Shutdown` the server accessor returns 0, from every
state. -/
theorem C13_user_handle_accessors (K : UserHandles) (g : Dll) :
    (SteamAPI_GetHSteamUser K g).1
        = (if (get_steam_client g).1.user_logged_in = true then K.CLIENT_HSTEAMUSER else 0)
    ∧ (SteamGameServer_GetHSteamUser K g).1
        = (if (get_steam_client g).1.server_init = true then K.SERVER_HSTEAMUSER else 0)
    ∧ (SteamAPI_GetHSteamUser K (SteamAPI_Shutdown g)).1 = 0
    ∧ (SteamGameServer_GetHSteamUser K (SteamGameServer_Shutdown g)).1 = 0 := by
  have hc : ∀ g0 : Dll, (SteamAPI_GetHSteamUser K g0).1
      = (if (get_steam_client g0).1.user_logged_in = true then K.CLIENT_HSTEAMUSER else 0) := by
    intro g0
    unfold SteamAPI_GetHSteamUser
    generalize get_steam_client g0 = p
    obtain ⟨c, g1⟩ := p
    cases h : c.user_logged_in <;> simp [h]
  have hs : ∀ g0 : Dll, (SteamGameServer_GetHSteamUser K g0).1
      = (if (get_steam_client g0).1.server_init = true then K.SERVER_HSTEAMUSER else 0) := by
    intro g0
    unfold SteamGameServer_GetHSteamUser
    generalize get_steam_client g0 = p
    obtain ⟨c, g1⟩ := p
    cases h : c.server_init <;> simp [h]
  refine ⟨hc g, hs g, ?_, ?_⟩
  · rw [hc, get_steam_client_of_instance _ (fun c => c.user_logged_in = false) rfl
      (SteamAPI_Shutdown_instance g)]
    rfl
  · rw [hs, get_steam_client_of_instance _ (fun c => c.server_init = false) rfl
      (SteamGameServer_Shutdown_instance g)]
    rfl

theorem user_handle_accessors_examples :
    (SteamAPI_GetHSteamUser ⟨5, 9⟩ (SteamAPI_Init ⟨5, 9⟩ {}).2).1 = 5
    ∧ (SteamAPI_GetHSteamUser ⟨5, 9⟩ (SteamAPI_Shutdown (SteamAPI_Init ⟨5, 9⟩ {}).2)).1 = 0
    ∧ (SteamGameServer_GetHSteamUser ⟨5, 9⟩
        ((ApiCall.method (Call.CreateLocalUser true)).run ⟨5, 9⟩ {})).1 = 9
    ∧ (SteamGameServer_GetHSteamUser ⟨5, 9⟩ (SteamGameServer_Shutdown
        ((ApiCall.method (Call.CreateLocalUser true)).run ⟨5, 9⟩ {}))).1 = 0
    ∧ (SteamAPI_GetHSteamUser ⟨5, 9⟩ {}).1 = 0 := by
  decide

/-! ## C14: the order of a dispatch cycle -/

/-- C14. For every choice of the two flags, the calls of one `RunCallbacks`, apart from the
call of `steam_matchmaking_servers->RunCallbacks()` that follows the transport drain, are
those of the specified order: transport drain, periodic actions, the game-server subsystem's
callbacks, client call-result delivery exactly when `runClientCB`, server call-result
delivery exactly when `runGameserverCB`, and last the fired callbacks of the server and the
client registry; the transport drain is the first call of all. -/
theorem C14_run_callbacks_order (s : Steam_Client) (now_ms : Nat)
    (runClientCB runGameserverCB : Bool) :
    (s.RunCallbacks now_ms runClientCB runGameserverCB).1.filter
        (fun step => decide (step ≠ Step.steam_matchmaking_servers_RunCallbacks))
      = dispatchOrder runClientCB runGameserverCB
    ∧ (s.RunCallbacks now_ms runClientCB runGameserverCB).1.head? = some Step.network_Run
    ∧ (Step.callback_results_client_runCallResults
          ∈ (s.RunCallbacks now_ms runClientCB runGameserverCB).1 ↔ runClientCB = true)
    ∧ (Step.callback_results_server_runCallResults
          ∈ (s.RunCallbacks now_ms runClientCB runGameserverCB).1 ↔ runGameserverCB = true)
    ∧ (s.RunCallbacks now_ms runClientCB runGameserverCB).1.Nodup
    ∧ (s.RunCallbacks now_ms runClientCB runGameserverCB).1.getLast?
        = some Step.callbacks_client_runCallBacks := by
  cases runClientCB <;> cases runGameserverCB <;>
    simp only [Steam_Client.RunCallbacks] <;> decide

/-! ## C15 and C16: the keepalive tick -/

/-- C15, as stated, fails: when the tick at time 200 on a fresh aggregate forces a dispatch,
its calls are the transport drain and the periodic actions only, which is the sequence of
calls of `RunCallbacks` for no choice of the two flags. -/
theorem C15_counterexample_forced_dispatch_is_no_cycle :
    (background_thread_tick Steam_Client.new 200).1
        = [Step.network_Run, Step.run_every_runcb_run]
    ∧ (background_thread_tick Steam_Client.new 200).1
        ≠ (Steam_Client.new.RunCallbacks 200 false false).1
    ∧ (background_thread_tick Steam_Client.new 200).1
        ≠ (Steam_Client.new.RunCallbacks 200 false true).1
    ∧ (background_thread_tick Steam_Client.new 200).1
        ≠ (Steam_Client.new.RunCallbacks 200 true false).1
    ∧ (background_thread_tick Steam_Client.new 200).1
        ≠ (Steam_Client.new.RunCallbacks 200 true true).1
    ∧ Step.steam_gameserver_RunCallbacks ∉ (background_thread_tick Steam_Client.new 200).1
    ∧ Step.callbacks_client_runCallBacks ∉ (background_thread_tick Steam_Client.new 200).1 := by
  decide

/-- C15, amended. When the keepalive tick forces a dispatch, its work is the transport drain
followed by the periodic actions and nothing else; these are calls of every `RunCallbacks`,
in the same order. -/
theorem C15_forced_dispatch_is_drain_then_periodic (client : Steam_Client) (now_ms : Nat)
    (runClientCB runGameserverCB : Bool)
    (hforced : (background_thread_tick client now_ms).1 ≠ []) :
    (background_thread_tick client now_ms).1 = [Step.network_Run, Step.run_every_runcb_run]
    ∧ List.Sublist (background_thread_tick client now_ms).1
        (client.RunCallbacks now_ms runClientCB runGameserverCB).1 := by
  unfold background_thread_tick at hforced ⊢
  split_ifs at hforced ⊢
  · refine ⟨rfl, ?_⟩
    cases runClientCB <;> cases runGameserverCB <;>
      simp only [Steam_Client.RunCallbacks] <;> decide
  · exact absurd rfl hforced

/-- The tick at time 200 on a fresh aggregate. -/
theorem C15_forced_dispatch_is_drain_then_periodic_witness :
    (background_thread_tick Steam_Client.new 200).1
        = [Step.network_Run, Step.run_every_runcb_run]
    ∧ List.Sublist (background_thread_tick Steam_Client.new 200).1
        (Steam_Client.new.RunCallbacks 200 true false).1 :=
  C15_forced_dispatch_is_drain_then_periodic Steam_Client.new 200 true false (by decide)

/-- C16, as stated, fails: with no dispatch in progress and exactly 200 ms elapsed since
`last_cb_run`, which does not exceed the stall bound, the tick forces a dispatch and moves
`last_cb_run`. -/
theorem C16_counterexample_tick_at_exactly_the_bound :
    Steam_Client.new.cb_run_active = false
    ∧ 200 - Steam_Client.new.last_cb_run = max_stall_ms
    ∧ (background_thread_tick Steam_Client.new 200).1
        = [Step.network_Run, Step.run_every_runcb_run]
    ∧ (background_thread_tick Steam_Client.new 200).2.last_cb_run = 200 := by
  decide

/-- C16, amended. For every keepalive tick at time `now_ms`, with `last_cb_run` at least
200 ms below the end of the 64-bit clock range: if no dispatch is in progress and the time is
at least `last_cb_run` plus the stall bound of 200 ms, the tick forces exactly one dispatch
(one transport drain, one run of the periodic actions), sets `last_cb_run` to the time and
changes nothing else; if a dispatch is in progress or the time is below `last_cb_run` plus
200 ms, it forces no dispatch and changes nothing. -/
theorem C16_tick_forces_dispatch_iff_stalled (client : Steam_Client) (now_ms : Nat)
    (hclock : client.last_cb_run + 200 < 2 ^ 64) :
    (client.cb_run_active = false ∧ client.last_cb_run + 200 ≤ now_ms →
      background_thread_tick client now_ms
        = ([Step.network_Run, Step.run_every_runcb_run], { client with last_cb_run := now_ms }))
    ∧ (client.cb_run_active = true ∨ now_ms < client.last_cb_run + 200 →
      background_thread_tick client now_ms = ([], client)) := by
  unfold background_thread_tick max_stall_ms
  rw [Nat.mod_eq_of_lt hclock]
  constructor
  · rintro ⟨h1, h2⟩
    simp [h1, h2]
  · rintro (h1 | h2)
    · simp [h1]
    · have : ¬ (client.last_cb_run + 200 ≤ now_ms) := by omega
      simp [this]

/-- The ticks at times 200 and 199 on a fresh aggregate, whose `last_cb_run` is 0. -/
theorem C16_tick_forces_dispatch_iff_stalled_witness :
    background_thread_tick Steam_Client.new 200
        = ([Step.network_Run, Step.run_every_runcb_run],
            { Steam_Client.new with last_cb_run := 200 })
    ∧ background_thread_tick Steam_Client.new 199 = ([], Steam_Client.new) :=
  ⟨(C16_tick_forces_dispatch_iff_stalled Steam_Client.new 200 (by decide)).1
      ⟨rfl, by decide⟩,
   (C16_tick_forces_dispatch_iff_stalled Steam_Client.new 199 (by decide)).2
      (Or.inr (by decide))⟩

/-! ## C17: manual dispatch delivers in push order -/


theorem get_steam_client_registered (g : Dll) :
    (get_steam_client g).2.steamclient_instance = some (get_steam_client g).1 := by
  unfold get_steam_client
  cases hi : g.steamclient_instance with
  | none => rfl
  | some client => exact hi

theorem get_steam_client_idem (g : Dll) :
    get_steam_client (get_steam_client g).2 = get_steam_client g := by
  have h := get_steam_client_some _ _ (get_steam_client_registered g)
  rw [h]

theorem nextCallbackFrom_cons (front : cb_data) (q : List cb_data) (u : HSteamUser) :
    nextCallbackFrom (front :: q) u true
      = (true, some { m_hSteamUser := u, m_iCallback := front.cb_id, m_pubParam := front.result,
                      m_cubParam := front.result.length }) := rfl

/-- With the pipe bound to a role whose queue has front `e`, a fetch with an output structure
returns true and the message of `e`, and leaves the pipe and the queue as they are. -/
theorem GetNextCallback_ready (K : UserHandles) (role : Steam_Pipe) (hrole : role ≠ Steam_Pipe.NO_USER)
    (hSteamPipe : HSteamPipe) (e : cb_data) (q : List cb_data) (g : Dll)
    (h : readyFor role hSteamPipe (e :: q) g) :
    (SteamAPI_ManualDispatch_GetNextCallback K g hSteamPipe true).1 = true
    ∧ (SteamAPI_ManualDispatch_GetNextCallback K g hSteamPipe true).2.1
        = some (messageOf K role e)
    ∧ readyFor role hSteamPipe (e :: q)
        (SteamAPI_ManualDispatch_GetNextCallback K g hSteamPipe true).2.2 := by
  obtain ⟨client, hi, hf, hin, hq⟩ := h
  unfold SteamAPI_ManualDispatch_GetNextCallback
  rw [get_steam_client_some g client hi]
  dsimp only
  rw [hf]
  cases role with
  | NO_USER => exact absurd rfl hrole
  | SERVER =>
    have hinit := hin rfl
    have hq2 : g.server_cb = e :: q := hq
    rw [hinit, if_neg (show ¬ (!true) = true by decide), hq2, nextCallbackFrom_cons]
    exact ⟨rfl, rfl, client, hi, hf, hin, hq⟩
  | CLIENT =>
    have hq2 : g.client_cb = e :: q := hq
    cases hinit : client.steamclient_server_inited
    · rw [if_pos (show (!false) = true from rfl)]
      dsimp only
      rw [hq2, nextCallbackFrom_cons]
      exact ⟨rfl, rfl, client, hi, hf, fun hc => absurd hc (by decide), rfl⟩
    · rw [if_neg (show ¬ (!true) = true by decide), hq2, nextCallbackFrom_cons]
      exact ⟨rfl, rfl, client, hi, hf, fun hc => absurd hc (by decide), hq⟩

/-- With the pipe bound to a role, the release of the last callback removes the front of the
role's queue, if there is one, and leaves the pipe as it is. -/
theorem FreeLastCallback_ready (role : Steam_Pipe) (hSteamPipe : HSteamPipe)
    (q : List cb_data) (g : Dll) (h : readyFor role hSteamPipe q g) :
    readyFor role hSteamPipe q.tail (SteamAPI_ManualDispatch_FreeLastCallback g hSteamPipe) := by
  obtain ⟨client, hi, hf, hin, hq⟩ := h
  unfold SteamAPI_ManualDispatch_FreeLastCallback
  rw [get_steam_client_some g client hi]
  dsimp only
  rw [hf]
  cases role with
  | NO_USER =>
    refine ⟨client, hi, hf, hin, ?_⟩
    have : q = [] := hq.symm
    rw [this]
    rfl
  | SERVER =>
    refine ⟨client, hi, hf, hin, ?_⟩
    have hq2 : g.server_cb = q := hq
    show popIfNotEmpty g.server_cb = q.tail
    rw [hq2]
    cases q <;> rfl
  | CLIENT =>
    refine ⟨client, hi, hf, hin, ?_⟩
    have hq2 : g.client_cb = q := hq
    show popIfNotEmpty g.client_cb = q.tail
    rw [hq2]
    cases q <;> rfl

theorem manualDispatchRounds_fifo (K : UserHandles) (role : Steam_Pipe)
    (hrole : role ≠ Steam_Pipe.NO_USER) (hSteamPipe : HSteamPipe) :
    ∀ (events : List cb_data) (betweens : List (Dll → Dll)) (rest : List cb_data) (g : Dll),
      betweens.length = events.length →
      (∀ f ∈ betweens, keepsRole role hSteamPipe f) →
      readyFor role hSteamPipe (events ++ rest) g →
      (manualDispatchRounds K hSteamPipe betweens g).1
          = events.map (fun e => (true, some (messageOf K role e)))
        ∧ ∃ pushed, readyFor role hSteamPipe (rest ++ pushed)
            (manualDispatchRounds K hSteamPipe betweens g).2 := by
  intro events
  induction events with
  | nil =>
    intro betweens rest g hlen _ hready
    have hb : betweens = [] := List.length_eq_zero.1 hlen
    subst hb
    exact ⟨rfl, [], by rw [List.append_nil]; exact hready⟩
  | cons e es ih =>
    intro betweens rest g hlen hkeep hready
    cases betweens with
    | nil => exact absurd hlen (by simp)
    | cons between bs =>
      obtain ⟨pushed, hb⟩ := hkeep between (List.mem_cons_self _ _) _ _ hready
      have hb2 : readyFor role hSteamPipe (e :: (es ++ (rest ++ pushed))) (between g) := by
        have he : e :: es ++ rest ++ pushed = e :: (es ++ (rest ++ pushed)) := by simp
        rw [he] at hb
        exact hb
      obtain ⟨h1, h2, h3⟩ := GetNextCallback_ready K role hrole hSteamPipe e _ _ hb2
      have h4 := FreeLastCallback_ready role hSteamPipe _ _ h3
      obtain ⟨i1, pushed2, i2⟩ := ih bs (rest ++ pushed) _ (Nat.succ.inj hlen)
        (fun f hf => hkeep f (List.mem_cons_of_mem _ hf)) h4
      refine ⟨?_, pushed ++ pushed2, ?_⟩
      · show (_, _) :: _ = _
        rw [h1, h2, i1]
        rfl
      · rw [← List.append_assoc]
        exact i2

theorem keepsRole_id (role : Steam_Pipe) (hSteamPipe : HSteamPipe) :
    keepsRole role hSteamPipe id :=
  fun q _ h => ⟨[], by rw [List.append_nil]; exact h⟩

theorem keepsRole_cb_add_queue_server (hSteamPipe : HSteamPipe) (result : List Nat)
    (callback : Int) :
    keepsRole Steam_Pipe.SERVER hSteamPipe (fun g => cb_add_queue_server g result callback) := by
  rintro q g ⟨client, hi, hf, hin, hq⟩
  refine ⟨[{ cb_id := callback, result := result }], client, hi, hf, hin, ?_⟩
  have hq2 : g.server_cb = q := hq
  show g.server_cb ++ _ = _
  rw [hq2]

theorem keepsRole_GetNextCallback (K : UserHandles) (role : Steam_Pipe)
    (hSteamPipe other : HSteamPipe) (pCallbackMsg : Bool) :
    keepsRole role hSteamPipe
      (fun g => (SteamAPI_ManualDispatch_GetNextCallback K g other pCallbackMsg).2.2) := by
  rintro q g ⟨client, hi, hf, hin, hq⟩
  have hstate : (SteamAPI_ManualDispatch_GetNextCallback K g other pCallbackMsg).2.2
      = (if !client.steamclient_server_inited then { g with server_cb := [] } else g) := by
    unfold SteamAPI_ManualDispatch_GetNextCallback
    rw [get_steam_client_some g client hi]
    dsimp only
    cases client.steam_pipes.find other with
    | none => rfl
    | some r => cases r <;> rfl
  refine ⟨[], ?_⟩
  rw [List.append_nil]
  show readyFor _ _ _ (SteamAPI_ManualDispatch_GetNextCallback K g other pCallbackMsg).2.2
  rw [hstate]
  cases hinit : client.steamclient_server_inited
  · refine ⟨client, hi, hf, hin, ?_⟩
    cases role with
    | NO_USER => exact hq
    | CLIENT => exact hq
    | SERVER => rw [hin rfl] at hinit; exact absurd hinit (by decide)
  · exact ⟨client, hi, hf, hin, hq⟩

/-- C17, as stated, fails. On the server pipe 1 with the events (42, [0xAA]) and (43, [0xBB])
pushed, a `ReleaseUser` of the server user between the two rounds leaves the pipe bound to the
server role, yet the second round delivers nothing and the second event is dropped; and a
`SteamAPI_ManualDispatch_FreeLastCallback` between the two rounds drops the second event as
well. -/
theorem C17_counterexample_calls_in_between_drop_events :
    (serverQueued ⟨5, 9⟩).server_cb = [⟨42, [0xAA]⟩, ⟨43, [0xBB]⟩]
    ∧ (get_steam_client (serverQueued ⟨5, 9⟩)).1.steam_pipes.find 1 = some Steam_Pipe.SERVER
    ∧ (get_steam_client ((ApiCall.method (Call.ReleaseUser 1 9)).run ⟨5, 9⟩
          (serverQueued ⟨5, 9⟩))).1.steam_pipes.find 1 = some Steam_Pipe.SERVER
    ∧ (manualDispatchRounds ⟨5, 9⟩ 1
          [id, (ApiCall.method (Call.ReleaseUser 1 9)).run ⟨5, 9⟩] (serverQueued ⟨5, 9⟩)).1
        = [(true, some ⟨9, 42, [0xAA], 1⟩), (false, none)]
    ∧ (manualDispatchRounds ⟨5, 9⟩ 1
          [id, (ApiCall.method (Call.ReleaseUser 1 9)).run ⟨5, 9⟩]
          (serverQueued ⟨5, 9⟩)).2.server_cb = []
    ∧ (manualDispatchRounds ⟨5, 9⟩ 1
          [id, fun g => SteamAPI_ManualDispatch_FreeLastCallback g 1] (serverQueued ⟨5, 9⟩)).1
        = [(true, some ⟨9, 42, [0xAA], 1⟩), (false, none)] := by
  decide

/-- C17, amended. Let the pipe be bound to a role, client or server, whose queue starts with
the events e1..en, and let each call made before a round keep the pipe bound to the role, keep
the server marked initialised when the role is the server, and remove nothing from the
role's queue (it may push further events). Then n rounds of
`SteamAPI_ManualDispatch_GetNextCallback` followed by
`SteamAPI_ManualDispatch_FreeLastCallback` on the pipe each return true and deliver exactly
e1..en in push order, with the role's user handle; the events behind them stay in the queue,
in order, followed by those pushed meanwhile. -/
theorem C17_manual_dispatch_fifo (K : UserHandles) (role : Steam_Pipe)
    (hSteamPipe : HSteamPipe) (events rest : List cb_data) (betweens : List (Dll → Dll))
    (g : Dll) (hrole : role ≠ Steam_Pipe.NO_USER)
    (hlen : betweens.length = events.length)
    (hkeep : ∀ f ∈ betweens, keepsRole role hSteamPipe f)
    (hready : readyFor role hSteamPipe (events ++ rest) g) :
    (manualDispatchRounds K hSteamPipe betweens g).1
        = events.map (fun e => (true, some (messageOf K role e)))
    ∧ ∃ pushed, readyFor role hSteamPipe (rest ++ pushed)
        (manualDispatchRounds K hSteamPipe betweens g).2 :=
  manualDispatchRounds_fifo K role hrole hSteamPipe events betweens rest g hlen hkeep hready

/-- Two rounds on the server pipe 1 of `serverQueued`, with a repeated fetch on the pipe before
the first round and the push of a third event before the second. -/
theorem C17_manual_dispatch_fifo_witness :
    (manualDispatchRounds ⟨5, 9⟩ 1
        [fun g => (SteamAPI_ManualDispatch_GetNextCallback ⟨5, 9⟩ g 1 true).2.2,
         fun g => cb_add_queue_server g [0xCC] 44] (serverQueued ⟨5, 9⟩)).1
        = [(⟨42, [0xAA]⟩ : cb_data), ⟨43, [0xBB]⟩].map
            (fun e => (true, some (messageOf ⟨5, 9⟩ Steam_Pipe.SERVER e)))
    ∧ ∃ pushed, readyFor Steam_Pipe.SERVER 1 ([] ++ pushed)
        (manualDispatchRounds ⟨5, 9⟩ 1
          [fun g => (SteamAPI_ManualDispatch_GetNextCallback ⟨5, 9⟩ g 1 true).2.2,
           fun g => cb_add_queue_server g [0xCC] 44] (serverQueued ⟨5, 9⟩)).2 :=
  C17_manual_dispatch_fifo ⟨5, 9⟩ Steam_Pipe.SERVER 1 [⟨42, [0xAA]⟩, ⟨43, [0xBB]⟩] []
    [fun g => (SteamAPI_ManualDispatch_GetNextCallback ⟨5, 9⟩ g 1 true).2.2,
     fun g => cb_add_queue_server g [0xCC] 44] (serverQueued ⟨5, 9⟩) (by decide) rfl
    (fun f hf => by
      rcases List.mem_cons.1 hf with h1 | h2
      · rw [h1]; exact keepsRole_GetNextCallback _ _ _ _ _
      · rw [List.mem_singleton.1 h2]; exact keepsRole_cb_add_queue_server _ _ _)
    ⟨(Steam_Client.new.CreateLocalUser ⟨5, 9⟩ true).2.2, rfl, by decide, fun _ => rfl, rfl⟩

/-! ## C18: a repeated fetch -/

theorem GetNextCallback_via_singleton (K : UserHandles) (g : Dll) (hSteamPipe : HSteamPipe)
    (pCallbackMsg : Bool) :
    SteamAPI_ManualDispatch_GetNextCallback K g hSteamPipe pCallbackMsg
      = SteamAPI_ManualDispatch_GetNextCallback K (get_steam_client g).2 hSteamPipe
          pCallbackMsg := by
  unfold SteamAPI_ManualDispatch_GetNextCallback
  rw [get_steam_client_idem]

theorem GetNextCallback_state (K : UserHandles) (g : Dll) (client : Steam_Client)
    (hi : g.steamclient_instance = some client) (hSteamPipe : HSteamPipe)
    (pCallbackMsg : Bool) :
    (SteamAPI_ManualDispatch_GetNextCallback K g hSteamPipe pCallbackMsg).2.2
      = (if !client.steamclient_server_inited then { g with server_cb := [] } else g) := by
  unfold SteamAPI_ManualDispatch_GetNextCallback
  rw [get_steam_client_some g client hi]
  dsimp only
  cases client.steam_pipes.find hSteamPipe with
  | none => rfl
  | some r => cases r <;> rfl

theorem GetNextCallback_settled (K : UserHandles) (g : Dll) (client : Steam_Client)
    (hi : g.steamclient_instance = some client) (hSteamPipe : HSteamPipe)
    (pCallbackMsg : Bool) :
    SteamAPI_ManualDispatch_GetNextCallback K
        (if !client.steamclient_server_inited then { g with server_cb := [] } else g)
        hSteamPipe pCallbackMsg
      = SteamAPI_ManualDispatch_GetNextCallback K g hSteamPipe pCallbackMsg := by
  cases hinit : client.steamclient_server_inited
  · have hi2 : ({ g with server_cb := [] } : Dll).steamclient_instance = some client := hi
    rw [if_pos (show (!false) = true from rfl)]
    unfold SteamAPI_ManualDispatch_GetNextCallback
    rw [get_steam_client_some g client hi, get_steam_client_some _ client hi2]
    dsimp only
    rw [hinit]
    rfl
  · rw [if_neg (show ¬ (!true) = true by decide)]

/-- C18. For every state, pipe handle and output argument, a second
`SteamAPI_ManualDispatch_GetNextCallback` made right after a first one, with no
`SteamAPI_ManualDispatch_FreeLastCallback` in between, returns the same boolean and the same
event as the first (kind id, payload, length, user handle) and leaves the whole state, both
queues included, as the first call left it. -/
theorem C18_repeated_fetch_returns_same_event (K : UserHandles) (g : Dll)
    (hSteamPipe : HSteamPipe) (pCallbackMsg : Bool) :
    SteamAPI_ManualDispatch_GetNextCallback K
        (SteamAPI_ManualDispatch_GetNextCallback K g hSteamPipe pCallbackMsg).2.2
        hSteamPipe pCallbackMsg
      = SteamAPI_ManualDispatch_GetNextCallback K g hSteamPipe pCallbackMsg := by
  rw [GetNextCallback_via_singleton K g,
    GetNextCallback_state K _ _ (get_steam_client_registered g),
    GetNextCallback_settled K _ _ (get_steam_client_registered g)]

/-- Scenario B on `serverQueued`: the fetch returns (42, [0xAA]) with the server user handle,
a second fetch before the release returns the same, and once both events are released the
next fetch, on the empty queue, fails. -/
theorem scenarioB_example :
    (SteamAPI_ManualDispatch_GetNextCallback ⟨5, 9⟩ (serverQueued ⟨5, 9⟩) 1 true).1 = true
    ∧ (SteamAPI_ManualDispatch_GetNextCallback ⟨5, 9⟩ (serverQueued ⟨5, 9⟩) 1 true).2.1
        = some ⟨9, 42, [0xAA], 1⟩
    ∧ (SteamAPI_ManualDispatch_GetNextCallback ⟨5, 9⟩
        (SteamAPI_ManualDispatch_GetNextCallback ⟨5, 9⟩ (serverQueued ⟨5, 9⟩) 1 true).2.2
        1 true).2.1 = some ⟨9, 42, [0xAA], 1⟩
    ∧ (SteamAPI_ManualDispatch_GetNextCallback ⟨5, 9⟩
        (SteamAPI_ManualDispatch_FreeLastCallback
          (SteamAPI_ManualDispatch_FreeLastCallback (serverQueued ⟨5, 9⟩) 1) 1) 1 true).1
        = false := by
  decide

/-! ## C19: the two queues are kept apart -/

theorem get_steam_client_with_server_cb (g : Dll) (q : List cb_data) :
    get_steam_client { g with server_cb := q }
      = ((get_steam_client g).1, { (get_steam_client g).2 with server_cb := q }) := by
  unfold get_steam_client
  cases hi : g.steamclient_instance <;> simp only [hi]

theorem get_steam_client_with_client_cb (g : Dll) (q : List cb_data) :
    get_steam_client { g with client_cb := q }
      = ((get_steam_client g).1, { (get_steam_client g).2 with client_cb := q }) := by
  unfold get_steam_client
  cases hi : g.steamclient_instance <;> simp only [hi]

theorem get_steam_client_queues (g : Dll) :
    (get_steam_client g).2.client_cb = g.client_cb
    ∧ (get_steam_client g).2.server_cb = g.server_cb := by
  unfold get_steam_client
  cases g.steamclient_instance <;> exact ⟨rfl, rfl⟩

theorem GetNextCallback_ignores_server_cb (K : UserHandles) (g : Dll)
    (hSteamPipe : HSteamPipe) (pCallbackMsg : Bool) (q : List cb_data)
    (hrole : (get_steam_client g).1.steam_pipes.find hSteamPipe ≠ some Steam_Pipe.SERVER) :
    (SteamAPI_ManualDispatch_GetNextCallback K { g with server_cb := q } hSteamPipe
        pCallbackMsg).1 = (SteamAPI_ManualDispatch_GetNextCallback K g hSteamPipe pCallbackMsg).1
    ∧ (SteamAPI_ManualDispatch_GetNextCallback K { g with server_cb := q } hSteamPipe
        pCallbackMsg).2.1
      = (SteamAPI_ManualDispatch_GetNextCallback K g hSteamPipe pCallbackMsg).2.1 := by
  unfold SteamAPI_ManualDispatch_GetNextCallback
  rw [get_steam_client_with_server_cb]
  generalize get_steam_client g = p at hrole ⊢
  obtain ⟨client, g1⟩ := p
  dsimp only at hrole ⊢
  cases hf : client.steam_pipes.find hSteamPipe with
  | none => exact ⟨rfl, rfl⟩
  | some r =>
    cases r with
    | NO_USER => exact ⟨rfl, rfl⟩
    | SERVER => exact absurd hf hrole
    | CLIENT => cases client.steamclient_server_inited <;> exact ⟨rfl, rfl⟩

theorem GetNextCallback_ignores_client_cb (K : UserHandles) (g : Dll)
    (hSteamPipe : HSteamPipe) (pCallbackMsg : Bool) (q : List cb_data)
    (hrole : (get_steam_client g).1.steam_pipes.find hSteamPipe ≠ some Steam_Pipe.CLIENT) :
    (SteamAPI_ManualDispatch_GetNextCallback K { g with client_cb := q } hSteamPipe
        pCallbackMsg).1 = (SteamAPI_ManualDispatch_GetNextCallback K g hSteamPipe pCallbackMsg).1
    ∧ (SteamAPI_ManualDispatch_GetNextCallback K { g with client_cb := q } hSteamPipe
        pCallbackMsg).2.1
      = (SteamAPI_ManualDispatch_GetNextCallback K g hSteamPipe pCallbackMsg).2.1 := by
  unfold SteamAPI_ManualDispatch_GetNextCallback
  rw [get_steam_client_with_client_cb]
  generalize get_steam_client g = p at hrole ⊢
  obtain ⟨client, g1⟩ := p
  dsimp only at hrole ⊢
  cases hf : client.steam_pipes.find hSteamPipe with
  | none => exact ⟨rfl, rfl⟩
  | some r =>
    cases r with
    | NO_USER => exact ⟨rfl, rfl⟩
    | CLIENT => exact absurd hf hrole
    | SERVER => cases client.steamclient_server_inited <;> exact ⟨rfl, rfl⟩

theorem FreeLastCallback_other_queue (g : Dll) (hSteamPipe : HSteamPipe) :
    ((get_steam_client g).1.steam_pipes.find hSteamPipe ≠ some Steam_Pipe.SERVER →
      (SteamAPI_ManualDispatch_FreeLastCallback g hSteamPipe).server_cb = g.server_cb)
    ∧ ((get_steam_client g).1.steam_pipes.find hSteamPipe ≠ some Steam_Pipe.CLIENT →
      (SteamAPI_ManualDispatch_FreeLastCallback g hSteamPipe).client_cb = g.client_cb) := by
  obtain ⟨hc, hs⟩ := get_steam_client_queues g
  rw [← hc, ← hs]
  unfold SteamAPI_ManualDispatch_FreeLastCallback
  generalize get_steam_client g = p
  obtain ⟨client, g1⟩ := p
  dsimp only
  cases hf : client.steam_pipes.find hSteamPipe with
  | none => exact ⟨fun _ => rfl, fun _ => rfl⟩
  | some r =>
    cases r with
    | NO_USER => exact ⟨fun _ => rfl, fun _ => rfl⟩
    | CLIENT => exact ⟨fun _ => rfl, fun h => absurd rfl h⟩
    | SERVER => exact ⟨fun h => absurd rfl h, fun _ => rfl⟩

theorem GetNextCallback_source (K : UserHandles) (g : Dll) (hSteamPipe : HSteamPipe)
    (pCallbackMsg : Bool) :
    ((get_steam_client g).1.steam_pipes.find hSteamPipe = some Steam_Pipe.CLIENT →
      ((SteamAPI_ManualDispatch_GetNextCallback K g hSteamPipe pCallbackMsg).1,
        (SteamAPI_ManualDispatch_GetNextCallback K g hSteamPipe pCallbackMsg).2.1)
        = nextCallbackFrom g.client_cb K.CLIENT_HSTEAMUSER pCallbackMsg)
    ∧ ((get_steam_client g).1.steam_pipes.find hSteamPipe ≠ some Steam_Pipe.CLIENT →
      (get_steam_client g).1.steam_pipes.find hSteamPipe ≠ some Steam_Pipe.SERVER →
      ((SteamAPI_ManualDispatch_GetNextCallback K g hSteamPipe pCallbackMsg).1,
        (SteamAPI_ManualDispatch_GetNextCallback K g hSteamPipe pCallbackMsg).2.1)
        = (false, none)) := by
  rw [← (get_steam_client_queues g).1]
  unfold SteamAPI_ManualDispatch_GetNextCallback
  generalize get_steam_client g = p
  obtain ⟨client, g1⟩ := p
  dsimp only
  cases hf : client.steam_pipes.find hSteamPipe with
  | none => exact ⟨fun h => Option.noConfusion h, fun _ _ => rfl⟩
  | some r =>
    cases r with
    | NO_USER => exact ⟨fun h => Steam_Pipe.noConfusion (Option.some.inj h), fun _ _ => rfl⟩
    | SERVER => exact ⟨fun h => Steam_Pipe.noConfusion (Option.some.inj h), fun _ h => absurd rfl h⟩
    | CLIENT =>
      refine ⟨fun _ => ?_, fun h => absurd rfl h⟩
      cases client.steamclient_server_inited <;> rfl

/-- C19. On a pipe whose role is not SERVER (a client pipe, a pipe without user, an
unregistered handle) the boolean and the event returned by
`SteamAPI_ManualDispatch_GetNextCallback` are the same whatever the server queue holds: on a
client pipe they are taken from the front of the client queue, otherwise the call fails. On
a pipe whose role is not CLIENT they are the same whatever the client queue holds. And
`SteamAPI_ManualDispatch_FreeLastCallback` on a pipe whose role is not SERVER leaves the
server queue as it is, and on a pipe whose role is not CLIENT leaves the client queue as it
is. -/
theorem C19_queues_isolated_by_role (K : UserHandles) (g : Dll) (hSteamPipe : HSteamPipe)
    (pCallbackMsg : Bool) (q : List cb_data) :
    ((get_steam_client g).1.steam_pipes.find hSteamPipe ≠ some Steam_Pipe.SERVER →
      (SteamAPI_ManualDispatch_GetNextCallback K { g with server_cb := q } hSteamPipe
          pCallbackMsg).1
        = (SteamAPI_ManualDispatch_GetNextCallback K g hSteamPipe pCallbackMsg).1
      ∧ (SteamAPI_ManualDispatch_GetNextCallback K { g with server_cb := q } hSteamPipe
          pCallbackMsg).2.1
        = (SteamAPI_ManualDispatch_GetNextCallback K g hSteamPipe pCallbackMsg).2.1
      ∧ (SteamAPI_ManualDispatch_FreeLastCallback g hSteamPipe).server_cb = g.server_cb)
    ∧ ((get_steam_client g).1.steam_pipes.find hSteamPipe ≠ some Steam_Pipe.CLIENT →
      (SteamAPI_ManualDispatch_GetNextCallback K { g with client_cb := q } hSteamPipe
          pCallbackMsg).1
        = (SteamAPI_ManualDispatch_GetNextCallback K g hSteamPipe pCallbackMsg).1
      ∧ (SteamAPI_ManualDispatch_GetNextCallback K { g with client_cb := q } hSteamPipe
          pCallbackMsg).2.1
        = (SteamAPI_ManualDispatch_GetNextCallback K g hSteamPipe pCallbackMsg).2.1
      ∧ (SteamAPI_ManualDispatch_FreeLastCallback g hSteamPipe).client_cb = g.client_cb)
    ∧ ((get_steam_client g).1.steam_pipes.find hSteamPipe = some Steam_Pipe.CLIENT →
      ((SteamAPI_ManualDispatch_GetNextCallback K g hSteamPipe pCallbackMsg).1,
        (SteamAPI_ManualDispatch_GetNextCallback K g hSteamPipe pCallbackMsg).2.1)
        = nextCallbackFrom g.client_cb K.CLIENT_HSTEAMUSER pCallbackMsg)
    ∧ ((get_steam_client g).1.steam_pipes.find hSteamPipe ≠ some Steam_Pipe.CLIENT →
      (get_steam_client g).1.steam_pipes.find hSteamPipe ≠ some Steam_Pipe.SERVER →
      ((SteamAPI_ManualDispatch_GetNextCallback K g hSteamPipe pCallbackMsg).1,
        (SteamAPI_ManualDispatch_GetNextCallback K g hSteamPipe pCallbackMsg).2.1)
        = (false, none)) := by
  refine ⟨fun h => ?_, fun h => ?_, (GetNextCallback_source K g hSteamPipe pCallbackMsg).1,
    (GetNextCallback_source K g hSteamPipe pCallbackMsg).2⟩
  · obtain ⟨h1, h2⟩ := GetNextCallback_ignores_server_cb K g hSteamPipe pCallbackMsg q h
    exact ⟨h1, h2, (FreeLastCallback_other_queue g hSteamPipe).1 h⟩
  · obtain ⟨h1, h2⟩ := GetNextCallback_ignores_client_cb K g hSteamPipe pCallbackMsg q h
    exact ⟨h1, h2, (FreeLastCallback_other_queue g hSteamPipe).2 h⟩

/-- On the client pipe 1 of `clientWithServerEvent` the fetch returns the client event
(7, [0x01]) with the client user handle, as it does with the server queue emptied, and the
release leaves the server event in its queue. -/
theorem C19_queues_isolated_by_role_witness :
    (SteamAPI_ManualDispatch_GetNextCallback ⟨5, 9⟩
        { clientWithServerEvent ⟨5, 9⟩ with server_cb := [] } 1 true).2.1
      = (SteamAPI_ManualDispatch_GetNextCallback ⟨5, 9⟩ (clientWithServerEvent ⟨5, 9⟩) 1
          true).2.1
    ∧ (SteamAPI_ManualDispatch_FreeLastCallback (clientWithServerEvent ⟨5, 9⟩) 1).server_cb
      = (clientWithServerEvent ⟨5, 9⟩).server_cb
    ∧ (SteamAPI_ManualDispatch_GetNextCallback ⟨5, 9⟩ (clientWithServerEvent ⟨5, 9⟩) 1
          true).2.1 = some ⟨5, 7, [0x01], 1⟩
    ∧ (clientWithServerEvent ⟨5, 9⟩).server_cb = [⟨42, [0xAA]⟩] :=
  ⟨((C19_queues_isolated_by_role ⟨5, 9⟩ (clientWithServerEvent ⟨5, 9⟩) 1 true []).1
      (by decide)).2.1,
   ((C19_queues_isolated_by_role ⟨5, 9⟩ (clientWithServerEvent ⟨5, 9⟩) 1 true []).1
      (by decide)).2.2,
   by decide, by decide⟩

/-! ## C20: what a successful fetch returns -/

/-- C20, as stated, fails. After `ReleaseUser` of the server user, pipe 1 of `serverQueued` is
still bound to the server role and the server queue holds two events, yet a fetch with an
output structure returns false, fills nothing and empties the server queue. -/
theorem C20_counterexample_server_pipe_after_release_user :
    (get_steam_client ((ApiCall.method (Call.ReleaseUser 1 9)).run ⟨5, 9⟩
        (serverQueued ⟨5, 9⟩))).1.steam_pipes.find 1 = some Steam_Pipe.SERVER
    ∧ ((ApiCall.method (Call.ReleaseUser 1 9)).run ⟨5, 9⟩ (serverQueued ⟨5, 9⟩)).server_cb
        = [⟨42, [0xAA]⟩, ⟨43, [0xBB]⟩]
    ∧ (SteamAPI_ManualDispatch_GetNextCallback ⟨5, 9⟩
        ((ApiCall.method (Call.ReleaseUser 1 9)).run ⟨5, 9⟩ (serverQueued ⟨5, 9⟩)) 1 true).1
        = false
    ∧ (SteamAPI_ManualDispatch_GetNextCallback ⟨5, 9⟩
        ((ApiCall.method (Call.ReleaseUser 1 9)).run ⟨5, 9⟩ (serverQueued ⟨5, 9⟩)) 1 true).2.1
        = none
    ∧ (SteamAPI_ManualDispatch_GetNextCallback ⟨5, 9⟩
        ((ApiCall.method (Call.ReleaseUser 1 9)).run ⟨5, 9⟩ (serverQueued ⟨5, 9⟩)) 1
        true).2.2.server_cb = [] := by
  decide

/-- C20, amended. When the pipe is bound to the client or the server role in the live
singleton, the role's queue has front `e`, an output structure is supplied and, for a server
pipe, `steamclient_server_inited` is set, `SteamAPI_ManualDispatch_GetNextCallback` returns
true and fills the output with the kind id of `e`, its payload bytes, their number, and the
user handle of the role (`SERVER_HSTEAMUSER` for a server pipe, `CLIENT_HSTEAMUSER` for a
client pipe); the queue is left as it was. -/
theorem C20_fetch_fills_output_from_front (K : UserHandles) (g : Dll) (client : Steam_Client)
    (hSteamPipe : HSteamPipe) (role : Steam_Pipe) (e : cb_data) (rest : List cb_data)
    (hsingleton : g.steamclient_instance = some client)
    (hbound : client.steam_pipes.find hSteamPipe = some role)
    (hrole : role ≠ Steam_Pipe.NO_USER)
    (hinited : role = Steam_Pipe.SERVER → client.steamclient_server_inited = true)
    (hqueue : queueOf role g = e :: rest) :
    (SteamAPI_ManualDispatch_GetNextCallback K g hSteamPipe true).1 = true
    ∧ (SteamAPI_ManualDispatch_GetNextCallback K g hSteamPipe true).2.1
        = some { m_hSteamUser := (match role with
                    | Steam_Pipe.SERVER => K.SERVER_HSTEAMUSER
                    | Steam_Pipe.CLIENT => K.CLIENT_HSTEAMUSER
                    | Steam_Pipe.NO_USER => 0),
                 m_iCallback := e.cb_id, m_pubParam := e.result,
                 m_cubParam := e.result.length }
    ∧ queueOf role (SteamAPI_ManualDispatch_GetNextCallback K g hSteamPipe true).2.2
        = e :: rest := by
  obtain ⟨h1, h2, c, _, _, _, h3⟩ := GetNextCallback_ready K role hrole hSteamPipe e rest g
    ⟨client, hsingleton, hbound, hinited, hqueue⟩
  refine ⟨h1, ?_, h3⟩
  rw [h2]
  cases role <;> rfl

/-- The fetch on the server pipe 1 of `serverQueued`. -/
theorem C20_fetch_fills_output_from_front_witness :
    (SteamAPI_ManualDispatch_GetNextCallback ⟨5, 9⟩ (serverQueued ⟨5, 9⟩) 1 true).1 = true
    ∧ (SteamAPI_ManualDispatch_GetNextCallback ⟨5, 9⟩ (serverQueued ⟨5, 9⟩) 1 true).2.1
        = some { m_hSteamUser := 9, m_iCallback := 42, m_pubParam := [0xAA], m_cubParam := 1 }
    ∧ queueOf Steam_Pipe.SERVER
        (SteamAPI_ManualDispatch_GetNextCallback ⟨5, 9⟩ (serverQueued ⟨5, 9⟩) 1 true).2.2
        = [⟨42, [0xAA]⟩, ⟨43, [0xBB]⟩] :=
  C20_fetch_fills_output_from_front ⟨5, 9⟩ (serverQueued ⟨5, 9⟩)
    (Steam_Client.new.CreateLocalUser ⟨5, 9⟩ true).2.2 1 Steam_Pipe.SERVER ⟨42, [0xAA]⟩
    [⟨43, [0xBB]⟩] rfl (by decide) (by decide) (fun _ => rfl) rfl

/-! ## C21: a fetch that fails -/

/-- C21. `SteamAPI_ManualDispatch_GetNextCallback` returns false and writes nothing to the
output structure whenever the pipe handle is not registered, the pipe is registered without
a user (`NO_USER`), or the queue of the pipe's role is empty; with or without an output
structure. -/
theorem C21_fetch_fails_without_event (K : UserHandles) (g : Dll) (hSteamPipe : HSteamPipe)
    (pCallbackMsg : Bool)
    (hcase : (get_steam_client g).1.steam_pipes.find hSteamPipe = none
      ∨ (get_steam_client g).1.steam_pipes.find hSteamPipe = some Steam_Pipe.NO_USER
      ∨ ∃ role, (get_steam_client g).1.steam_pipes.find hSteamPipe = some role
          ∧ queueOf role g = []) :
    (SteamAPI_ManualDispatch_GetNextCallback K g hSteamPipe pCallbackMsg).1 = false
    ∧ (SteamAPI_ManualDispatch_GetNextCallback K g hSteamPipe pCallbackMsg).2.1 = none := by
  have hq : ∀ role, queueOf role g = queueOf role (get_steam_client g).2 := by
    intro role
    obtain ⟨hc, hs⟩ := get_steam_client_queues g
    cases role
    · rfl
    · exact hc.symm
    · exact hs.symm
  simp only [hq] at hcase
  unfold SteamAPI_ManualDispatch_GetNextCallback
  generalize get_steam_client g = p at hcase ⊢
  obtain ⟨client, g1⟩ := p
  dsimp only at hcase ⊢
  rcases hcase with h | h | ⟨role, h, hempty⟩
  · rw [h]
    exact ⟨rfl, rfl⟩
  · rw [h]
    exact ⟨rfl, rfl⟩
  · rw [h]
    cases role with
    | NO_USER => exact ⟨rfl, rfl⟩
    | CLIENT =>
      have he : g1.client_cb = [] := hempty
      cases client.steamclient_server_inited
      · rw [if_pos (show (!false) = true from rfl)]
        dsimp only
        rw [he]
        exact ⟨rfl, rfl⟩
      · rw [if_neg (show ¬ (!true) = true by decide)]
        dsimp only
        rw [he]
        exact ⟨rfl, rfl⟩
    | SERVER =>
      have he : g1.server_cb = [] := hempty
      cases client.steamclient_server_inited
      · rw [if_pos (show (!false) = true from rfl)]
        exact ⟨rfl, rfl⟩
      · rw [if_neg (show ¬ (!true) = true by decide)]
        dsimp only
        rw [he]
        exact ⟨rfl, rfl⟩

/-- The unregistered handle 7 on `serverQueued`, whose server queue holds two events. -/
theorem C21_fetch_fails_without_event_witness :
    (SteamAPI_ManualDispatch_GetNextCallback ⟨5, 9⟩ (serverQueued ⟨5, 9⟩) 7 true).1 = false
    ∧ (SteamAPI_ManualDispatch_GetNextCallback ⟨5, 9⟩ (serverQueued ⟨5, 9⟩) 7 true).2.1
        = none :=
  C21_fetch_fails_without_event ⟨5, 9⟩ (serverQueued ⟨5, 9⟩) 7 true (Or.inl (by decide))

/-- The three failing cases on concrete states: an unregistered handle, a pipe without user
(created, never bound) and a client pipe whose queue is empty. -/
theorem fetch_fails_examples :
    (SteamAPI_ManualDispatch_GetNextCallback ⟨5, 9⟩ (serverQueued ⟨5, 9⟩) 7 true).1 = false
    ∧ (SteamAPI_ManualDispatch_GetNextCallback ⟨5, 9⟩
        ((ApiCall.method Call.CreateSteamPipe).run ⟨5, 9⟩ (serverQueued ⟨5, 9⟩)) 2 true).1
        = false
    ∧ (SteamAPI_ManualDispatch_GetNextCallback ⟨5, 9⟩ (SteamAPI_Init ⟨5, 9⟩ {}).2 1 true).1
        = false := by
  decide

/-! ## C22: the release of the last callback -/

/-- A handle registered in the aggregate the accessor returns belongs to a singleton that
was already there: a singleton built on demand has no pipe. -/
theorem get_steam_client_of_registered (g : Dll) (hSteamPipe : HSteamPipe) (role : Steam_Pipe)
    (h : (get_steam_client g).1.steam_pipes.find hSteamPipe = some role) :
    get_steam_client g = ((get_steam_client g).1, g) := by
  unfold get_steam_client at h ⊢
  cases hi : g.steamclient_instance with
  | none =>
    rw [hi] at h
    exact Option.noConfusion h
  | some client => rfl

theorem Dll_server_cb_eta (g : Dll) (q : List cb_data) (h : g.server_cb = q) :
    { g with server_cb := q } = g := by
  cases g
  cases h
  rfl

theorem Dll_client_cb_eta (g : Dll) (q : List cb_data) (h : g.client_cb = q) :
    { g with client_cb := q } = g := by
  cases g
  cases h
  rfl

theorem FreeLastCallback_bound (g : Dll) (hSteamPipe : HSteamPipe) :
    ((get_steam_client g).1.steam_pipes.find hSteamPipe = some Steam_Pipe.SERVER →
      SteamAPI_ManualDispatch_FreeLastCallback g hSteamPipe
        = { g with server_cb := g.server_cb.tail })
    ∧ ((get_steam_client g).1.steam_pipes.find hSteamPipe = some Steam_Pipe.CLIENT →
      SteamAPI_ManualDispatch_FreeLastCallback g hSteamPipe
        = { g with client_cb := g.client_cb.tail }) := by
  constructor
  · intro h
    have hg := get_steam_client_of_registered g hSteamPipe _ h
    unfold SteamAPI_ManualDispatch_FreeLastCallback
    rw [hg]
    dsimp only
    rw [h]
    dsimp only
    cases g.server_cb <;> rfl
  · intro h
    have hg := get_steam_client_of_registered g hSteamPipe _ h
    unfold SteamAPI_ManualDispatch_FreeLastCallback
    rw [hg]
    dsimp only
    rw [h]
    dsimp only
    cases g.client_cb <;> rfl

theorem FreeLastCallback_unbound (g : Dll) (hSteamPipe : HSteamPipe)
    (h : (get_steam_client g).1.steam_pipes.find hSteamPipe = none
      ∨ (get_steam_client g).1.steam_pipes.find hSteamPipe = some Steam_Pipe.NO_USER) :
    SteamAPI_ManualDispatch_FreeLastCallback g hSteamPipe = (get_steam_client g).2 := by
  unfold SteamAPI_ManualDispatch_FreeLastCallback
  generalize get_steam_client g = p at h ⊢
  obtain ⟨client, g1⟩ := p
  dsimp only at h ⊢
  rcases h with h | h <;> rw [h]

/-- C22. On a pipe bound to the server role `SteamAPI_ManualDispatch_FreeLastCallback`
removes the front event of the server queue, on a pipe bound to the client role the front
event of the client queue, and changes nothing else in the process-wide state. On an
unregistered handle, on a pipe without user, or when the queue of the pipe's role is empty,
it leaves the state as the accessor `get_steam_client()` alone leaves it: both queues and the
aggregate with its pipe table are unchanged, and with a live singleton the whole state is. -/
theorem C22_release_removes_front_only (g : Dll) (hSteamPipe : HSteamPipe) :
    (∀ e rest, (get_steam_client g).1.steam_pipes.find hSteamPipe = some Steam_Pipe.SERVER →
      g.server_cb = e :: rest →
      SteamAPI_ManualDispatch_FreeLastCallback g hSteamPipe = { g with server_cb := rest })
    ∧ (∀ e rest, (get_steam_client g).1.steam_pipes.find hSteamPipe = some Steam_Pipe.CLIENT →
      g.client_cb = e :: rest →
      SteamAPI_ManualDispatch_FreeLastCallback g hSteamPipe = { g with client_cb := rest })
    ∧ (((get_steam_client g).1.steam_pipes.find hSteamPipe = none
        ∨ (get_steam_client g).1.steam_pipes.find hSteamPipe = some Steam_Pipe.NO_USER
        ∨ ∃ role, (get_steam_client g).1.steam_pipes.find hSteamPipe = some role
            ∧ queueOf role g = []) →
      SteamAPI_ManualDispatch_FreeLastCallback g hSteamPipe = (get_steam_client g).2)
    ∧ (get_steam_client g).2.client_cb = g.client_cb
    ∧ (get_steam_client g).2.server_cb = g.server_cb
    ∧ (get_steam_client (get_steam_client g).2).1 = (get_steam_client g).1
    ∧ (g.steamclient_instance ≠ none → (get_steam_client g).2 = g) := by
  refine ⟨?_, ?_, ?_, (get_steam_client_queues g).1, (get_steam_client_queues g).2,
    by rw [get_steam_client_idem], ?_⟩
  · intro e rest h hq
    rw [(FreeLastCallback_bound g hSteamPipe).1 h, hq]
    rfl
  · intro e rest h hq
    rw [(FreeLastCallback_bound g hSteamPipe).2 h, hq]
    rfl
  · rintro (h | h | ⟨role, h, hempty⟩)
    · exact FreeLastCallback_unbound g hSteamPipe (Or.inl h)
    · exact FreeLastCallback_unbound g hSteamPipe (Or.inr h)
    · cases role with
      | NO_USER => exact FreeLastCallback_unbound g hSteamPipe (Or.inr h)
      | CLIENT =>
        have he : g.client_cb = [] := hempty
        rw [(FreeLastCallback_bound g hSteamPipe).2 h,
          get_steam_client_of_registered g hSteamPipe _ h, he]
        exact Dll_client_cb_eta g _ he
      | SERVER =>
        have he : g.server_cb = [] := hempty
        rw [(FreeLastCallback_bound g hSteamPipe).1 h,
          get_steam_client_of_registered g hSteamPipe _ h, he]
        exact Dll_server_cb_eta g _ he
  · intro hi
    cases hs : g.steamclient_instance with
    | none => exact absurd hs hi
    | some client => rw [get_steam_client_some g client hs]

/-- On `serverQueued` the release on the server pipe 1 removes the event (42, [0xAA]) and
leaves (43, [0xBB]); on the unregistered handle 7, and on pipe 1 once the queue is empty, it
changes nothing. -/
theorem C22_release_removes_front_only_witness :
    SteamAPI_ManualDispatch_FreeLastCallback (serverQueued ⟨5, 9⟩) 1
        = { serverQueued ⟨5, 9⟩ with server_cb := [⟨43, [0xBB]⟩] }
    ∧ SteamAPI_ManualDispatch_FreeLastCallback (serverQueued ⟨5, 9⟩) 7
        = (get_steam_client (serverQueued ⟨5, 9⟩)).2
    ∧ (get_steam_client (serverQueued ⟨5, 9⟩)).2 = serverQueued ⟨5, 9⟩ :=
  ⟨(C22_release_removes_front_only (serverQueued ⟨5, 9⟩) 1).1 ⟨42, [0xAA]⟩ [⟨43, [0xBB]⟩]
      (by decide) rfl,
   (C22_release_removes_front_only (serverQueued ⟨5, 9⟩) 7).2.2.1 (Or.inl (by decide)),
   (C22_release_removes_front_only (serverQueued ⟨5, 9⟩) 7).2.2.2.2.2.2 (by decide)⟩

/-! ## C23: call results are looked up by role -/

/-- C23. `SteamAPI_ManualDispatch_GetAPICallResult` consults the table of the pipe's own
role only: on a server pipe it asks `steam_gameserver_utils` and returns what that lookup
returns, on a client pipe it asks `steam_utils` and returns what that lookup returns, and on
an unregistered handle or a pipe without user it returns false without asking either. -/
theorem C23_call_result_lookup_by_role
    (GetAPICallResult : Subsystem → Nat → Nat → Int → CallResultAnswer) (g : Dll)
    (hSteamPipe : HSteamPipe) (hSteamAPICall cubCallback : Nat) (iCallbackExpected : Int) :
    ((get_steam_client g).1.steam_pipes.find hSteamPipe = some Steam_Pipe.SERVER →
      (SteamAPI_ManualDispatch_GetAPICallResult GetAPICallResult g hSteamPipe hSteamAPICall
          cubCallback iCallbackExpected).1
        = (GetAPICallResult Subsystem.steam_gameserver_utils hSteamAPICall cubCallback
            iCallbackExpected).ret
      ∧ (SteamAPI_ManualDispatch_GetAPICallResult GetAPICallResult g hSteamPipe hSteamAPICall
          cubCallback iCallbackExpected).2.1
        = some (Subsystem.steam_gameserver_utils,
            GetAPICallResult Subsystem.steam_gameserver_utils hSteamAPICall cubCallback
              iCallbackExpected))
    ∧ ((get_steam_client g).1.steam_pipes.find hSteamPipe = some Steam_Pipe.CLIENT →
      (SteamAPI_ManualDispatch_GetAPICallResult GetAPICallResult g hSteamPipe hSteamAPICall
          cubCallback iCallbackExpected).1
        = (GetAPICallResult Subsystem.steam_utils hSteamAPICall cubCallback
            iCallbackExpected).ret
      ∧ (SteamAPI_ManualDispatch_GetAPICallResult GetAPICallResult g hSteamPipe hSteamAPICall
          cubCallback iCallbackExpected).2.1
        = some (Subsystem.steam_utils,
            GetAPICallResult Subsystem.steam_utils hSteamAPICall cubCallback
              iCallbackExpected))
    ∧ (((get_steam_client g).1.steam_pipes.find hSteamPipe = none
        ∨ (get_steam_client g).1.steam_pipes.find hSteamPipe = some Steam_Pipe.NO_USER) →
      (SteamAPI_ManualDispatch_GetAPICallResult GetAPICallResult g hSteamPipe hSteamAPICall
          cubCallback iCallbackExpected).1 = false
      ∧ (SteamAPI_ManualDispatch_GetAPICallResult GetAPICallResult g hSteamPipe hSteamAPICall
          cubCallback iCallbackExpected).2.1 = none) := by
  unfold SteamAPI_ManualDispatch_GetAPICallResult
  generalize get_steam_client g = p
  obtain ⟨client, g1⟩ := p
  dsimp only
  have hcount : ∀ role, client.steam_pipes.find hSteamPipe = some role →
      ¬ client.steam_pipes.count hSteamPipe = 0 := by
    intro role h h0
    rw [(StdMap.count_eq_zero_iff _ _).1 h0] at h
    exact Option.noConfusion h
  refine ⟨fun h => ?_, fun h => ?_, fun h => ?_⟩
  · rw [if_neg (hcount _ h), h]
    exact ⟨rfl, rfl⟩
  · rw [if_neg (hcount _ h), h]
    exact ⟨rfl, rfl⟩
  · rcases h with h | h
    · rw [if_pos ((StdMap.count_eq_zero_iff _ _).2 h)]
      exact ⟨rfl, rfl⟩
    · rw [if_neg (hcount _ h), h]
      exact ⟨rfl, rfl⟩

/-- With a lookup that answers true for the game-server table only, the call on the server
pipe 1 of `serverQueued` returns true and the call on the client pipe 1 of
`clientWithServerEvent` returns false. -/
theorem C23_call_result_lookup_by_role_witness :
    (SteamAPI_ManualDispatch_GetAPICallResult
        (fun object _ _ _ => ⟨decide (object = Subsystem.steam_gameserver_utils), [], false⟩)
        (serverQueued ⟨5, 9⟩) 1 77 8 42).1 = true
    ∧ (SteamAPI_ManualDispatch_GetAPICallResult
        (fun object _ _ _ => ⟨decide (object = Subsystem.steam_gameserver_utils), [], false⟩)
        (clientWithServerEvent ⟨5, 9⟩) 1 77 8 42).1 = false :=
  ⟨((C23_call_result_lookup_by_role _ (serverQueued ⟨5, 9⟩) 1 77 8 42).1 (by decide)).1,
   ((C23_call_result_lookup_by_role _ (clientWithServerEvent ⟨5, 9⟩) 1 77 8 42).2.1
      (by decide)).1⟩

/-! ## C25: the reference count -/

theorem get_steam_client_counter (g : Dll) :
    (get_steam_client g).2.global_counter = g.global_counter := by
  unfold get_steam_client
  cases g.steamclient_instance <;> rfl

theorem SteamAPI_Shutdown_counter (g : Dll) :
    (SteamAPI_Shutdown g).global_counter = (g.global_counter + uintp_mod - 1) % uintp_mod := by
  rw [← get_steam_client_counter g]
  unfold SteamAPI_Shutdown
  generalize get_steam_client g = p
  obtain ⟨client, g1⟩ := p
  dsimp only
  split_ifs <;> rfl

theorem Shutdown_instance_iff (g : Dll) :
    ((SteamAPI_Shutdown g).steamclient_instance = none
        ↔ (SteamAPI_Shutdown g).global_counter = 0)
    ∧ ((SteamGameServer_Shutdown g).steamclient_instance = none
        ↔ (SteamGameServer_Shutdown g).global_counter = 0) := by
  unfold SteamAPI_Shutdown SteamGameServer_Shutdown
  generalize get_steam_client g = p
  obtain ⟨client, g1⟩ := p
  dsimp only
  constructor
  · by_cases h : (g1.global_counter + uintp_mod - 1) % uintp_mod = 0
    · rw [if_pos h]
      exact ⟨fun _ => h, fun _ => rfl⟩
    · rw [if_neg h]
      exact ⟨fun hn => Option.noConfusion hn, fun hz => absurd hz h⟩
  · by_cases h : (g1.global_counter + uintp_mod - 1) % uintp_mod = 0
    · rw [if_pos h]
      exact ⟨fun _ => h, fun _ => rfl⟩
    · rw [if_neg h]
      exact ⟨fun hn => Option.noConfusion hn, fun hz => absurd hz h⟩

theorem SteamInternal_CreateInterface_instance (g : Dll) (ver : String) (client : Steam_Client)
    (hi : g.steamclient_instance = some client) :
    (SteamInternal_CreateInterface g ver).2.steamclient_instance = some client := by
  unfold SteamInternal_CreateInterface
  rw [get_steam_client_some g client hi]
  dsimp only
  split_ifs
  · exact hi
  · exact create_client_interface_instance g ver client hi

theorem SteamGameServerClient_instance (old_client : String) (g : Dll) (client : Steam_Client)
    (hi : g.steamclient_instance = some client) :
    (SteamGameServerClient old_client g).2.steamclient_instance = some client := by
  unfold SteamGameServerClient
  rw [get_steam_client_some g client hi]
  dsimp only
  split_ifs
  · exact hi
  · exact SteamInternal_CreateInterface_instance g old_client client hi

/-- The two call-result tables of an aggregate. -/
theorem Call.run_call_results (K : UserHandles) (c : Call) (s : Steam_Client) :
    (c.run K s).callback_results_server = s.callback_results_server
    ∧ (c.run K s).callback_results_client = s.callback_results_client := by
  cases c with
  | userLogIn => exact ⟨rfl, rfl⟩
  | serverInit => exact ⟨rfl, rfl⟩
  | serverShutdown => exact ⟨rfl, rfl⟩
  | clientShutdown => exact ⟨rfl, rfl⟩
  | CreateSteamPipe => exact ⟨rfl, rfl⟩
  | BReleaseSteamPipe k =>
    simp only [Call.run, Steam_Client.BReleaseSteamPipe]
    split_ifs <;> exact ⟨rfl, rfl⟩
  | ConnectToGlobalUser k =>
    simp only [Call.run, Steam_Client.ConnectToGlobalUser]
    split_ifs <;> exact ⟨rfl, rfl⟩
  | CreateLocalUser p => exact ⟨rfl, rfl⟩
  | ReleaseUser k u =>
    simp only [Call.run, Steam_Client.ReleaseUser]
    split_ifs <;> exact ⟨rfl, rfl⟩
  | resolve r u k v =>
    simp only [Call.run]
    rcases Resolver.call_state r s u k v with e | e
    · rw [e]
      exact ⟨rfl, rfl⟩
    · rw [e]
      exact ⟨rfl, rfl⟩

theorem BShutdownIfAllPipesClosed_call_results (s : Steam_Client) (kill : Bool) :
    (s.BShutdownIfAllPipesClosed kill).2.1.callback_results_server = s.callback_results_server
    ∧ (s.BShutdownIfAllPipesClosed kill).2.1.callback_results_client
        = s.callback_results_client := by
  unfold Steam_Client.BShutdownIfAllPipesClosed
  by_cases hp : s.steam_pipes.size ≠ 0
  · rw [if_pos hp]
    exact ⟨rfl, rfl⟩
  · rw [if_neg hp]
    cases s.background_keepalive <;> exact ⟨rfl, rfl⟩

/-- The hooks are installed exactly when the live aggregate has them. -/
theorem hooksInstalled_iff (g : Dll) :
    hooksInstalled g = true ↔ ∃ client, g.steamclient_instance = some client
      ∧ client.callback_results_server.cb_all = some QueueHook.cb_add_queue_server
      ∧ client.callback_results_client.cb_all = some QueueHook.cb_add_queue_client := by
  unfold hooksInstalled
  cases hi : g.steamclient_instance with
  | none => simp
  | some client => simp

/-- A state whose aggregate has the call-result tables of an aggregate with the hooks. -/
theorem hooksInstalled_of_tables (g : Dll) (client client2 : Steam_Client)
    (hi : g.steamclient_instance = some client2)
    (hs : client2.callback_results_server = client.callback_results_server)
    (hc : client2.callback_results_client = client.callback_results_client)
    (h1 : client.callback_results_server.cb_all = some QueueHook.cb_add_queue_server)
    (h2 : client.callback_results_client.cb_all = some QueueHook.cb_add_queue_client) :
    hooksInstalled g = true :=
  (hooksInstalled_iff g).2 ⟨client2, hi, by rw [hs]; exact h1, by rw [hc]; exact h2⟩

theorem SteamAPI_ManualDispatch_Init_hooks (g : Dll) (h : g.manual_dispatch_called = false) :
    hooksInstalled (SteamAPI_ManualDispatch_Init g) = true := by
  unfold SteamAPI_ManualDispatch_Init
  rw [if_pos h]
  generalize get_steam_client { g with manual_dispatch_called := true } = p
  obtain ⟨client, g1⟩ := p
  rfl

theorem LifecycleCall.run_hooks (K : UserHandles) (old_client : String) (c : LifecycleCall)
    (g : Dll) (h : hooksInstalled g = true)
    (halive : (c.run K old_client g).steamclient_instance.isSome = true) :
    hooksInstalled (c.run K old_client g) = true := by
  obtain ⟨client, hi, h1, h2⟩ := (hooksInstalled_iff g).1 h
  cases c with
  | SteamAPI_Init =>
    show hooksInstalled (Gbe.SteamAPI_Init K g).2 = true
    unfold Gbe.SteamAPI_Init
    split_ifs
    · exact h
    · rw [get_steam_client_some g client hi]
      have e1 := Call.run_call_results K Call.CreateSteamPipe client
      have e2 := Call.run_call_results K
        (Call.ConnectToGlobalUser client.CreateSteamPipe.1) client.CreateSteamPipe.2
      exact hooksInstalled_of_tables _ client _ rfl (e2.1.trans e1.1) (e2.2.trans e1.2) h1 h2
  | SteamInternal_GameServer_Init ret =>
    show hooksInstalled (Gbe.SteamInternal_GameServer_Init K old_client ret g).2 = true
    unfold Gbe.SteamInternal_GameServer_Init
    rw [get_steam_client_some g client hi]
    dsimp only
    split_ifs
    · have e1 := Call.run_call_results K (Call.CreateLocalUser true) client
      refine hooksInstalled_of_tables _ client (client.CreateLocalUser K true).2.2 ?_ e1.1 e1.2
        h1 h2
      exact SteamGameServerClient_instance old_client _ _ rfl
    · exact h
  | SteamAPI_Shutdown =>
    have ha : (Gbe.SteamAPI_Shutdown g).steamclient_instance.isSome = true := halive
    show hooksInstalled (Gbe.SteamAPI_Shutdown g) = true
    unfold Gbe.SteamAPI_Shutdown at ha ⊢
    rw [get_steam_client_some g client hi] at ha ⊢
    dsimp only at ha ⊢
    split_ifs at ha ⊢
    · exact absurd ha (by simp [destroy_client])
    · have e1 := BShutdownIfAllPipesClosed_call_results
        (client.clientShutdown.BReleaseSteamPipe g.user_steam_pipe).2 g.kill_background_thread
      have e2 := Call.run_call_results K (Call.BReleaseSteamPipe g.user_steam_pipe)
        client.clientShutdown
      exact hooksInstalled_of_tables _ client _ rfl (e1.1.trans e2.1) (e1.2.trans e2.2) h1 h2
  | SteamGameServer_Shutdown =>
    have ha : (Gbe.SteamGameServer_Shutdown g).steamclient_instance.isSome = true := halive
    show hooksInstalled (Gbe.SteamGameServer_Shutdown g) = true
    unfold Gbe.SteamGameServer_Shutdown at ha ⊢
    rw [get_steam_client_some g client hi] at ha ⊢
    dsimp only at ha ⊢
    split_ifs at ha ⊢
    · exact absurd ha (by simp [destroy_client])
    · have e1 := BShutdownIfAllPipesClosed_call_results
        (client.serverShutdown.BReleaseSteamPipe g.server_steam_pipe).2 g.kill_background_thread
      have e2 := Call.run_call_results K (Call.BReleaseSteamPipe g.server_steam_pipe)
        client.serverShutdown
      exact hooksInstalled_of_tables _ client _ rfl (e1.1.trans e2.1) (e1.2.trans e2.2) h1 h2
  | SteamAPI_ManualDispatch_Init =>
    show hooksInstalled (Gbe.SteamAPI_ManualDispatch_Init g) = true
    by_cases hm : g.manual_dispatch_called = false
    · exact SteamAPI_ManualDispatch_Init_hooks g hm
    · unfold Gbe.SteamAPI_ManualDispatch_Init
      rw [if_neg hm]
      exact h
  | other a =>
    show hooksInstalled (a.run K g) = true
    cases a with
    | method c =>
      have e := Call.run_call_results K c client
      refine hooksInstalled_of_tables _ client (c.run K client) ?_ e.1 e.2 h1 h2
      simp only [ApiCall.run, get_steam_client_some g client hi]
    | BShutdownIfAllPipesClosed =>
      have e := BShutdownIfAllPipesClosed_call_results client g.kill_background_thread
      refine hooksInstalled_of_tables _ client _ ?_ e.1 e.2 h1 h2
      simp only [ApiCall.run, get_steam_client_some g client hi]
    | create_client_interface ver =>
      exact (hooksInstalled_iff _).2
        ⟨client, create_client_interface_instance g ver client hi, h1, h2⟩
    | steamclient_has_ipv6_functions =>
      refine (hooksInstalled_iff _).2 ⟨client, ?_, h1, h2⟩
      simp only [ApiCall.run, Gbe.steamclient_has_ipv6_functions,
        get_steam_client_some g client hi]
      exact hi

theorem runLifecycle_hooks (K : UserHandles) (old_client : String) :
    ∀ (cs : List LifecycleCall) (g : Dll), hooksInstalled g = true →
      aliveThroughout K old_client cs g = true →
      hooksInstalled (runLifecycle K old_client cs g) = true := by
  intro cs
  induction cs with
  | nil => intro g h _; exact h
  | cons c cs ih =>
    intro g h ha
    simp only [aliveThroughout, Bool.and_eq_true] at ha
    exact ih _ (LifecycleCall.run_hooks K old_client c g h ha.1) ha.2

/-- The first call of `SteamAPI_ManualDispatch_Init` installs the queueing hooks on both
call-result tables of the live aggregate, `cb_add_queue_server` on the server table and
`cb_add_queue_client` on the client table, and that aggregate keeps them through every later
sequence of init, shutdown, activation and other calls on the singleton, for as long as no
call destroys it. -/
theorem hooks_stay_on_live_aggregate (K : UserHandles) (old_client : String) (g : Dll)
    (cs : List LifecycleCall) (hfirst : g.manual_dispatch_called = false)
    (halive : aliveThroughout K old_client cs (SteamAPI_ManualDispatch_Init g) = true) :
    hooksInstalled (SteamAPI_ManualDispatch_Init g) = true
    ∧ hooksInstalled (runLifecycle K old_client cs (SteamAPI_ManualDispatch_Init g)) = true
    ∧ ∃ client, (runLifecycle K old_client cs
          (SteamAPI_ManualDispatch_Init g)).steamclient_instance = some client
        ∧ client.callback_results_server.cb_all = some QueueHook.cb_add_queue_server
        ∧ client.callback_results_client.cb_all = some QueueHook.cb_add_queue_client := by
  have h0 := SteamAPI_ManualDispatch_Init_hooks g hfirst
  have h1 := runLifecycle_hooks K old_client cs _ h0 halive
  exact ⟨h0, h1, (hooksInstalled_iff _).1 h1⟩

/-- After `SteamAPI_Init`, the activation is followed by a server init, a pipe created on the
side, a second activation and the server shutdown: the client keeps the aggregate alive and
the hooks stay. -/
theorem hooks_stay_on_live_aggregate_example :
    hooksInstalled (SteamAPI_ManualDispatch_Init (SteamAPI_Init ⟨5, 9⟩ {}).2) = true
    ∧ hooksInstalled (runLifecycle ⟨5, 9⟩ "SteamClient017"
        [LifecycleCall.SteamInternal_GameServer_Init true,
         LifecycleCall.other (ApiCall.method Call.CreateSteamPipe),
         LifecycleCall.SteamAPI_ManualDispatch_Init, LifecycleCall.SteamGameServer_Shutdown]
        (SteamAPI_ManualDispatch_Init (SteamAPI_Init ⟨5, 9⟩ {}).2)) = true :=
  ⟨(hooks_stay_on_live_aggregate ⟨5, 9⟩ "SteamClient017" (SteamAPI_Init ⟨5, 9⟩ {}).2
      [LifecycleCall.SteamInternal_GameServer_Init true,
       LifecycleCall.other (ApiCall.method Call.CreateSteamPipe),
       LifecycleCall.SteamAPI_ManualDispatch_Init, LifecycleCall.SteamGameServer_Shutdown]
      (by decide) (by decide)).1,
   (hooks_stay_on_live_aggregate ⟨5, 9⟩ "SteamClient017" (SteamAPI_Init ⟨5, 9⟩ {}).2
      [LifecycleCall.SteamInternal_GameServer_Init true,
       LifecycleCall.other (ApiCall.method Call.CreateSteamPipe),
       LifecycleCall.SteamAPI_ManualDispatch_Init, LifecycleCall.SteamGameServer_Shutdown]
      (by decide) (by decide)).2.1⟩

/-- Once `manual_dispatch_called` is set, `SteamAPI_ManualDispatch_Init` does nothing, in
every state: it installs no hook on whatever aggregate is live. -/
theorem SteamAPI_ManualDispatch_Init_of_called (g : Dll) (h : g.manual_dispatch_called = true) :
    SteamAPI_ManualDispatch_Init g = g := by
  unfold SteamAPI_ManualDispatch_Init
  rw [if_neg (by rw [h]; decide)]

/-- C24, at the failing input `SteamAPI_Init(); SteamAPI_ManualDispatch_Init();
SteamAPI_Shutdown(); SteamAPI_Init(); SteamAPI_ManualDispatch_Init()` on a fresh process.
The first activation installs the hooks. The shutdown destroys the aggregate and resets the
once-guard `user_steam_pipe` of `SteamAPI_Init` to 0, but `manual_dispatch_called` stays
set. The second `SteamAPI_Init` builds a new aggregate, whose call-result tables have no
hook, and the second activation, made after `SteamAPI_Init` as required, changes nothing:
the live aggregate has no queueing hook on either table. -/
theorem C24_reactivation_after_rebuild_installs_no_hooks :
    hooksInstalled (runLifecycle ⟨5, 9⟩ "SteamClient017"
        [LifecycleCall.SteamAPI_Init, LifecycleCall.SteamAPI_ManualDispatch_Init] {}) = true
    ∧ (runLifecycle ⟨5, 9⟩ "SteamClient017"
        [LifecycleCall.SteamAPI_Init, LifecycleCall.SteamAPI_ManualDispatch_Init,
         LifecycleCall.SteamAPI_Shutdown] {}).steamclient_instance = none
    ∧ (runLifecycle ⟨5, 9⟩ "SteamClient017"
        [LifecycleCall.SteamAPI_Init, LifecycleCall.SteamAPI_ManualDispatch_Init,
         LifecycleCall.SteamAPI_Shutdown] {}).user_steam_pipe = 0
    ∧ (runLifecycle ⟨5, 9⟩ "SteamClient017"
        [LifecycleCall.SteamAPI_Init, LifecycleCall.SteamAPI_ManualDispatch_Init,
         LifecycleCall.SteamAPI_Shutdown] {}).manual_dispatch_called = true
    ∧ (runLifecycle ⟨5, 9⟩ "SteamClient017"
        [LifecycleCall.SteamAPI_Init, LifecycleCall.SteamAPI_ManualDispatch_Init,
         LifecycleCall.SteamAPI_Shutdown, LifecycleCall.SteamAPI_Init]
        {}).steamclient_instance.isSome = true
    ∧ runLifecycle ⟨5, 9⟩ "SteamClient017"
        [LifecycleCall.SteamAPI_Init, LifecycleCall.SteamAPI_ManualDispatch_Init,
         LifecycleCall.SteamAPI_Shutdown, LifecycleCall.SteamAPI_Init,
         LifecycleCall.SteamAPI_ManualDispatch_Init] {}
        = runLifecycle ⟨5, 9⟩ "SteamClient017"
            [LifecycleCall.SteamAPI_Init, LifecycleCall.SteamAPI_ManualDispatch_Init,
             LifecycleCall.SteamAPI_Shutdown, LifecycleCall.SteamAPI_Init] {}
    ∧ hooksInstalled (runLifecycle ⟨5, 9⟩ "SteamClient017"
        [LifecycleCall.SteamAPI_Init, LifecycleCall.SteamAPI_ManualDispatch_Init,
         LifecycleCall.SteamAPI_Shutdown, LifecycleCall.SteamAPI_Init,
         LifecycleCall.SteamAPI_ManualDispatch_Init] {}) = false
    ∧ (runLifecycle ⟨5, 9⟩ "SteamClient017"
        [LifecycleCall.SteamAPI_Init, LifecycleCall.SteamAPI_ManualDispatch_Init,
         LifecycleCall.SteamAPI_Shutdown, LifecycleCall.SteamAPI_Init,
         LifecycleCall.SteamAPI_ManualDispatch_Init] {}).steamclient_instance.map
          (fun client => (client.callback_results_server.cb_all,
            client.callback_results_client.cb_all)) = some (none, none) := by
  decide

/-! ## C26: a second shutdown -/

/-- C26, at the failing input `SteamAPI_Init(); SteamAPI_Shutdown(); SteamAPI_Shutdown()` on
a fresh process. The first shutdown brings `global_counter` to 0 and destroys the aggregate;
the second one builds a new aggregate through `get_steam_client()`, decrements
`global_counter` from 0 to 2^64 - 1 and leaves the new aggregate alive, so the state is not
the one the first shutdown left. The same holds of `SteamGameServer_Shutdown` after
`SteamInternal_GameServer_Init`. -/
theorem C26_second_shutdown_rebuilds_and_underflows :
    (SteamAPI_Shutdown (SteamAPI_Init ⟨5, 9⟩ {}).2).global_counter = 0
    ∧ (SteamAPI_Shutdown (SteamAPI_Init ⟨5, 9⟩ {}).2).steamclient_instance = none
    ∧ (SteamAPI_Shutdown (SteamAPI_Shutdown (SteamAPI_Init ⟨5, 9⟩ {}).2)).global_counter
        = 2 ^ 64 - 1
    ∧ (SteamAPI_Shutdown (SteamAPI_Shutdown (SteamAPI_Init ⟨5, 9⟩ {}).2)).steamclient_instance
        = some Steam_Client.new
    ∧ SteamAPI_Shutdown (SteamAPI_Shutdown (SteamAPI_Init ⟨5, 9⟩ {}).2)
        ≠ SteamAPI_Shutdown (SteamAPI_Init ⟨5, 9⟩ {}).2
    ∧ (SteamGameServer_Shutdown
        (SteamInternal_GameServer_Init ⟨5, 9⟩ "SteamClient017" true {}).2).steamclient_instance
        = none
    ∧ (SteamGameServer_Shutdown (SteamGameServer_Shutdown
        (SteamInternal_GameServer_Init ⟨5, 9⟩ "SteamClient017" true {}).2)).global_counter
        = 2 ^ 64 - 1
    ∧ (SteamGameServer_Shutdown (SteamGameServer_Shutdown
        (SteamInternal_GameServer_Init ⟨5, 9⟩ "SteamClient017" true
          {}).2)).steamclient_instance = some Steam_Client.new := by
  decide

/-- In every state with `global_counter` 0 a shutdown call leaves `global_counter` at
2^64 - 1 and an aggregate alive: the decrement is not guarded. -/
theorem shutdown_at_zero_underflows (g : Dll) (h0 : g.global_counter = 0) :
    (SteamAPI_Shutdown g).global_counter = 2 ^ 64 - 1
    ∧ (SteamAPI_Shutdown g).steamclient_instance ≠ none
    ∧ (SteamGameServer_Shutdown g).global_counter = 2 ^ 64 - 1
    ∧ (SteamGameServer_Shutdown g).steamclient_instance ≠ none := by
  have hc : (get_steam_client g).2.global_counter = 0 := by
    unfold get_steam_client
    cases g.steamclient_instance <;> exact h0
  unfold SteamAPI_Shutdown SteamGameServer_Shutdown
  generalize get_steam_client g = p at hc ⊢
  obtain ⟨client, g1⟩ := p
  dsimp only at hc ⊢
  rw [hc]
  have hne : ¬ ((0 + uintp_mod - 1) % uintp_mod = 0) := by decide
  rw [if_neg hne, if_neg hne]
  have hv : (0 + uintp_mod - 1) % uintp_mod = 2 ^ 64 - 1 := by decide
  exact ⟨hv, Option.noConfusion, hv, Option.noConfusion⟩

/-! ## C28: context blocks across cycles -/

/-- C28, at the failing input: a context block with counter 0 is initialised during the first
cycle (`SteamAPI_Init`, then `SteamInternal_ContextInit` runs `pFn` once and stores 1); the
cycle is shut down, which destroys the aggregate, and a new one is initialised
(`SteamAPI_Shutdown`, `SteamAPI_Init`); `global_counter` is 1 again and the next
`SteamInternal_ContextInit` on the block does not run `pFn`. -/
theorem C28_context_block_not_reinitialised :
    SteamInternal_ContextInit (SteamAPI_Init ⟨5, 9⟩ {}).2 ⟨0, 0⟩ = ⟨1, 1⟩
    ∧ (SteamAPI_Shutdown (SteamAPI_Init ⟨5, 9⟩ {}).2).steamclient_instance = none
    ∧ (SteamAPI_Init ⟨5, 9⟩ (SteamAPI_Shutdown (SteamAPI_Init ⟨5, 9⟩ {}).2)).2.global_counter
        = 1
    ∧ (SteamInternal_ContextInit
        (SteamAPI_Init ⟨5, 9⟩ (SteamAPI_Shutdown (SteamAPI_Init ⟨5, 9⟩ {}).2)).2
        (SteamInternal_ContextInit (SteamAPI_Init ⟨5, 9⟩ {}).2 ⟨0, 0⟩)).pFn_runs = 1 := by
  decide

/-- The initialiser runs exactly when the stored counter differs from `global_counter`, which
the block then stores: two states with the same `global_counter` are not told apart. -/
theorem ContextInit_same_counter (g1 g2 : Dll) (d : ContextInitData)
    (h : g2.global_counter = g1.global_counter) :
    SteamInternal_ContextInit g2 (SteamInternal_ContextInit g1 d)
      = SteamInternal_ContextInit g1 d := by
  unfold SteamInternal_ContextInit
  rw [h]
  by_cases hd : d.counter = g1.global_counter
  · simp [hd]
  · simp [hd]

/-! ## C27: the cached adapter pointers at shutdown -/

theorem lookup_filter_not_contains (l : List (OldInstance × Adapter))
    (cleared : List OldInstance) (v : OldInstance) :
    (l.filter (fun e => !(cleared.contains e.1))).lookup v
      = if cleared.contains v then none else l.lookup v := by
  induction l with
  | nil => split_ifs <;> rfl
  | cons e rest ih =>
    obtain ⟨k, a⟩ := e
    by_cases hk : k ∈ cleared
    · rw [List.filter_cons_of_neg (by simp [hk]), ih]
      by_cases hv : v = k
      · subst hv
        simp [hk]
      · have hvk : (v == k) = false := by simpa using hv
        rw [List.lookup_cons, hvk]
    · rw [List.filter_cons_of_pos (by simp [hk])]
      by_cases hv : v = k
      · subst hv
        simp [List.lookup_cons, hk]
      · have hvk : (v == k) = false := by simpa using hv
        rw [List.lookup_cons, hvk, List.lookup_cons, hvk]
        exact ih

theorem SteamAPI_Shutdown_old_instances (g : Dll) :
    (SteamAPI_Shutdown g).old_instances
      = g.old_instances.filter (fun e => !(clientOldInstances.contains e.1)) := by
  have ho : (get_steam_client g).2.old_instances = g.old_instances := by
    unfold get_steam_client
    cases g.steamclient_instance <;> rfl
  rw [← ho]
  unfold SteamAPI_Shutdown
  generalize get_steam_client g = p
  obtain ⟨client, g1⟩ := p
  dsimp only
  split_ifs <;> rfl

theorem SteamGameServer_Shutdown_old_instances (g : Dll) :
    (SteamGameServer_Shutdown g).old_instances
      = g.old_instances.filter (fun e => !(serverOldInstances.contains e.1)) := by
  have ho : (get_steam_client g).2.old_instances = g.old_instances := by
    unfold get_steam_client
    cases g.steamclient_instance <;> rfl
  rw [← ho]
  unfold SteamGameServer_Shutdown
  generalize get_steam_client g = p
  obtain ⟨client, g1⟩ := p
  dsimp only
  split_ifs <;> rfl

theorem every_old_instance_has_a_role (v : OldInstance) :
    v ∈ clientOldInstances ∨ v ∈ serverOldInstances := by
  cases v <;> decide

/-- What each shutdown function does to the accessor variables: `SteamAPI_Shutdown` nulls
the client variables and keeps the others, `SteamGameServer_Shutdown` nulls the game-server
variables and keeps the others; each variable belongs to one of the two roles, so after a
shutdown every variable is null when those of the other role were null before it. An
accessor whose variable is null returns what its getter resolves in the state of the
call. -/
theorem shutdown_nulls_own_role_caches (g : Dll) (v : OldInstance) :
    (v ∈ clientOldInstances → (SteamAPI_Shutdown g).old_instances.lookup v = none)
    ∧ (v ∉ clientOldInstances →
        (SteamAPI_Shutdown g).old_instances.lookup v = g.old_instances.lookup v)
    ∧ (v ∈ serverOldInstances → (SteamGameServer_Shutdown g).old_instances.lookup v = none)
    ∧ (v ∉ serverOldInstances →
        (SteamGameServer_Shutdown g).old_instances.lookup v = g.old_instances.lookup v)
    ∧ (v ∈ clientOldInstances ∨ v ∈ serverOldInstances)
    ∧ ((∀ w ∈ serverOldInstances, g.old_instances.lookup w = none) →
        (SteamAPI_Shutdown g).old_instances.lookup v = none)
    ∧ ((∀ w ∈ clientOldInstances, g.old_instances.lookup w = none) →
        (SteamGameServer_Shutdown g).old_instances.lookup v = none)
    ∧ ∀ (get_func : Dll → Option Adapter × Dll), g.old_instances.lookup v = none →
        (CACHE_OLDSTEAM_INSTANCE g v get_func).1 = (get_func g).1 := by
  have hc : ∀ w, (SteamAPI_Shutdown g).old_instances.lookup w
      = if clientOldInstances.contains w then none else g.old_instances.lookup w := by
    intro w
    rw [SteamAPI_Shutdown_old_instances, lookup_filter_not_contains]
  have hs : ∀ w, (SteamGameServer_Shutdown g).old_instances.lookup w
      = if serverOldInstances.contains w then none else g.old_instances.lookup w := by
    intro w
    rw [SteamGameServer_Shutdown_old_instances, lookup_filter_not_contains]
  refine ⟨fun h => ?_, fun h => ?_, fun h => ?_, fun h => ?_, every_old_instance_has_a_role v,
    fun h => ?_, fun h => ?_, fun get_func h => ?_⟩
  · rw [hc, if_pos (by simpa using h)]
  · rw [hc, if_neg (by simpa using h)]
  · rw [hs, if_pos (by simpa using h)]
  · rw [hs, if_neg (by simpa using h)]
  · rw [hc]
    split_ifs with hm
    · rfl
    · rcases every_old_instance_has_a_role v with h1 | h1
      · exact absurd (by simpa using h1) hm
      · exact h v h1
  · rw [hs]
    split_ifs with hm
    · rfl
    · rcases every_old_instance_has_a_role v with h1 | h1
      · exact h v h1
      · exact absurd (by simpa using h1) hm
  · unfold CACHE_OLDSTEAM_INSTANCE
    rw [h]
    dsimp only
    cases (get_func g).1 <;> rfl

/-- Both roles initialised, `SteamUser()` and `SteamGameServer()` called, both roles shut
down: the aggregate is destroyed and no accessor variable holds a pointer. -/
theorem balanced_shutdown_clears_every_cache :
    (oldAccessor ⟨5, 9⟩ (fun _ => "") OldInstance.old_gameserver_instance
      (oldAccessor ⟨5, 9⟩ (fun _ => "") OldInstance.old_user_instance
        (SteamInternal_GameServer_Init ⟨5, 9⟩ "SteamClient017" true
          (SteamAPI_Init ⟨5, 9⟩ {}).2).2).2).2.old_instances.length = 2
    ∧ (SteamAPI_Shutdown (SteamGameServer_Shutdown
      (oldAccessor ⟨5, 9⟩ (fun _ => "") OldInstance.old_gameserver_instance
        (oldAccessor ⟨5, 9⟩ (fun _ => "") OldInstance.old_user_instance
          (SteamInternal_GameServer_Init ⟨5, 9⟩ "SteamClient017" true
            (SteamAPI_Init ⟨5, 9⟩ {}).2).2).2).2)).old_instances = []
    ∧ (SteamAPI_Shutdown (SteamGameServer_Shutdown
      (oldAccessor ⟨5, 9⟩ (fun _ => "") OldInstance.old_gameserver_instance
        (oldAccessor ⟨5, 9⟩ (fun _ => "") OldInstance.old_user_instance
          (SteamInternal_GameServer_Init ⟨5, 9⟩ "SteamClient017" true
            (SteamAPI_Init ⟨5, 9⟩ {}).2).2).2).2)).steamclient_instance = none := by
  decide

/-! ## C29 and C30: registration of call results and callbacks -/

/-- C29. `RegisterCallResult(obj, callId)` stores the registration (callId, obj) in the client
and in the server call-result registry, and `UnregisterCallResult(obj, callId)` removes it
from both: after register followed by unregister neither registry holds it, every other
registration is held exactly as before, and nothing else of the aggregate has changed. -/
theorem C29_call_result_registered_in_both (s : Steam_Client) (pCallback : CCallbackBase)
    (hAPICall : Nat) :
    (hAPICall, pCallback.address)
        ∈ (s.RegisterCallResult pCallback hAPICall).callback_results_client.callbacks
    ∧ (hAPICall, pCallback.address)
        ∈ (s.RegisterCallResult pCallback hAPICall).callback_results_server.callbacks
    ∧ (hAPICall, pCallback.address)
        ∉ ((s.RegisterCallResult pCallback hAPICall).UnregisterCallResult pCallback
            hAPICall).callback_results_client.callbacks
    ∧ (hAPICall, pCallback.address)
        ∉ ((s.RegisterCallResult pCallback hAPICall).UnregisterCallResult pCallback
            hAPICall).callback_results_server.callbacks
    ∧ (∀ e, e ≠ (hAPICall, pCallback.address) →
        (e ∈ ((s.RegisterCallResult pCallback hAPICall).UnregisterCallResult pCallback
            hAPICall).callback_results_client.callbacks
          ↔ e ∈ s.callback_results_client.callbacks)
        ∧ (e ∈ ((s.RegisterCallResult pCallback hAPICall).UnregisterCallResult pCallback
            hAPICall).callback_results_server.callbacks
          ↔ e ∈ s.callback_results_server.callbacks))
    ∧ (s.RegisterCallResult pCallback hAPICall).UnregisterCallResult pCallback hAPICall
        = { s with
            callback_results_client :=
              { s.callback_results_client with
                callbacks := s.callback_results_client.callbacks.filter
                  (fun e => e ≠ (hAPICall, pCallback.address)) }
            callback_results_server :=
              { s.callback_results_server with
                callbacks := s.callback_results_server.callbacks.filter
                  (fun e => e ≠ (hAPICall, pCallback.address)) } } := by
  refine ⟨?_, ?_, ?_, ?_, ?_, ?_⟩
  · simp [Steam_Client.RegisterCallResult, SteamCallResults.addCallBack]
  · simp [Steam_Client.RegisterCallResult, SteamCallResults.addCallBack]
  · simp [Steam_Client.RegisterCallResult, Steam_Client.UnregisterCallResult,
      SteamCallResults.addCallBack, SteamCallResults.rmCallBack]
  · simp [Steam_Client.RegisterCallResult, Steam_Client.UnregisterCallResult,
      SteamCallResults.addCallBack, SteamCallResults.rmCallBack]
  · intro e he
    simp [Steam_Client.RegisterCallResult, Steam_Client.UnregisterCallResult,
      SteamCallResults.addCallBack, SteamCallResults.rmCallBack, he]
  · simp [Steam_Client.RegisterCallResult, Steam_Client.UnregisterCallResult,
      SteamCallResults.addCallBack, SteamCallResults.rmCallBack, List.filter_append]

/-- The registration of the object at address 1000 under call id 77 on a fresh aggregate, and
its removal. -/
theorem call_result_registration_example :
    (Steam_Client.new.RegisterCallResult ⟨1000, 703, false⟩ 77).callback_results_client.callbacks
        = [(77, 1000)]
    ∧ (Steam_Client.new.RegisterCallResult ⟨1000, 703, false⟩
        77).callback_results_server.callbacks = [(77, 1000)]
    ∧ ((Steam_Client.new.RegisterCallResult ⟨1000, 703, false⟩ 77).UnregisterCallResult
        ⟨1000, 703, false⟩ 77) = Steam_Client.new := by
  decide

/-- C30, as stated, fails. The client callback at address 1000, which reports kind id 7, is
registered under the kind ids 5 and 7; `UnregisterCallback` removes the registration under 7
and the one under 5 stays in the client registry. -/
theorem C30_counterexample_unregister_removes_one_kind :
    (((Steam_Client.new.RegisterCallback ⟨1000, 7, false⟩ 5).RegisterCallback
        ⟨1000, 7, false⟩ 7).callbacks_client.callbacks = [(5, 1000), (7, 1000)])
    ∧ ((((Steam_Client.new.RegisterCallback ⟨1000, 7, false⟩ 5).RegisterCallback
        ⟨1000, 7, false⟩ 7).UnregisterCallback ⟨1000, 7, false⟩).callbacks_client.callbacks
        = [(5, 1000)]) := by
  decide

/-- C30, amended. `RegisterCallback(obj, kind)` stores (kind, obj) in exactly one per-role
registry, the server registry if and only if `obj` is a game-server callback, otherwise the
client registry, and leaves the other registry as it is. A following
`UnregisterCallback(obj)` works on that same registry and removes the registration under the
one kind id `obj` reports with `GetICallback()`: when that is the kind id of the
registration, neither registry holds the registration afterwards, and every other
registration, those of `obj` under other kind ids included, is held exactly as before. -/
theorem C30_callback_registered_in_one_registry (s : Steam_Client) (pCallback : CCallbackBase)
    (iCallback : Int) (hkind : pCallback.GetICallback = iCallback) :
    (pCallback.isServer = true →
      (s.RegisterCallback pCallback iCallback).callbacks_server.callbacks
          = s.callbacks_server.callbacks ++ [(iCallback, pCallback.address)]
        ∧ (s.RegisterCallback pCallback iCallback).callbacks_client = s.callbacks_client
        ∧ (iCallback, pCallback.address)
            ∉ ((s.RegisterCallback pCallback iCallback).UnregisterCallback
                pCallback).callbacks_server.callbacks
        ∧ ((s.RegisterCallback pCallback iCallback).UnregisterCallback
            pCallback).callbacks_client = s.callbacks_client
        ∧ ∀ e, e ≠ (iCallback, pCallback.address) →
            (e ∈ ((s.RegisterCallback pCallback iCallback).UnregisterCallback
                pCallback).callbacks_server.callbacks
              ↔ e ∈ s.callbacks_server.callbacks))
    ∧ (pCallback.isServer = false →
      (s.RegisterCallback pCallback iCallback).callbacks_client.callbacks
          = s.callbacks_client.callbacks ++ [(iCallback, pCallback.address)]
        ∧ (s.RegisterCallback pCallback iCallback).callbacks_server = s.callbacks_server
        ∧ (iCallback, pCallback.address)
            ∉ ((s.RegisterCallback pCallback iCallback).UnregisterCallback
                pCallback).callbacks_client.callbacks
        ∧ ((s.RegisterCallback pCallback iCallback).UnregisterCallback
            pCallback).callbacks_server = s.callbacks_server
        ∧ ∀ e, e ≠ (iCallback, pCallback.address) →
            (e ∈ ((s.RegisterCallback pCallback iCallback).UnregisterCallback
                pCallback).callbacks_client.callbacks
              ↔ e ∈ s.callbacks_client.callbacks)) := by
  subst hkind
  constructor
  · intro hs
    refine ⟨?_, ?_, ?_, ?_, ?_⟩
    · simp [Steam_Client.RegisterCallback, SteamCallBacks.addCallBack, hs]
    · simp [Steam_Client.RegisterCallback, hs]
    · simp [Steam_Client.RegisterCallback, Steam_Client.UnregisterCallback,
        SteamCallBacks.addCallBack, SteamCallBacks.rmCallBack, hs]
    · simp [Steam_Client.RegisterCallback, Steam_Client.UnregisterCallback, hs]
    · intro e he
      simp [Steam_Client.RegisterCallback, Steam_Client.UnregisterCallback,
        SteamCallBacks.addCallBack, SteamCallBacks.rmCallBack, hs, he]
  · intro hs
    refine ⟨?_, ?_, ?_, ?_, ?_⟩
    · simp [Steam_Client.RegisterCallback, SteamCallBacks.addCallBack, hs]
    · simp [Steam_Client.RegisterCallback, hs]
    · simp [Steam_Client.RegisterCallback, Steam_Client.UnregisterCallback,
        SteamCallBacks.addCallBack, SteamCallBacks.rmCallBack, hs]
    · simp [Steam_Client.RegisterCallback, Steam_Client.UnregisterCallback, hs]
    · intro e he
      simp [Steam_Client.RegisterCallback, Steam_Client.UnregisterCallback,
        SteamCallBacks.addCallBack, SteamCallBacks.rmCallBack, hs, he]

/-- The game-server callback at address 2000 of kind id 201, registered on an aggregate that
holds a client registration of the same kind. -/
theorem C30_callback_registered_in_one_registry_witness :
    ((Steam_Client.new.RegisterCallback ⟨1000, 201, false⟩ 201).RegisterCallback
        ⟨2000, 201, true⟩ 201).callbacks_server.callbacks
        = (Steam_Client.new.RegisterCallback ⟨1000, 201, false⟩ 201).callbacks_server.callbacks
          ++ [(201, 2000)]
    ∧ (((Steam_Client.new.RegisterCallback ⟨1000, 201, false⟩ 201).RegisterCallback
        ⟨2000, 201, true⟩ 201).UnregisterCallback ⟨2000, 201, true⟩).callbacks_client
        = (Steam_Client.new.RegisterCallback ⟨1000, 201, false⟩ 201).callbacks_client :=
  ⟨((C30_callback_registered_in_one_registry
        (Steam_Client.new.RegisterCallback ⟨1000, 201, false⟩ 201) ⟨2000, 201, true⟩ 201
        rfl).1 rfl).1,
   ((C30_callback_registered_in_one_registry
        (Steam_Client.new.RegisterCallback ⟨1000, 201, false⟩ 201) ⟨2000, 201, true⟩ 201
        rfl).1 rfl).2.2.2.1⟩

/-! ## C31: the layout of the old game-server init functions -/

theorem gameServerToken_toList (n : Nat) :
    (gameServerToken n).toList
      = "SteamGameServer".toList
        ++ [digitChar (n / 100 % 10), digitChar (n / 10 % 10), digitChar (n % 10)] := by
  unfold gameServerToken
  rw [String.toList, String.data_append]
  rfl

/-- A three-digit game-server token starts with `SteamGameServer00` exactly below 010. -/
theorem gameServerToken_starts_00 (n : Nat) (hn : n < 1000) :
    strstrAtStart (gameServerToken n) "SteamGameServer00" = true ↔ n < 10 := by
  rw [strstrAtStart_iff, gameServerToken_toList]
  have e : "SteamGameServer00".toList = "SteamGameServer".toList ++ [digitChar 0, digitChar 0] := by
    decide
  rw [e, List.prefix_append_right_inj]
  constructor
  · intro h
    obtain ⟨t, ht⟩ := h
    simp only [List.cons_append, List.nil_append, List.cons.injEq] at ht
    obtain ⟨h1, h2, _⟩ := ht
    have d1 := digitChar_inj _ (by norm_num) _ (Nat.mod_lt _ (by norm_num)) h1
    have d2 := digitChar_inj _ (by norm_num) _ (Nat.mod_lt _ (by norm_num)) h2
    omega
  · intro h
    have h1 : n / 100 % 10 = 0 := by omega
    have h2 : n / 10 % 10 = 0 := by omega
    rw [h1, h2]
    exact ⟨[digitChar (n % 10)], rfl⟩

/-- The test of the two init functions on a three-digit game-server token. -/
theorem legacy_test_iff (n : Nat) (hn : n < 1000) :
    (decide (gameServerToken n = "SteamGameServer010")
      || strstrAtStart (gameServerToken n) "SteamGameServer00") = true ↔ n ≤ 10 := by
  have e10 : "SteamGameServer010" = gameServerToken 10 := by decide
  rw [Bool.or_eq_true, decide_eq_true_iff, gameServerToken_starts_00 n hn, e10]
  constructor
  · rintro (h | h)
    · have := gameServerToken_inj n 10 hn (by norm_num) h
      omega
    · omega
  · intro h
    by_cases h10 : n = 10
    · left; rw [h10]
    · right; omega

theorem SteamGameServer_Init_layout (K : UserHandles) (old_client old_gameserver : String)
    (InitGameServer : Bool) (unIP usSteamPort usGamePort unknown eServerMode : Nat)
    (unknown1 unknown2 unknown3 : Nat) (g : Dll) (legacy : Bool)
    (hl : (decide (old_gameserver = "SteamGameServer010")
      || strstrAtStart old_gameserver "SteamGameServer00") = legacy) :
    (SteamGameServer_Init K old_client old_gameserver InitGameServer unIP usSteamPort usGamePort
        unknown eServerMode unknown1 unknown2 unknown3 g).2.1 = legacy
    ∧ (SteamGameServer_Init K old_client old_gameserver InitGameServer unIP usSteamPort
        usGamePort unknown eServerMode unknown1 unknown2 unknown3 g).2.2.1
      = { unIP := unIP, usPort := usSteamPort, usGamePort := usGamePort,
          usQueryPort := if legacy then eServerMode % 2 ^ 16 else unknown,
          eServerMode := if legacy then unknown1 % 2 ^ 32 else eServerMode,
          pchVersionString := if legacy then unknown3 else unknown1 }
    ∧ (SteamGameServer_InitSafe K old_client old_gameserver InitGameServer unIP usSteamPort
        usGamePort unknown eServerMode unknown1 unknown2 unknown3 g).2.1 = legacy
    ∧ (SteamGameServer_InitSafe K old_client old_gameserver InitGameServer unIP usSteamPort
        usGamePort unknown eServerMode unknown1 unknown2 unknown3 g).2.2.1
      = { unIP := unIP, usPort := usSteamPort, usGamePort := usGamePort,
          usQueryPort := if legacy then eServerMode % 2 ^ 16 else unknown,
          eServerMode := if legacy then unknown1 % 2 ^ 32 else eServerMode,
          pchVersionString := if legacy then unknown3 else unknown1 } := by
  unfold SteamGameServer_Init SteamGameServer_InitSafe
  generalize get_steam_client g = p
  obtain ⟨client, g1⟩ := p
  dsimp only
  rw [hl]
  exact ⟨rfl, rfl, rfl, rfl⟩

/-- C31. For every configured game-server interface name `SteamGameServerNNN` of three
decimal digits, `SteamGameServer_Init` and `SteamGameServer_InitSafe` read their arguments
with the legacy layout (version string from the last pointer argument, server mode from the
first pointer argument, query port from the mode argument) and call `LogOnAnonymous` if and
only if `NNN` is 010 or lower; for 011 and later they use the current layout (version string
from the first pointer argument, mode and query port as passed) and do not log on. -/
theorem C31_legacy_layout_up_to_010 (K : UserHandles) (old_client : String)
    (InitGameServer : Bool) (unIP usSteamPort usGamePort unknown eServerMode : Nat)
    (unknown1 unknown2 unknown3 : Nat) (g : Dll) (n : Nat) (hn : n < 1000) :
    ((SteamGameServer_Init K old_client (gameServerToken n) InitGameServer unIP usSteamPort
        usGamePort unknown eServerMode unknown1 unknown2 unknown3 g).2.1 = true ↔ n ≤ 10)
    ∧ ((SteamGameServer_InitSafe K old_client (gameServerToken n) InitGameServer unIP
        usSteamPort usGamePort unknown eServerMode unknown1 unknown2 unknown3 g).2.1 = true
        ↔ n ≤ 10)
    ∧ (n ≤ 10 →
        (SteamGameServer_Init K old_client (gameServerToken n) InitGameServer unIP usSteamPort
          usGamePort unknown eServerMode unknown1 unknown2 unknown3 g).2.2.1
          = { unIP := unIP, usPort := usSteamPort, usGamePort := usGamePort,
              usQueryPort := eServerMode % 2 ^ 16, eServerMode := unknown1 % 2 ^ 32,
              pchVersionString := unknown3 }
        ∧ (SteamGameServer_InitSafe K old_client (gameServerToken n) InitGameServer unIP
          usSteamPort usGamePort unknown eServerMode unknown1 unknown2 unknown3 g).2.2.1
          = { unIP := unIP, usPort := usSteamPort, usGamePort := usGamePort,
              usQueryPort := eServerMode % 2 ^ 16, eServerMode := unknown1 % 2 ^ 32,
              pchVersionString := unknown3 })
    ∧ (10 < n →
        (SteamGameServer_Init K old_client (gameServerToken n) InitGameServer unIP usSteamPort
          usGamePort unknown eServerMode unknown1 unknown2 unknown3 g).2.2.1
          = { unIP := unIP, usPort := usSteamPort, usGamePort := usGamePort,
              usQueryPort := unknown, eServerMode := eServerMode,
              pchVersionString := unknown1 }
        ∧ (SteamGameServer_InitSafe K old_client (gameServerToken n) InitGameServer unIP
          usSteamPort usGamePort unknown eServerMode unknown1 unknown2 unknown3 g).2.2.1
          = { unIP := unIP, usPort := usSteamPort, usGamePort := usGamePort,
              usQueryPort := unknown, eServerMode := eServerMode,
              pchVersionString := unknown1 }) := by
  have ht := legacy_test_iff n hn
  cases hb : (decide (gameServerToken n = "SteamGameServer010")
      || strstrAtStart (gameServerToken n) "SteamGameServer00")
  · obtain ⟨h1, h2, h3, h4⟩ := SteamGameServer_Init_layout K old_client (gameServerToken n)
      InitGameServer unIP usSteamPort usGamePort unknown eServerMode unknown1 unknown2 unknown3
      g false hb
    have hgt : ¬ n ≤ 10 := fun hle => by
      rw [ht.2 hle] at hb
      exact Bool.noConfusion hb
    refine ⟨?_, ?_, fun hle => absurd hle hgt, fun _ => ⟨h2, h4⟩⟩
    · rw [h1]
      exact ⟨fun h => Bool.noConfusion h, fun hle => absurd hle hgt⟩
    · rw [h3]
      exact ⟨fun h => Bool.noConfusion h, fun hle => absurd hle hgt⟩
  · obtain ⟨h1, h2, h3, h4⟩ := SteamGameServer_Init_layout K old_client (gameServerToken n)
      InitGameServer unIP usSteamPort usGamePort unknown eServerMode unknown1 unknown2 unknown3
      g true hb
    have hle : n ≤ 10 := ht.1 hb
    refine ⟨?_, ?_, fun _ => ⟨h2, h4⟩, fun hlt => absurd hle (Nat.not_le.2 hlt)⟩
    · rw [h1]
      exact ⟨fun _ => hle, fun _ => rfl⟩
    · rw [h3]
      exact ⟨fun _ => hle, fun _ => rfl⟩

/-- With `SteamGameServer010` configured the version string is the last pointer argument and
the server logs on anonymously; with `SteamGameServer011` it is the first one and it does
not. -/
theorem C31_legacy_layout_up_to_010_witness :
    ((SteamGameServer_Init ⟨5, 9⟩ "SteamClient017" (gameServerToken 10) true 0 27015 27016
        3 2 4096 0 8192 {}).2.1 = true ↔ 10 ≤ 10)
    ∧ (SteamGameServer_Init ⟨5, 9⟩ "SteamClient017" "SteamGameServer010" true 0 27015 27016
        3 2 4096 0 8192 {}).2.2.1.pchVersionString = 8192
    ∧ (SteamGameServer_Init ⟨5, 9⟩ "SteamClient017" "SteamGameServer011" true 0 27015 27016
        3 2 4096 0 8192 {}).2.1 = false
    ∧ (SteamGameServer_Init ⟨5, 9⟩ "SteamClient017" "SteamGameServer011" true 0 27015 27016
        3 2 4096 0 8192 {}).2.2.1.pchVersionString = 4096 :=
  ⟨(C31_legacy_layout_up_to_010 ⟨5, 9⟩ "SteamClient017" true 0 27015 27016 3 2 4096 0 8192 {}
      10 (by decide)).1,
   by decide, by decide, by decide⟩

/-! ## C32: the stop flag of the keepalive thread -/

theorem get_steam_client_kill (g : Dll) :
    (get_steam_client g).2.kill_background_thread = g.kill_background_thread := by
  unfold get_steam_client
  cases g.steamclient_instance <;> rfl

theorem create_client_interface_kill (g : Dll) (ver : String) :
    (create_client_interface g ver).2.kill_background_thread = g.kill_background_thread := by
  unfold create_client_interface
  by_cases hv : strstrAtStart ver "SteamClient" = true
  · rw [if_pos hv]
    dsimp only
    split_ifs
    · exact get_steam_client_kill g
    · exact get_steam_client_kill g
  · rw [if_neg hv]

theorem SteamInternal_CreateInterface_kill (g : Dll) (ver : String) :
    (SteamInternal_CreateInterface g ver).2.kill_background_thread
      = g.kill_background_thread := by
  rw [← get_steam_client_kill g]
  unfold SteamInternal_CreateInterface
  generalize get_steam_client g = p
  obtain ⟨client, g1⟩ := p
  dsimp only
  split_ifs
  · rfl
  · exact create_client_interface_kill g1 ver

theorem SteamGameServerClient_kill (old_client : String) (g : Dll) :
    (SteamGameServerClient old_client g).2.kill_background_thread
      = g.kill_background_thread := by
  rw [← get_steam_client_kill g]
  unfold SteamGameServerClient
  generalize get_steam_client g = p
  obtain ⟨client, g1⟩ := p
  dsimp only
  split_ifs
  · rfl
  · exact SteamInternal_CreateInterface_kill g1 old_client

/-- The shutdown of the aggregate never clears the stop flag, and sets it when it finds no
pipe and a keepalive thread running. -/
theorem BShutdownIfAllPipesClosed_kill (s : Steam_Client) (kill : Bool) :
    (kill = true → (s.BShutdownIfAllPipesClosed kill).2.2 = true)
    ∧ (s.steam_pipes.size = 0 → s.background_keepalive = true →
        (s.BShutdownIfAllPipesClosed kill).2.2 = true) := by
  unfold Steam_Client.BShutdownIfAllPipesClosed
  by_cases hp : s.steam_pipes.size ≠ 0
  · rw [if_pos hp]
    exact ⟨fun h => h, fun h0 => absurd h0 hp⟩
  · rw [if_neg hp]
    dsimp only
    constructor
    · intro h
      cases s.background_keepalive
      · exact h
      · rfl
    · intro _ hk
      rw [hk]
      rfl

theorem apiCall_run_kill (K : UserHandles) (c : ApiCall) (g : Dll)
    (h : g.kill_background_thread = true) : (c.run K g).kill_background_thread = true := by
  cases c with
  | method c => exact (get_steam_client_kill g).trans h
  | BShutdownIfAllPipesClosed =>
    have hk := (get_steam_client_kill g).trans h
    show (match get_steam_client g with
      | (client, g1) =>
        let r := Steam_Client.BShutdownIfAllPipesClosed client g1.kill_background_thread
        ({ g1 with steamclient_instance := some r.2.1, kill_background_thread := r.2.2 } :
          Dll)).kill_background_thread = true
    generalize get_steam_client g = p at hk ⊢
    obtain ⟨client, g1⟩ := p
    exact (BShutdownIfAllPipesClosed_kill client g1.kill_background_thread).1 hk
  | create_client_interface ver => exact (create_client_interface_kill g ver).trans h
  | steamclient_has_ipv6_functions => exact (get_steam_client_kill g).trans h

theorem LifecycleCall.run_kill (K : UserHandles) (old_client : String) (c : LifecycleCall)
    (g : Dll) (h : g.kill_background_thread = true) :
    (c.run K old_client g).kill_background_thread = true := by
  have hk := (get_steam_client_kill g).trans h
  cases c with
  | SteamAPI_Init =>
    show (Gbe.SteamAPI_Init K g).2.kill_background_thread = true
    unfold Gbe.SteamAPI_Init
    split_ifs
    · exact h
    · generalize get_steam_client g = p at hk ⊢
      obtain ⟨client, g1⟩ := p
      exact hk
  | SteamInternal_GameServer_Init ret =>
    show (Gbe.SteamInternal_GameServer_Init K old_client ret g).2.kill_background_thread = true
    unfold Gbe.SteamInternal_GameServer_Init
    generalize get_steam_client g = p at hk ⊢
    obtain ⟨client, g1⟩ := p
    dsimp only at hk ⊢
    split_ifs
    · exact (SteamGameServerClient_kill old_client _).trans hk
    · exact hk
  | SteamAPI_Shutdown =>
    show (Gbe.SteamAPI_Shutdown g).kill_background_thread = true
    unfold Gbe.SteamAPI_Shutdown
    generalize get_steam_client g = p at hk ⊢
    obtain ⟨client, g1⟩ := p
    dsimp only at hk ⊢
    split_ifs <;> exact (BShutdownIfAllPipesClosed_kill _ _).1 hk
  | SteamGameServer_Shutdown =>
    show (Gbe.SteamGameServer_Shutdown g).kill_background_thread = true
    unfold Gbe.SteamGameServer_Shutdown
    generalize get_steam_client g = p at hk ⊢
    obtain ⟨client, g1⟩ := p
    dsimp only at hk ⊢
    split_ifs <;> exact (BShutdownIfAllPipesClosed_kill _ _).1 hk
  | SteamAPI_ManualDispatch_Init =>
    show (Gbe.SteamAPI_ManualDispatch_Init g).kill_background_thread = true
    unfold Gbe.SteamAPI_ManualDispatch_Init
    split_ifs
    · have hm := (get_steam_client_kill { g with manual_dispatch_called := true }).trans h
      generalize get_steam_client { g with manual_dispatch_called := true } = p at hm ⊢
      obtain ⟨client, g1⟩ := p
      exact hm
    · exact h
  | other a => exact apiCall_run_kill K a g h

theorem runLifecycle_kill (K : UserHandles) (old_client : String) :
    ∀ (cs : List LifecycleCall) (g : Dll), g.kill_background_thread = true →
      (runLifecycle K old_client cs g).kill_background_thread = true := by
  intro cs
  induction cs with
  | nil => intro g h; exact h
  | cons c cs ih => intro g h; exact ih _ (LifecycleCall.run_kill K old_client c g h)

/-- C32. Once `kill_background_thread` is set, which the first `BShutdownIfAllPipesClosed`
that finds no pipe and a keepalive thread running does, it is set after every later sequence
of init, shutdown and other calls on the singleton, the destruction and rebuilding of the
aggregate included; and a keepalive thread that starts with the flag set returns in its
grace wait, whatever happens to the condition variable: it forces no dispatch and leaves the
aggregate as it is. -/
theorem C32_stop_flag_is_a_latch (K : UserHandles) (old_client : String)
    (cs : List LifecycleCall) (g : Dll) (client : Steam_Client) (notified kill_after_wait : Bool)
    (passes : List (Bool × Bool × Bool × Nat)) (hset : g.kill_background_thread = true) :
    (runLifecycle K old_client cs g).kill_background_thread = true
    ∧ background_thread client (runLifecycle K old_client cs g).kill_background_thread notified
        kill_after_wait passes = ([], client)
    ∧ (∀ (s : Steam_Client) (kill : Bool), s.steam_pipes.size = 0 →
        s.background_keepalive = true → (s.BShutdownIfAllPipesClosed kill).2.2 = true)
    ∧ (∀ s : Steam_Client, (s.BShutdownIfAllPipesClosed true).2.2 = true) := by
  have hk := runLifecycle_kill K old_client cs g hset
  refine ⟨hk, ?_, fun s kill => (BShutdownIfAllPipesClosed_kill s kill).2,
    fun s => (BShutdownIfAllPipesClosed_kill s true).1 rfl⟩
  rw [hk]
  rfl

/-- After `SteamAPI_Init(); SteamAPI_Shutdown()` the flag is set; a second `SteamAPI_Init`
rebuilds the aggregate and spawns a new keepalive thread, which returns in its grace wait
although the clock readings of its passes are far beyond the stall bound. -/
theorem C32_stop_flag_is_a_latch_witness :
    (runLifecycle ⟨5, 9⟩ "SteamClient017" [LifecycleCall.SteamAPI_Init]
        (SteamAPI_Shutdown (SteamAPI_Init ⟨5, 9⟩ {}).2)).kill_background_thread = true
    ∧ background_thread Steam_Client.new
        (runLifecycle ⟨5, 9⟩ "SteamClient017" [LifecycleCall.SteamAPI_Init]
          (SteamAPI_Shutdown (SteamAPI_Init ⟨5, 9⟩ {}).2)).kill_background_thread false false
        [(false, false, false, 5000), (false, false, false, 9000)] = ([], Steam_Client.new)
    ∧ (SteamAPI_Init ⟨5, 9⟩ (SteamAPI_Shutdown (SteamAPI_Init ⟨5, 9⟩
        {}).2)).2.steamclient_instance.map (fun c => c.background_keepalive) = some true
    ∧ (background_thread Steam_Client.new false false false
        [(false, false, false, 5000), (false, false, false, 9000)]).1
        = [Step.network_Run, Step.run_every_runcb_run, Step.network_Run,
            Step.run_every_runcb_run] :=
  ⟨(C32_stop_flag_is_a_latch ⟨5, 9⟩ "SteamClient017" [LifecycleCall.SteamAPI_Init]
      (SteamAPI_Shutdown (SteamAPI_Init ⟨5, 9⟩ {}).2) Steam_Client.new false false
      [(false, false, false, 5000), (false, false, false, 9000)] (by decide)).1,
   (C32_stop_flag_is_a_latch ⟨5, 9⟩ "SteamClient017" [LifecycleCall.SteamAPI_Init]
      (SteamAPI_Shutdown (SteamAPI_Init ⟨5, 9⟩ {}).2) Steam_Client.new false false
      [(false, false, false, 5000), (false, false, false, 9000)] (by decide)).2.1,
   by decide, by decide⟩

/-! ## C33: what a fetch does to the two queues -/

theorem GetNextCallback_queues (K : UserHandles) (g : Dll) (hSteamPipe : HSteamPipe)
    (pCallbackMsg : Bool) :
    (SteamAPI_ManualDispatch_GetNextCallback K g hSteamPipe pCallbackMsg).2.2.client_cb
        = g.client_cb
    ∧ (SteamAPI_ManualDispatch_GetNextCallback K g hSteamPipe pCallbackMsg).2.2.server_cb
        = (if (get_steam_client g).1.steamclient_server_inited then g.server_cb else []) := by
  obtain ⟨hc, hs⟩ := get_steam_client_queues g
  rw [GetNextCallback_via_singleton,
    GetNextCallback_state K _ _ (get_steam_client_registered g), ← hc, ← hs]
  cases (get_steam_client g).1.steamclient_server_inited <;> exact ⟨rfl, rfl⟩

theorem GetNextCallback_of_emptied (K : UserHandles) (g : Dll) (hSteamPipe : HSteamPipe)
    (pCallbackMsg : Bool) (h : (get_steam_client g).1.steamclient_server_inited = false) :
    SteamAPI_ManualDispatch_GetNextCallback K g hSteamPipe pCallbackMsg
      = SteamAPI_ManualDispatch_GetNextCallback K { g with server_cb := [] } hSteamPipe
          pCallbackMsg := by
  unfold SteamAPI_ManualDispatch_GetNextCallback
  rw [get_steam_client_with_server_cb g []]
  generalize get_steam_client g = p at h ⊢
  obtain ⟨client, g1⟩ := p
  dsimp only at h ⊢
  rw [h]
  rfl

/-- C33. Whenever `steamclient_server_inited` is false, which it is in a fresh aggregate and
after `ReleaseUser` with the server user handle on a registered pipe, every
`SteamAPI_ManualDispatch_GetNextCallback` call, on any pipe handle and with or without an
output structure, leaves the server queue empty and returns what it returns on the state with
the server queue emptied beforehand; when it is true the server queue is left as it is; and
the client queue is left as it is in every case. -/
theorem C33_fetch_discards_server_queue (K : UserHandles) (g : Dll) (hSteamPipe : HSteamPipe)
    (pCallbackMsg : Bool) :
    ((get_steam_client g).1.steamclient_server_inited = false →
      (SteamAPI_ManualDispatch_GetNextCallback K g hSteamPipe pCallbackMsg).2.2.server_cb = []
      ∧ SteamAPI_ManualDispatch_GetNextCallback K g hSteamPipe pCallbackMsg
          = SteamAPI_ManualDispatch_GetNextCallback K { g with server_cb := [] } hSteamPipe
              pCallbackMsg)
    ∧ ((get_steam_client g).1.steamclient_server_inited = true →
      (SteamAPI_ManualDispatch_GetNextCallback K g hSteamPipe pCallbackMsg).2.2.server_cb
        = g.server_cb)
    ∧ (SteamAPI_ManualDispatch_GetNextCallback K g hSteamPipe pCallbackMsg).2.2.client_cb
        = g.client_cb
    ∧ Steam_Client.new.steamclient_server_inited = false
    ∧ (∀ (s : Steam_Client) (k : HSteamPipe), s.steam_pipes.count k ≠ 0 →
        (s.ReleaseUser K k K.SERVER_HSTEAMUSER).steamclient_server_inited = false)
    ∧ (∀ (s : Steam_Client) (phSteamPipe : Bool),
        (s.CreateLocalUser K phSteamPipe).2.2.steamclient_server_inited = true) := by
  obtain ⟨hc, hs⟩ := GetNextCallback_queues K g hSteamPipe pCallbackMsg
  refine ⟨fun h => ⟨?_, GetNextCallback_of_emptied K g hSteamPipe pCallbackMsg h⟩, fun h => ?_,
    hc, rfl, fun s k hk => ?_, fun s p => rfl⟩
  · rw [hs, h]
    rfl
  · rw [hs, h]
    rfl
  · unfold Steam_Client.ReleaseUser
    rw [if_pos ⟨rfl, hk⟩]

/-- On `clientWithServerEvent`, whose aggregate never had a server user, a fetch on the
client pipe 1 and a fetch on the unregistered handle 7 both empty the server queue and leave
the client queue with its event. -/
theorem C33_fetch_discards_server_queue_witness :
    ((SteamAPI_ManualDispatch_GetNextCallback ⟨5, 9⟩ (clientWithServerEvent ⟨5, 9⟩) 1
        true).2.2.server_cb = []
      ∧ SteamAPI_ManualDispatch_GetNextCallback ⟨5, 9⟩ (clientWithServerEvent ⟨5, 9⟩) 1 true
          = SteamAPI_ManualDispatch_GetNextCallback ⟨5, 9⟩
              { clientWithServerEvent ⟨5, 9⟩ with server_cb := [] } 1 true)
    ∧ (SteamAPI_ManualDispatch_GetNextCallback ⟨5, 9⟩ (clientWithServerEvent ⟨5, 9⟩) 7
        false).2.2.server_cb = []
    ∧ (clientWithServerEvent ⟨5, 9⟩).server_cb = [⟨42, [0xAA]⟩]
    ∧ (SteamAPI_ManualDispatch_GetNextCallback ⟨5, 9⟩ (clientWithServerEvent ⟨5, 9⟩) 7
        false).2.2.client_cb = [⟨7, [0x01]⟩] :=
  ⟨(C33_fetch_discards_server_queue ⟨5, 9⟩ (clientWithServerEvent ⟨5, 9⟩) 1 true).1
      (by decide),
   ((C33_fetch_discards_server_queue ⟨5, 9⟩ (clientWithServerEvent ⟨5, 9⟩) 7 false).1
      (by decide)).1,
   by decide, by decide⟩

/-! ## C38: the shutdown of the aggregate needs every pipe released -/

theorem StdMap.size_eq_zero_iff (m : StdMap) : m.size = 0 ↔ ∀ h, m.find h = none := by
  cases m with
  | nil => exact ⟨fun _ _ => rfl, fun _ => rfl⟩
  | cons e rest =>
    obtain ⟨k, v⟩ := e
    constructor
    · intro h
      exact absurd h (by simp [StdMap.size])
    · intro h
      have hk := h k
      simp [StdMap.find] at hk

/-- C38. `BShutdownIfAllPipesClosed` returns true if and only if no pipe is registered. When
a pipe is registered it returns false, leaves the aggregate and the stop flag of the
keepalive thread as they are and calls nothing: the thread is not notified or joined, the
controller is not shut down and the overlay is not torn down. Without a pipe it shuts the
controller down in every case. -/
theorem C38_shutdown_only_without_pipes (s : Steam_Client) (kill disable_overlay : Bool) :
    ((s.BShutdownIfAllPipesClosed kill).1 = true ↔ ∀ h, s.steam_pipes.find h = none)
    ∧ ((∃ h, s.steam_pipes.find h ≠ none) →
        s.BShutdownIfAllPipesClosed kill = (false, s, kill)
        ∧ s.BShutdownIfAllPipesClosed_calls disable_overlay = [])
    ∧ ((∀ h, s.steam_pipes.find h = none) →
        ShutdownStep.steam_controller_Shutdown
          ∈ s.BShutdownIfAllPipesClosed_calls disable_overlay) := by
  have hz := StdMap.size_eq_zero_iff s.steam_pipes
  unfold Steam_Client.BShutdownIfAllPipesClosed Steam_Client.BShutdownIfAllPipesClosed_calls
  by_cases hp : s.steam_pipes.size ≠ 0
  · rw [if_pos hp, if_pos hp]
    refine ⟨⟨fun h => Bool.noConfusion h, fun h => absurd (hz.2 h) hp⟩, fun _ => ⟨rfl, rfl⟩,
      fun h => absurd (hz.2 h) hp⟩
  · rw [if_neg hp, if_neg hp]
    have h0 : s.steam_pipes.size = 0 := not_not.1 hp
    refine ⟨⟨fun _ => hz.1 h0, fun _ => rfl⟩, ?_, fun _ => ?_⟩
    · rintro ⟨h, hh⟩
      exact absurd (hz.1 h0 h) hh
    · simp

/-- With the pipe 1 registered nothing happens; once it is released the call returns true,
sets the stop flag of the running keepalive thread and shuts the controller down. -/
theorem C38_shutdown_only_without_pipes_witness :
    (Steam_Client.new.CreateSteamPipe.2.ConnectToGlobalUser ⟨5, 9⟩ 1).2.BShutdownIfAllPipesClosed
        false = (false, (Steam_Client.new.CreateSteamPipe.2.ConnectToGlobalUser ⟨5, 9⟩ 1).2, false)
    ∧ (Steam_Client.new.CreateSteamPipe.2.ConnectToGlobalUser ⟨5, 9⟩
        1).2.BShutdownIfAllPipesClosed_calls false = []
    ∧ (((Steam_Client.new.CreateSteamPipe.2.ConnectToGlobalUser ⟨5, 9⟩ 1).2.BReleaseSteamPipe
        1).2.BShutdownIfAllPipesClosed false).1 = true
    ∧ ((Steam_Client.new.CreateSteamPipe.2.ConnectToGlobalUser ⟨5, 9⟩ 1).2.BReleaseSteamPipe
        1).2.BShutdownIfAllPipesClosed_calls false
        = [ShutdownStep.kill_background_thread_cv_notify_one,
            ShutdownStep.steam_controller_Shutdown, ShutdownStep.steam_overlay_UnSetupOverlay,
            ShutdownStep.background_keepalive_join] :=
  ⟨((C38_shutdown_only_without_pipes
        (Steam_Client.new.CreateSteamPipe.2.ConnectToGlobalUser ⟨5, 9⟩ 1).2 false false).2.1
      ⟨1, by decide⟩).1,
   ((C38_shutdown_only_without_pipes
        (Steam_Client.new.CreateSteamPipe.2.ConnectToGlobalUser ⟨5, 9⟩ 1).2 false false).2.1
      ⟨1, by decide⟩).2,
   by decide, by decide⟩

/-! ## C39: repeated initialisation -/

theorem SteamAPI_Init_of_initialised (K : UserHandles) (g : Dll) (h : g.user_steam_pipe ≠ 0) :
    SteamAPI_Init K g = (true, g) := by
  unfold SteamAPI_Init
  rw [if_pos h]

theorem SteamAPI_Init_times_of_initialised (K : UserHandles) (n : Nat) (g : Dll)
    (h : g.user_steam_pipe ≠ 0) : SteamAPI_Init_times K n g = g := by
  induction n with
  | zero => rfl
  | succ n ih =>
    unfold SteamAPI_Init_times
    rw [SteamAPI_Init_of_initialised K g h]
    exact ih

theorem SteamAPI_Init_returns_true (K : UserHandles) (g : Dll) : (SteamAPI_Init K g).1 = true := by
  unfold SteamAPI_Init
  split_ifs
  · rfl
  · generalize get_steam_client g = p
    obtain ⟨client, g1⟩ := p
    rfl

/-- C39. `SteamAPI_Init` returns true in every state. Called when `user_steam_pipe` is not 0
it changes nothing: no pipe is created, nothing is bound, `global_counter` is unchanged. So
any number of further calls leaves the state of the first one, and one `SteamAPI_Shutdown`
after them does what it does after a single call: on a fresh process the one client pipe is
released, the count is back at 0 and the aggregate is destroyed. -/
theorem C39_init_idempotent_while_initialised (K : UserHandles) (g : Dll) (n : Nat)
    (hpipe : g.user_steam_pipe ≠ 0) :
    SteamAPI_Init K g = (true, g)
    ∧ SteamAPI_Init_times K n g = g
    ∧ (∀ g0 : Dll, (SteamAPI_Init K g0).1 = true)
    ∧ (∀ g0 : Dll, (SteamAPI_Init K g0).2.user_steam_pipe ≠ 0 →
        SteamAPI_Init_times K (n + 1) g0 = (SteamAPI_Init K g0).2)
    ∧ SteamAPI_Init_times K (n + 1) {} = (SteamAPI_Init K {}).2
    ∧ (SteamAPI_Init K {}).2.global_counter = 1
    ∧ (SteamAPI_Init K {}).2.steamclient_instance.map (fun c => c.steam_pipes)
        = some [(1, Steam_Pipe.CLIENT)]
    ∧ (SteamAPI_Shutdown (SteamAPI_Init_times K (n + 1) {})).global_counter = 0
    ∧ (SteamAPI_Shutdown (SteamAPI_Init_times K (n + 1) {})).steamclient_instance = none := by
  have hfresh : (SteamAPI_Init K {}).2.user_steam_pipe ≠ 0 := by
    show (1 : Int) ≠ 0
    decide
  have hrep : ∀ g0 : Dll, (SteamAPI_Init K g0).2.user_steam_pipe ≠ 0 →
      SteamAPI_Init_times K (n + 1) g0 = (SteamAPI_Init K g0).2 := by
    intro g0 h0
    show SteamAPI_Init_times K n (SteamAPI_Init K g0).2 = _
    exact SteamAPI_Init_times_of_initialised K n _ h0
  have hone : (SteamAPI_Init K {}).2.global_counter = 1 := rfl
  have hzero : (SteamAPI_Shutdown (SteamAPI_Init_times K (n + 1) {})).global_counter = 0 := by
    rw [hrep {} hfresh, SteamAPI_Shutdown_counter, hone, Nat.add_sub_cancel_left, Nat.mod_self]
  refine ⟨SteamAPI_Init_of_initialised K g hpipe, SteamAPI_Init_times_of_initialised K n g hpipe,
    SteamAPI_Init_returns_true K, hrep, hrep {} hfresh, rfl, rfl, ?_, ?_⟩
  · exact hzero
  · exact (Shutdown_instance_iff _).1.2 hzero

/-- Three calls of `SteamAPI_Init` on a fresh process leave the state of one call. -/
theorem C39_init_idempotent_while_initialised_witness :
    SteamAPI_Init ⟨5, 9⟩ (SteamAPI_Init ⟨5, 9⟩ {}).2 = (true, (SteamAPI_Init ⟨5, 9⟩ {}).2)
    ∧ SteamAPI_Init_times ⟨5, 9⟩ 2 (SteamAPI_Init ⟨5, 9⟩ {}).2 = (SteamAPI_Init ⟨5, 9⟩ {}).2
    ∧ (SteamAPI_Init_times ⟨5, 9⟩ 3 {}).global_counter = 1 :=
  ⟨(C39_init_idempotent_while_initialised ⟨5, 9⟩ (SteamAPI_Init ⟨5, 9⟩ {}).2 2
      (by decide)).1,
   (C39_init_idempotent_while_initialised ⟨5, 9⟩ (SteamAPI_Init ⟨5, 9⟩ {}).2 2
      (by decide)).2.1,
   by decide⟩

/-! ## C34: the generic getter with user handle 0 -/

/-- A token that starts with a family name `q` that no other family name extends selects
the family of `q`. -/
theorem selectFamily_of_only (v q : String) (fam : Steam_Client.Family)
    (hq : (q, fam) ∈ Steam_Client.GetISteamGenericInterface_families)
    (hstart : strstrAtStart v q = true)
    (honly : ∀ e ∈ Steam_Client.GetISteamGenericInterface_families,
      strstrAtStart e.1 q = true → e.2 = fam) :
    ∃ p, Steam_Client.selectFamily v = some (p, fam) := by
  obtain ⟨e, hfind, hmem, hes, hlen⟩ :=
    find_longest v _ families_longestFirst (q, fam) hq hstart
  have hp : q.toList <+: e.1.toList := by
    apply List.prefix_of_prefix_length_le ((strstrAtStart_iff _ _).1 hstart)
      ((strstrAtStart_iff _ _).1 hes)
    show q.length ≤ e.1.length
    exact hlen
  have hfam := honly e hmem ((strstrAtStart_iff _ _).2 hp)
  refine ⟨e.1, ?_⟩
  rw [← hfam]
  exact hfind

theorem selectFamily_SteamUtils (v : String) (h : strstrAtStart v "SteamUtils" = true) :
    ∃ p, Steam_Client.selectFamily v = some (p, Steam_Client.Family.Utils) :=
  selectFamily_of_only v "SteamUtils" _ (by decide) h (by decide)

theorem selectFamily_SteamNetworkingUtils (v : String)
    (h : strstrAtStart v "SteamNetworkingUtils" = true) :
    ∃ p, Steam_Client.selectFamily v = some (p, Steam_Client.Family.NetworkingUtils) :=
  selectFamily_of_only v "SteamNetworkingUtils" _ (by decide) h (by decide)

theorem StdMap.count_ne_zero_of_find (m : StdMap) (h : HSteamPipe) (r : Steam_Pipe)
    (hf : m.find h = some r) : m.count h ≠ 0 := by
  intro e
  rw [(StdMap.count_eq_zero_iff _ _).1 e] at hf
  exact Option.noConfusion hf

/-- With user handle 0 the branch of a family returns a pointer exactly for the families
handled inline and for `SteamUtils`. -/
theorem genericBranch_zero_user (s : Steam_Client) (server : Bool) (h : HSteamPipe)
    (v : String) (f : Steam_Client.Family) (hc : s.steam_pipes.count h ≠ 0) :
    (Steam_Client.genericBranch s server 0 h v f).1 ≠ none
      ↔ f ∈ inlineFamilies ∨ f = Steam_Client.Family.Utils := by
  cases f <;>
    simp [Steam_Client.genericBranch, hc, inlineFamilies,
      Steam_Client.GetISteamUser, Steam_Client.GetISteamGameServer,
      Steam_Client.GetISteamFriends, Steam_Client.GetISteamUtils,
      Steam_Client.GetISteamMatchmaking, Steam_Client.GetISteamMatchmakingServers,
      Steam_Client.GetISteamUserStats, Steam_Client.GetISteamGameServerStats,
      Steam_Client.GetISteamApps, Steam_Client.GetISteamNetworking,
      Steam_Client.GetISteamRemoteStorage, Steam_Client.GetISteamScreenshots,
      Steam_Client.GetISteamHTTP, Steam_Client.DEPRECATED_GetISteamUnifiedMessages,
      Steam_Client.GetISteamController, Steam_Client.GetISteamUGC,
      Steam_Client.GetISteamAppList, Steam_Client.GetISteamMusic,
      Steam_Client.GetISteamMusicRemote, Steam_Client.GetISteamHTMLSurface,
      Steam_Client.GetISteamInventory, Steam_Client.GetISteamVideo,
      Steam_Client.GetISteamParentalSettings, Steam_Client.GetISteamMasterServerUpdater,
      Steam_Client.GetISteamGameSearch, Steam_Client.GetISteamInput,
      Steam_Client.GetISteamParties, Steam_Client.GetISteamRemotePlay,
      Steam_Client.GetAppTicket]

theorem GetISteamGenericInterface_client_zero_user (s : Steam_Client) (h : HSteamPipe)
    (v : String) (hc : s.steam_pipes.count h ≠ 0)
    (hrole : s.steam_pipes.find h ≠ some Steam_Pipe.SERVER) :
    (s.GetISteamGenericInterface 0 h v).1 ≠ none
      ↔ strstrAtStart v "SteamUtils" = true ∨ strstrAtStart v "SteamNetworkingUtils" = true := by
  have hserver : decide (s.steam_pipes.find h = some Steam_Pipe.SERVER) = false :=
    decide_eq_false hrole
  unfold Steam_Client.GetISteamGenericInterface
  rw [if_neg hc]
  dsimp only
  rw [hserver]
  by_cases hu : strstrAtStart v "SteamUtils" = true
  · obtain ⟨p, hsel⟩ := selectFamily_SteamUtils v hu
    rw [if_neg (by simp [hu]), hsel]
    exact ⟨fun _ => Or.inl hu,
      fun _ => (genericBranch_zero_user s false h v _ hc).2 (Or.inr rfl)⟩
  · by_cases hn : strstrAtStart v "SteamNetworkingUtils" = true
    · obtain ⟨p, hsel⟩ := selectFamily_SteamNetworkingUtils v hn
      rw [if_neg (by simp [hn]), hsel]
      exact ⟨fun _ => Or.inr hn,
        fun _ => (genericBranch_zero_user s false h v _ hc).2 (Or.inl (by decide))⟩
    · have hu0 : strstrAtStart v "SteamUtils" = false := by simpa using hu
      have hn0 : strstrAtStart v "SteamNetworkingUtils" = false := by simpa using hn
      rw [if_pos ⟨rfl, hn0, hu0, rfl⟩]
      exact ⟨fun hx => absurd rfl hx, fun hx => by rcases hx with hx | hx <;> contradiction⟩

/-- C34. With user handle 0, `GetISteamGenericInterface` on a pipe of role `CLIENT` or
`NO_USER` returns a pointer if and only if the token starts with `SteamUtils` or with
`SteamNetworkingUtils`; on a pipe of role `SERVER` it returns a pointer if and only if the
family the token selects is one of the families handled inline
(`SteamNetworkingSocketsSerialized`, `SteamNetworkingSockets`, `SteamNetworkingMessages`,
`SteamNetworkingUtils`, `SteamGameCoordinator`, `STEAMTV_INTERFACE_V`) or `SteamUtils`, so
every other delegated family, and a token of no family, gives `NULL`. -/
theorem C34_zero_user_handle_in_generic_getter (s : Steam_Client) (hSteamPipe : HSteamPipe)
    (pchVersion : String) :
    ((s.steam_pipes.find hSteamPipe = some Steam_Pipe.CLIENT
        ∨ s.steam_pipes.find hSteamPipe = some Steam_Pipe.NO_USER) →
      ((s.GetISteamGenericInterface 0 hSteamPipe pchVersion).1 ≠ none
        ↔ strstrAtStart pchVersion "SteamUtils" = true
          ∨ strstrAtStart pchVersion "SteamNetworkingUtils" = true))
    ∧ (s.steam_pipes.find hSteamPipe = some Steam_Pipe.SERVER →
        (∀ (p : String) (f : Steam_Client.Family),
          Steam_Client.selectFamily pchVersion = some (p, f) →
          ((s.GetISteamGenericInterface 0 hSteamPipe pchVersion).1 ≠ none
            ↔ f ∈ inlineFamilies ∨ f = Steam_Client.Family.Utils))
        ∧ (Steam_Client.selectFamily pchVersion = none →
            (s.GetISteamGenericInterface 0 hSteamPipe pchVersion).1 = none)) := by
  constructor
  · intro hrole
    apply GetISteamGenericInterface_client_zero_user
    · rcases hrole with e | e <;> exact StdMap.count_ne_zero_of_find _ _ _ e
    · rcases hrole with e | e <;> rw [e] <;> decide
  · intro hrole
    have hc := StdMap.count_ne_zero_of_find _ _ _ hrole
    have hserver : decide (s.steam_pipes.find hSteamPipe = some Steam_Pipe.SERVER) = true :=
      decide_eq_true hrole
    unfold Steam_Client.GetISteamGenericInterface
    rw [if_neg hc]
    dsimp only
    rw [hserver, if_neg (fun hx => Bool.noConfusion hx.1)]
    refine ⟨fun p f hsel => ?_, fun hsel => ?_⟩
    · rw [hsel]
      exact genericBranch_zero_user s true hSteamPipe pchVersion f hc
    · rw [hsel]

/-- On the client pipe 1 with user handle 0, `SteamUtils010` and `SteamNetworkingUtils004`
resolve and `SteamUser023` does not; on the server pipe 1 of another aggregate
`SteamNetworkingSockets012` and `SteamUtils010` resolve and `SteamGameServer015` does
not. -/
theorem zero_user_handle_examples :
    ((Steam_Client.new.CreateSteamPipe.2.ConnectToGlobalUser ⟨5, 9⟩ 1).2.GetISteamGenericInterface
        0 1 "SteamUtils010").1 = some ⟨Subsystem.steam_utils, "ISteamUtils"⟩
    ∧ ((Steam_Client.new.CreateSteamPipe.2.ConnectToGlobalUser ⟨5, 9⟩
        1).2.GetISteamGenericInterface 0 1 "SteamNetworkingUtils004").1
        = some ⟨Subsystem.steam_networking_utils, "ISteamNetworkingUtils"⟩
    ∧ ((Steam_Client.new.CreateSteamPipe.2.ConnectToGlobalUser ⟨5, 9⟩
        1).2.GetISteamGenericInterface 0 1 "SteamUser023").1 = none
    ∧ ((Steam_Client.new.CreateLocalUser ⟨5, 9⟩ true).2.2.GetISteamGenericInterface 0 1
        "SteamNetworkingSockets012").1
        = some ⟨Subsystem.steam_gameserver_networking_sockets, "ISteamNetworkingSockets"⟩
    ∧ ((Steam_Client.new.CreateLocalUser ⟨5, 9⟩ true).2.2.GetISteamGenericInterface 0 1
        "SteamUtils010").1 = some ⟨Subsystem.steam_gameserver_utils, "ISteamUtils"⟩
    ∧ ((Steam_Client.new.CreateLocalUser ⟨5, 9⟩ true).2.2.GetISteamGenericInterface 0 1
        "SteamGameServer015").1 = none := by
  decide

/-- With user handle 0, `SteamUtils010` resolves on the client pipe 1 and the delegated
family of `SteamGameServer015` gives `NULL` on the server pipe 1. -/
theorem C34_zero_user_handle_in_generic_getter_witness :
    ((Steam_Client.new.CreateSteamPipe.2.ConnectToGlobalUser ⟨5, 9⟩ 1).2.GetISteamGenericInterface
        0 1 "SteamUtils010").1 ≠ none
    ∧ ((Steam_Client.new.CreateLocalUser ⟨5, 9⟩ true).2.2.GetISteamGenericInterface 0 1
        "SteamGameServer015").1 = none :=
  ⟨((C34_zero_user_handle_in_generic_getter
        (Steam_Client.new.CreateSteamPipe.2.ConnectToGlobalUser ⟨5, 9⟩ 1).2 1
        "SteamUtils010").1 (Or.inl (by decide))).2 (Or.inl (by decide)),
   of_not_not (fun hx => absurd
     ((((C34_zero_user_handle_in_generic_getter
        (Steam_Client.new.CreateLocalUser ⟨5, 9⟩ true).2.2 1 "SteamGameServer015").2
        (by decide)).1 "SteamGameServer" Steam_Client.Family.GameServer (by decide)).1 hx)
     (by decide))⟩

/-! ## C35: the object of a role-split family -/

/-- Whatever the branch of a family returns points into the object `Family.object` gives for
the role of the pipe. -/
theorem genericBranch_object (s : Steam_Client) (u : HSteamUser) (h : HSteamPipe) (v : String)
    (f : Steam_Client.Family) (a : Adapter)
    (ha : (Steam_Client.genericBranch s (decide (s.steam_pipes.find h = some Steam_Pipe.SERVER))
      u h v f).1 = some a) :
    a.object = f.object (decide (s.steam_pipes.find h = some Steam_Pipe.SERVER)) := by
  cases f <;>
    simp only [Steam_Client.genericBranch,
      Steam_Client.GetISteamUser, Steam_Client.GetISteamGameServer,
      Steam_Client.GetISteamFriends, Steam_Client.GetISteamUtils,
      Steam_Client.GetISteamMatchmaking, Steam_Client.GetISteamMatchmakingServers,
      Steam_Client.GetISteamUserStats, Steam_Client.GetISteamGameServerStats,
      Steam_Client.GetISteamApps, Steam_Client.GetISteamNetworking,
      Steam_Client.GetISteamRemoteStorage, Steam_Client.GetISteamScreenshots,
      Steam_Client.GetISteamHTTP, Steam_Client.DEPRECATED_GetISteamUnifiedMessages,
      Steam_Client.GetISteamController, Steam_Client.GetISteamUGC,
      Steam_Client.GetISteamAppList, Steam_Client.GetISteamMusic,
      Steam_Client.GetISteamMusicRemote, Steam_Client.GetISteamHTMLSurface,
      Steam_Client.GetISteamInventory, Steam_Client.GetISteamVideo,
      Steam_Client.GetISteamParentalSettings, Steam_Client.GetISteamMasterServerUpdater,
      Steam_Client.GetISteamGameSearch, Steam_Client.GetISteamInput,
      Steam_Client.GetISteamParties, Steam_Client.GetISteamRemotePlay,
      Steam_Client.GetAppTicket] at ha <;>
    (try split_ifs at ha) <;>
    first
    | exact Option.noConfusion ha
    | (have e := Option.some.inj ha
       subst e
       simp [Steam_Client.Family.object, *])

theorem GetISteamGenericInterface_object (s : Steam_Client) (u : HSteamUser) (h : HSteamPipe)
    (v p : String) (f : Steam_Client.Family) (a : Adapter)
    (hsel : Steam_Client.selectFamily v = some (p, f))
    (ha : (s.GetISteamGenericInterface u h v).1 = some a) :
    a.object = f.object (decide (s.steam_pipes.find h = some Steam_Pipe.SERVER)) := by
  unfold Steam_Client.GetISteamGenericInterface at ha
  rw [hsel] at ha
  dsimp only at ha
  split_ifs at ha
  exact genericBranch_object s u h v f a ha

theorem Resolver.call_object (r : Resolver) (s : Steam_Client) (u : HSteamUser)
    (h : HSteamPipe) (v : String) (f : Steam_Client.Family) (a : Adapter)
    (hrf : r.family = some f) (ha : (r.call s u h v).1 = some a) :
    a.object = f.object (decide (s.steam_pipes.find h = some Steam_Pipe.SERVER)) := by
  apply genericBranch_object s u h v f a
  cases r <;> simp only [Resolver.family, Option.some.injEq, reduceCtorEq] at hrf <;>
    subst hrf <;> exact ha

/-- C35. For each role-split family (Utils, Apps, Networking, HTTP, UGC, Inventory,
NetworkingSockets, NetworkingSocketsSerialized, NetworkingMessages, GameCoordinator), on a
registered pipe with a nonzero user handle the getter of the family, and
`GetISteamGenericInterface` for a token that selects the family, return an adapter of the
object `Family.object` gives for the role: that of the game server when the role is `SERVER`
and that of the client for `CLIENT` and `NO_USER`, two different objects.  Any adapter
returned, whatever the user handle and the token, points into that object, so two tokens
give the same object. -/
theorem C35_role_split_object_by_pipe_role (s : Steam_Client) (hSteamUser : HSteamUser)
    (hSteamPipe : HSteamPipe) (pchVersion : String) (f : Steam_Client.Family)
    (hf : f ∈ roleSplitFamilies) :
    (∀ (r : Resolver) (a : Adapter), r.family = some f →
      (r.call s hSteamUser hSteamPipe pchVersion).1 = some a →
      a.object
        = f.object (decide (s.steam_pipes.find hSteamPipe = some Steam_Pipe.SERVER)))
    ∧ (∀ (p : String) (a : Adapter), Steam_Client.selectFamily pchVersion = some (p, f) →
      (s.GetISteamGenericInterface hSteamUser hSteamPipe pchVersion).1 = some a →
      a.object
        = f.object (decide (s.steam_pipes.find hSteamPipe = some Steam_Pipe.SERVER)))
    ∧ (s.steam_pipes.find hSteamPipe ≠ none → hSteamUser ≠ 0 →
        (∀ r : Resolver, r.family = some f →
          ∃ a, (r.call s hSteamUser hSteamPipe pchVersion).1 = some a)
        ∧ (∀ p : String, Steam_Client.selectFamily pchVersion = some (p, f) →
          ∃ a, (s.GetISteamGenericInterface hSteamUser hSteamPipe pchVersion).1 = some a))
    ∧ f.object true ≠ f.object false
    ∧ (∀ (r : Resolver) (v1 v2 : String) (a1 a2 : Adapter), r.family = some f →
        (r.call s hSteamUser hSteamPipe v1).1 = some a1 →
        (r.call s hSteamUser hSteamPipe v2).1 = some a2 → a1.object = a2.object)
    ∧ (∀ (v1 v2 p1 p2 : String) (a1 a2 : Adapter),
        Steam_Client.selectFamily v1 = some (p1, f) →
        Steam_Client.selectFamily v2 = some (p2, f) →
        (s.GetISteamGenericInterface hSteamUser hSteamPipe v1).1 = some a1 →
        (s.GetISteamGenericInterface hSteamUser hSteamPipe v2).1 = some a2 →
        a1.object = a2.object) := by
  refine ⟨fun r a hrf ha => Resolver.call_object r s _ _ _ f a hrf ha,
    fun p a hsel ha => GetISteamGenericInterface_object s _ _ _ p f a hsel ha,
    fun hreg hu => ?_, ?_, fun r v1 v2 a1 a2 hrf h1 h2 => ?_,
    fun v1 v2 p1 p2 a1 a2 s1 s2 h1 h2 => ?_⟩
  · have hc : s.steam_pipes.count hSteamPipe ≠ 0 := by
      intro e
      exact hreg ((StdMap.count_eq_zero_iff _ _).1 e)
    have hb : ∀ v : String, ∃ a, (Steam_Client.genericBranch s
        (decide (s.steam_pipes.find hSteamPipe = some Steam_Pipe.SERVER))
        hSteamUser hSteamPipe v f).1 = some a := by
      intro v
      simp only [roleSplitFamilies, List.mem_cons, List.mem_singleton, List.not_mem_nil,
        or_false] at hf
      rcases hf with e | e | e | e | e | e | e | e | e | e <;> subst e <;>
        simp [Steam_Client.genericBranch, hc, hu, Steam_Client.GetISteamUtils,
          Steam_Client.GetISteamApps, Steam_Client.GetISteamNetworking,
          Steam_Client.GetISteamHTTP, Steam_Client.GetISteamUGC,
          Steam_Client.GetISteamInventory]
    constructor
    · intro r hrf
      obtain ⟨a, ha⟩ := hb pchVersion
      refine ⟨a, ?_⟩
      cases r <;> simp only [Resolver.family, Option.some.injEq, reduceCtorEq] at hrf <;>
        subst hrf <;> exact ha
    · intro p hsel
      obtain ⟨a, ha⟩ := hb pchVersion
      refine ⟨a, ?_⟩
      unfold Steam_Client.GetISteamGenericInterface
      simp only [hc, hu, hsel, if_false, and_false]
      exact ha
  · simp only [roleSplitFamilies, List.mem_cons, List.mem_singleton, List.not_mem_nil,
      or_false] at hf
    rcases hf with e | e | e | e | e | e | e | e | e | e <;> subst e <;> decide
  · rw [Resolver.call_object r s _ _ _ f a1 hrf h1, Resolver.call_object r s _ _ _ f a2 hrf h2]
  · rw [GetISteamGenericInterface_object s _ _ _ p1 f a1 s1 h1,
      GetISteamGenericInterface_object s _ _ _ p2 f a2 s2 h2]

/-- The Apps getter on the server pipe 1 returns an adapter of the game-server apps
object for the old version `STEAMAPPS_INTERFACE_VERSION001`. -/
theorem C35_role_split_object_by_pipe_role_witness :
    ∃ a : Adapter,
      (Resolver.GetISteamApps.call (Steam_Client.new.CreateLocalUser ⟨5, 9⟩ true).2.2 9 1
        "STEAMAPPS_INTERFACE_VERSION001").1 = some a
      ∧ a.object = Subsystem.steam_gameserver_apps := by
  obtain ⟨a, ha⟩ := ((C35_role_split_object_by_pipe_role
    (Steam_Client.new.CreateLocalUser ⟨5, 9⟩ true).2.2 9 1 "STEAMAPPS_INTERFACE_VERSION001"
    Steam_Client.Family.Apps (by decide)).2.2.1 (by decide) (by decide)).1
    Resolver.GetISteamApps rfl
  exact ⟨a, ha, ((C35_role_split_object_by_pipe_role
    (Steam_Client.new.CreateLocalUser ⟨5, 9⟩ true).2.2 9 1 "STEAMAPPS_INTERFACE_VERSION001"
    Steam_Client.Family.Apps (by decide)).1 Resolver.GetISteamApps a rfl ha).trans
    (by decide)⟩

/-- The objects returned on a server pipe, a client pipe and an unbound pipe. -/
theorem role_split_object_examples :
    (Resolver.GetISteamApps.call (Steam_Client.new.CreateLocalUser ⟨5, 9⟩ true).2.2 9 1
        "STEAMAPPS_INTERFACE_VERSION001").1
      = some ⟨Subsystem.steam_gameserver_apps, "ISteamApps001"⟩
    ∧ (Resolver.GetISteamApps.call
        (Steam_Client.new.CreateSteamPipe.2.ConnectToGlobalUser ⟨5, 9⟩ 1).2 5 1
        "STEAMAPPS_INTERFACE_VERSION008").1 = some ⟨Subsystem.steam_apps, "ISteamApps"⟩
    ∧ (Resolver.GetISteamUtils.call Steam_Client.new.CreateSteamPipe.2 5 1 "SteamUtils010").1
      = some ⟨Subsystem.steam_utils, "ISteamUtils"⟩
    ∧ (Steam_Client.new.CreateSteamPipe.2.GetISteamGenericInterface 5 1
        "SteamGameCoordinator001").1
      = some ⟨Subsystem.steam_game_coordinator, "ISteamGameCoordinator"⟩
    ∧ ((Steam_Client.new.CreateLocalUser ⟨5, 9⟩ true).2.2.GetISteamGenericInterface 9 1
        "SteamGameCoordinator001").1
      = some ⟨Subsystem.steam_gameserver_game_coordinator, "ISteamGameCoordinator"⟩ := by
  decide

/-! ## C36: the client IPv6 flag is only ever raised -/

theorem SteamInternal_CreateInterface_flag (g : Dll) (ver : String)
    (h : g.steamclient_has_ipv6_functions_flag = true) :
    (SteamInternal_CreateInterface g ver).2.steamclient_has_ipv6_functions_flag = true := by
  have hk := (get_steam_client_flag g).trans h
  unfold SteamInternal_CreateInterface
  generalize get_steam_client g = p at hk ⊢
  obtain ⟨client, g1⟩ := p
  dsimp only at hk ⊢
  split_ifs
  · exact hk
  · exact create_client_interface_flag g1 ver hk

theorem SteamGameServerClient_flag (old_client : String) (g : Dll)
    (h : g.steamclient_has_ipv6_functions_flag = true) :
    (SteamGameServerClient old_client g).2.steamclient_has_ipv6_functions_flag = true := by
  have hk := (get_steam_client_flag g).trans h
  unfold SteamGameServerClient
  generalize get_steam_client g = p at hk ⊢
  obtain ⟨client, g1⟩ := p
  dsimp only at hk ⊢
  split_ifs
  · exact hk
  · exact SteamInternal_CreateInterface_flag g1 old_client hk

theorem apiCall_run_flag (K : UserHandles) (c : ApiCall) (g : Dll)
    (h : g.steamclient_has_ipv6_functions_flag = true) :
    (c.run K g).steamclient_has_ipv6_functions_flag = true := by
  cases c with
  | method c => exact (get_steam_client_flag g).trans h
  | BShutdownIfAllPipesClosed => exact (get_steam_client_flag g).trans h
  | create_client_interface ver => exact create_client_interface_flag g ver h
  | steamclient_has_ipv6_functions => exact (get_steam_client_flag g).trans h

theorem LifecycleCall.run_ipv6_flag (K : UserHandles) (old_client : String)
    (c : LifecycleCall) (g : Dll) (h : g.steamclient_has_ipv6_functions_flag = true) :
    (c.run K old_client g).steamclient_has_ipv6_functions_flag = true := by
  have hk := (get_steam_client_flag g).trans h
  cases c with
  | SteamAPI_Init =>
    show (Gbe.SteamAPI_Init K g).2.steamclient_has_ipv6_functions_flag = true
    unfold Gbe.SteamAPI_Init
    split_ifs
    · exact h
    · generalize get_steam_client g = p at hk ⊢
      obtain ⟨client, g1⟩ := p
      exact hk
  | SteamInternal_GameServer_Init ret =>
    show (Gbe.SteamInternal_GameServer_Init K old_client ret
      g).2.steamclient_has_ipv6_functions_flag = true
    unfold Gbe.SteamInternal_GameServer_Init
    generalize get_steam_client g = p at hk ⊢
    obtain ⟨client, g1⟩ := p
    dsimp only at hk ⊢
    split_ifs
    · exact SteamGameServerClient_flag old_client _ hk
    · exact hk
  | SteamAPI_Shutdown =>
    show (Gbe.SteamAPI_Shutdown g).steamclient_has_ipv6_functions_flag = true
    unfold Gbe.SteamAPI_Shutdown
    generalize get_steam_client g = p at hk ⊢
    obtain ⟨client, g1⟩ := p
    dsimp only at hk ⊢
    split_ifs <;> exact hk
  | SteamGameServer_Shutdown =>
    show (Gbe.SteamGameServer_Shutdown g).steamclient_has_ipv6_functions_flag = true
    unfold Gbe.SteamGameServer_Shutdown
    generalize get_steam_client g = p at hk ⊢
    obtain ⟨client, g1⟩ := p
    dsimp only at hk ⊢
    split_ifs <;> exact hk
  | SteamAPI_ManualDispatch_Init =>
    show (Gbe.SteamAPI_ManualDispatch_Init g).steamclient_has_ipv6_functions_flag = true
    unfold Gbe.SteamAPI_ManualDispatch_Init
    split_ifs
    · have hm := (get_steam_client_flag { g with manual_dispatch_called := true }).trans h
      generalize get_steam_client { g with manual_dispatch_called := true } = p at hm ⊢
      obtain ⟨client, g1⟩ := p
      exact hm
    · exact h
  | other a => exact apiCall_run_flag K a g h

theorem runLifecycle_flag (K : UserHandles) (old_client : String) :
    ∀ (cs : List LifecycleCall) (g : Dll), g.steamclient_has_ipv6_functions_flag = true →
      (runLifecycle K old_client cs g).steamclient_has_ipv6_functions_flag = true := by
  intro cs
  induction cs with
  | nil => intro g h; exact h
  | cons c cs ih => intro g h; exact ih _ (LifecycleCall.run_ipv6_flag K old_client c g h)

/-- The branch `create_client_interface` takes sets the flag exactly for the names it does
not list: the current version and the unrecognised ones. -/
theorem create_client_interface_branch_flag (ver : String) :
    (strcmpChain create_client_interface_versions ("ISteamClient", true) ver).2 = true
      ↔ ver ∉ create_client_interface_versions.map Prod.fst := by
  constructor
  · intro h hmem
    simp only [create_client_interface_versions, List.map_cons, List.map_nil, List.mem_cons,
      List.mem_singleton, List.not_mem_nil, or_false] at hmem
    rcases hmem with e | e | e | e | e | e | e | e | e | e | e | e | e | e <;> subst e <;>
      exact absurd h (by decide)
  · intro h
    rw [strcmpChain_of_not_mem _ _ _ h]

theorem create_client_interface_raises (g : Dll) (ver : String)
    (h0 : g.steamclient_has_ipv6_functions_flag = false) :
    (create_client_interface g ver).2.steamclient_has_ipv6_functions_flag = true
      ↔ (strstrAtStart ver "SteamClient" = true
          ∧ ver ∉ create_client_interface_versions.map Prod.fst) := by
  have hk := (get_steam_client_flag g).trans h0
  unfold create_client_interface
  by_cases hv : strstrAtStart ver "SteamClient" = true
  · rw [if_pos hv]
    dsimp only
    rw [← create_client_interface_branch_flag]
    by_cases hb : (strcmpChain create_client_interface_versions ("ISteamClient", true) ver).2
        = true
    · rw [if_pos hb]
      exact ⟨fun _ => ⟨hv, hb⟩, fun _ => rfl⟩
    · rw [if_neg hb, hk]
      exact ⟨fun hx => Bool.noConfusion hx, fun hx => absurd hx.2 hb⟩
  · rw [if_neg hv, h0]
    exact ⟨fun hx => Bool.noConfusion hx, fun hx => absurd hx.1 hv⟩

/-- C36. Once `steamclient_has_ipv6_functions_flag` is true it is true after every sequence
of lifecycle calls (inits, shutdowns that destroy the aggregate, calls on the singleton) and
after `destroy_client`, and `steamclient_has_ipv6_functions()` returns true there, also right
after the aggregate was destroyed.  `create_client_interface` raises the flag exactly for the
names that start with `SteamClient` and are not one of the listed versions: the current
version and the unrecognised ones.  The aggregate constructed when there is none has
`gameserver_has_ipv6_functions` false. -/
theorem C36_client_ipv6_flag_survives_rebuild (K : UserHandles) (old_client : String)
    (cs : List LifecycleCall) (g : Dll)
    (hflag : g.steamclient_has_ipv6_functions_flag = true) :
    (runLifecycle K old_client cs g).steamclient_has_ipv6_functions_flag = true
    ∧ (steamclient_has_ipv6_functions (runLifecycle K old_client cs g)).1 = true
    ∧ (destroy_client g).steamclient_has_ipv6_functions_flag = true
    ∧ (steamclient_has_ipv6_functions (destroy_client g)).1 = true
    ∧ (get_steam_client (destroy_client g)).1.gameserver_has_ipv6_functions = false
    ∧ (∀ (g0 : Dll) (ver : String), g0.steamclient_has_ipv6_functions_flag = false →
        ((create_client_interface g0 ver).2.steamclient_has_ipv6_functions_flag = true
          ↔ (strstrAtStart ver "SteamClient" = true
              ∧ ver ∉ create_client_interface_versions.map Prod.fst)))
    ∧ (∀ g0 : Dll, g0.steamclient_instance = none →
        (get_steam_client g0).1.gameserver_has_ipv6_functions = false) := by
  have hrun := runLifecycle_flag K old_client cs g hflag
  have hd : (destroy_client g).steamclient_has_ipv6_functions_flag = true := hflag
  refine ⟨hrun, (steamclient_has_ipv6_functions_iff _).2 (Or.inl hrun), hd,
    (steamclient_has_ipv6_functions_iff _).2 (Or.inl hd), rfl,
    fun g0 ver h0 => create_client_interface_raises g0 ver h0, fun g0 h0 => ?_⟩
  unfold get_steam_client
  rw [h0]
  rfl

/-- After `SteamAPI_Init`, `create_client_interface("SteamClient999")` raises the flag; the
matching `SteamAPI_Shutdown` destroys the aggregate, a game-server init rebuilds it, and the
query still returns true although the new aggregate has its own flag false. -/
theorem C36_client_ipv6_flag_survives_rebuild_witness :
    (create_client_interface (SteamAPI_Init ⟨5, 9⟩ {}).2
        "SteamClient999").2.steamclient_has_ipv6_functions_flag = true
    ∧ (SteamAPI_Shutdown (create_client_interface (SteamAPI_Init ⟨5, 9⟩ {}).2
        "SteamClient999").2).steamclient_instance = none
    ∧ (steamclient_has_ipv6_functions
        (runLifecycle ⟨5, 9⟩ "SteamClient017"
          [LifecycleCall.SteamAPI_Shutdown, LifecycleCall.SteamInternal_GameServer_Init true]
          (create_client_interface (SteamAPI_Init ⟨5, 9⟩ {}).2 "SteamClient999").2)).1 = true
    ∧ ((runLifecycle ⟨5, 9⟩ "SteamClient017"
          [LifecycleCall.SteamAPI_Shutdown, LifecycleCall.SteamInternal_GameServer_Init true]
          (create_client_interface (SteamAPI_Init ⟨5, 9⟩ {}).2
            "SteamClient999").2).steamclient_instance.map
        (fun c => c.gameserver_has_ipv6_functions)) = some false :=
  ⟨by decide, by decide,
   (C36_client_ipv6_flag_survives_rebuild ⟨5, 9⟩ "SteamClient017"
      [LifecycleCall.SteamAPI_Shutdown, LifecycleCall.SteamInternal_GameServer_Init true]
      (create_client_interface (SteamAPI_Init ⟨5, 9⟩ {}).2 "SteamClient999").2
      (by decide)).2.1,
   by decide⟩

/-! ## C37: which names give a client interface -/

/-- C37. `create_client_interface` returns a pointer if and only if the name starts with
`SteamClient`; `CreateInterface` returns what `create_client_interface` returns.
`SteamInternal_CreateInterface` returns `NULL` for every name when the client is not logged
in and the server is not initialised; otherwise it returns the pointer
`create_client_interface` returns, and the same state when the aggregate exists. -/
theorem C37_client_interface_by_name (g : Dll) (ver : String) :
    ((create_client_interface g ver).1 ≠ none ↔ strstrAtStart ver "SteamClient" = true)
    ∧ CreateInterface g ver = create_client_interface g ver
    ∧ ((get_steam_client g).1.user_logged_in = false →
        (get_steam_client g).1.IsServerInit = false →
        (SteamInternal_CreateInterface g ver).1 = none)
    ∧ (((get_steam_client g).1.user_logged_in = true
          ∨ (get_steam_client g).1.IsServerInit = true) →
        (SteamInternal_CreateInterface g ver).1 = (create_client_interface g ver).1
        ∧ SteamInternal_CreateInterface g ver
            = create_client_interface (get_steam_client g).2 ver
        ∧ (g.steamclient_instance ≠ none →
            SteamInternal_CreateInterface g ver = create_client_interface g ver)) := by
  refine ⟨?_, rfl, fun hu hs => ?_, fun hor => ?_⟩
  · unfold create_client_interface
    by_cases hv : strstrAtStart ver "SteamClient" = true
    · rw [if_pos hv]
      exact ⟨fun _ => hv, fun _ => Option.noConfusion⟩
    · rw [if_neg hv]
      exact ⟨fun hx => absurd rfl hx, fun hx => absurd hx hv⟩
  · unfold SteamInternal_CreateInterface
    generalize get_steam_client g = p at hu hs ⊢
    obtain ⟨client, g1⟩ := p
    dsimp only at hu hs ⊢
    rw [hu, hs]
    rfl
  · have hmain : SteamInternal_CreateInterface g ver
        = create_client_interface (get_steam_client g).2 ver := by
      unfold SteamInternal_CreateInterface
      generalize get_steam_client g = p at hor ⊢
      obtain ⟨client, g1⟩ := p
      dsimp only at hor ⊢
      rw [if_neg]
      rcases hor with e | e <;> rw [e] <;> simp
    refine ⟨?_, hmain, fun hi => ?_⟩
    · rw [hmain]
      unfold create_client_interface
      split_ifs <;> rfl
    · rw [hmain]
      cases hc : g.steamclient_instance with
      | none => exact absurd hc hi
      | some client => rw [get_steam_client_some g client hc]

/-- Before any login `SteamInternal_CreateInterface` gives `NULL` for `SteamClient017`,
and `create_client_interface` gives a pointer for `SteamClientXYZ` and none for
`SteamUser023`. -/
theorem C37_client_interface_by_name_witness :
    (SteamInternal_CreateInterface {} "SteamClient017").1 = none
    ∧ (create_client_interface {} "SteamClientXYZ").1 ≠ none
    ∧ (create_client_interface {} "SteamUser023").1 = none :=
  ⟨(C37_client_interface_by_name {} "SteamClient017").2.2.1 (by decide) (by decide),
   (C37_client_interface_by_name {} "SteamClientXYZ").1.2 (by decide),
   of_not_not (fun hx => absurd ((C37_client_interface_by_name {} "SteamUser023").1.1 hx)
     (by decide))⟩

/-- The names `SteamClient`, `SteamClientXYZ` and `SteamClient017` give a pointer, the names
`SteamUser023`, `steamclient017` and the empty name give `NULL`; before any login
`SteamInternal_CreateInterface` gives `NULL` for `SteamClient017`, after `SteamAPI_Init` it
gives the pointer of `create_client_interface`. -/
theorem client_interface_by_name_examples :
    (create_client_interface {} "SteamClient").1 = some "ISteamClient"
    ∧ (create_client_interface {} "SteamClientXYZ").1 = some "ISteamClient"
    ∧ (CreateInterface {} "SteamClient017").1 = some "ISteamClient017"
    ∧ (create_client_interface {} "SteamUser023").1 = none
    ∧ (create_client_interface {} "steamclient017").1 = none
    ∧ (create_client_interface {} "").1 = none
    ∧ (SteamInternal_CreateInterface {} "SteamClient017").1 = none
    ∧ (SteamInternal_CreateInterface (SteamAPI_Init ⟨5, 9⟩ {}).2 "SteamClient017").1
        = some "ISteamClient017" := by
  decide

end Gbe
